import Mathlib

/-!
rapidRTOS: the task directory, the command parser and the plugin lifecycle.

A shallow embedding of `src/rapidRTOS_manager.h` (class `rapidRTOS_manager`) and
`src/rapidRTOS.h` (struct `rapidFunction`, class `rapidPlugin`).

Conventions of the embedding:

* a C string is the list of its characters before the terminator (`List Char` for
  command text and buffers, `String` for task names); the terminator is `NUL`;
* `TaskHandle_t` and `QueueHandle_t` are natural numbers, `0` being `NULL`;
* the arrays of `rapidRTOS_MAX_MODULES` elements are functions on
  `Fin rapidRTOS_MAX_MODULES`; an element assignment is `Function.update`;
* the two character arrays of `rapidFunction` are lists of 16 and 48 cells; a write
  at an index outside the array is an error of the model (`ParseError`), as is
  moving the read pointer beyond the terminator of the parsed text;
* calls into the FreeRTOS kernel are recorded, in program order, as a list of
  `Effect`s; what the kernel answers (the handle of a created queue, the result of an
  `xTaskCreate` and the handle it stores) is an input, and every call is taken to
  return to its caller;
* `_iID` is an array of 32 bytes: a `sprintf` whose text and terminator do not fit it
  is an error of the model (`RunError`), as it is for `messageBuffer` (`LoopError`);
* `int` and `unsigned long` have 32 bits, as on the targets of the library.

The build without `BOARD_ESP32` and without `ANSI_OUTPUT` is the one embedded.
-/

namespace RapidRTOS

/-! ## Data model -/

/-- The value of `rapidRTOS_MAX_MODULES` (its default, 10). -/
abbrev rapidRTOS_MAX_MODULES : Nat := 10

/-- The value of `rapidRTOS_DEFAULT_INTERFACE_BUFFER` (its default, 64). -/
abbrev rapidRTOS_DEFAULT_INTERFACE_BUFFER : Nat := 64

/-- A task handle; `0` is `NULL`. -/
abbrev TaskHandle_t := Nat

/-- A queue handle; `0` is `NULL`. -/
abbrev QueueHandle_t := Nat

/-- The FreeRTOS type `BaseType_t`, a signed integer: the result type of `run` and of
`xTaskCreate`. -/
abbrev BaseType_t := Int

/-- The FreeRTOS constant `pdPASS`: what `xTaskCreate` returns when it has created the
task. -/
def pdPASS : BaseType_t := 1

/-- The FreeRTOS constant `errCOULD_NOT_ALLOCATE_REQUIRED_MEMORY`: what `xTaskCreate`
returns when it could not create the task. -/
def errCOULD_NOT_ALLOCATE_REQUIRED_MEMORY : BaseType_t := -1

/-- The string terminator. -/
def NUL : Char := Char.ofNat 0

/-- A value of type `QueueHandle_t*`: `NULL`, the address of the `_taskQueue` or of the
`_taskResponse` member of the plugin object `plugin`, or some other address. -/
inductive QueueRef where
  | null
  | taskQueue (plugin : Nat)
  | taskResponse (plugin : Nat)
  | other (address : Nat)
deriving DecidableEq, Repr

/-- The enum `rapidDebug`; `other` stands for a cast value such as `(rapidDebug)255`. -/
inductive rapidDebug where
  | ERROR
  | WARNING
  | INFO
  | other (code : Nat)
deriving DecidableEq, Repr

/-- The struct `rapidFunction`: `char function[16]; char parameters[48];`, each array
given as the list of its cells. -/
structure rapidFunction where
  function : List Char
  parameters : List Char
deriving DecidableEq, Repr

/-- Both arrays of a `rapidFunction` have their declared sizes. -/
def rapidFunction.sized (r : rapidFunction) : Prop :=
  r.function.length = 16 ∧ r.parameters.length = 48

instance (r : rapidFunction) : Decidable r.sized := by
  unfold rapidFunction.sized; infer_instance

/-- The C string stored in a character array: its cells before the first terminator. -/
def cstr (buffer : List Char) : List Char :=
  buffer.takeWhile (fun c => c != NUL)

/-- The private data of `rapidRTOS_manager`: four parallel arrays and the debug level. -/
structure rapidRTOS_manager where
  _taskNames : Fin rapidRTOS_MAX_MODULES → String
  _taskHandles : Fin rapidRTOS_MAX_MODULES → TaskHandle_t
  _taskQueues : Fin rapidRTOS_MAX_MODULES → QueueRef
  _responseQueues : Fin rapidRTOS_MAX_MODULES → QueueRef
  _debugLevel : Nat

/-- The protected data of `rapidPlugin`. -/
structure rapidPlugin where
  _pID : String
  _iID : String
  _taskHandle : TaskHandle_t
  _interfaceHandle : TaskHandle_t
  _taskQueue : QueueHandle_t
  _taskResponse : QueueHandle_t
deriving DecidableEq, Repr

/-- One observable action: a kernel call with its arguments (and the answer the kernel
gave), a consultation of the plugin-specific `interface` override, or one `print` /
`printf` on the debug stream. -/
inductive Effect where
  | xQueueCreate (created : QueueHandle_t)
  | xTaskCreate (pcName : String) (created : Option TaskHandle_t)
  | vTaskDelete (task : TaskHandle_t)
  | vQueueDelete (queue : QueueHandle_t)
  | xQueueSend (queue : QueueHandle_t) (item : List Char)
  | xQueueReceive (queue : QueueHandle_t)
  | interface (incoming : rapidFunction)
  | print (text : String)
deriving DecidableEq, Repr

/-! ## `rapidRTOS_manager`: the directory -/

/-- The scan `for (i = 0; i < rapidRTOS_MAX_MODULES; i++) if (cond(i)) ...` with an
early exit: the index at which the loop leaves, from index `i` on. -/
def scanFrom (cond : Fin rapidRTOS_MAX_MODULES → Bool) :
    Nat → Nat → Option (Fin rapidRTOS_MAX_MODULES)
  | 0, _ => none
  | fuel + 1, i =>
    if h : i < rapidRTOS_MAX_MODULES then
      if cond ⟨i, h⟩ then some ⟨i, h⟩ else scanFrom cond fuel (i + 1)
    else none

/-- The first index whose slot satisfies `cond`, scanning upwards from 0. -/
def firstSlot (cond : Fin rapidRTOS_MAX_MODULES → Bool) :
    Option (Fin rapidRTOS_MAX_MODULES) :=
  scanFrom cond rapidRTOS_MAX_MODULES 0

/-- The constructor: every name becomes `""`, `_debugLevel` is 0; the other three arrays
are not initialised and keep whatever `uninit` holds. (The manager task it spawns
plays no role in the directory and is left out.) -/
def rapidRTOS_manager.new (uninit : rapidRTOS_manager) : rapidRTOS_manager :=
  { uninit with _taskNames := fun _ => "", _debugLevel := 0 }

/-- The member `reg`: store the entry in the first slot whose name is `""` and return 1; return 0
when no slot has the name `""`. -/
def rapidRTOS_manager.reg (m : rapidRTOS_manager) (taskHandle : TaskHandle_t)
    (taskName : String) (command response : QueueRef) : Nat × rapidRTOS_manager :=
  match firstSlot (fun i => decide (m._taskNames i = "")) with
  | some i =>
    (1, { m with
          _taskNames := Function.update m._taskNames i taskName
          _taskHandles := Function.update m._taskHandles i taskHandle
          _taskQueues := Function.update m._taskQueues i command
          _responseQueues := Function.update m._responseQueues i response })
  | none => (0, m)

/-- The member `dereg`: reset the first slot whose name equals `taskName` and return 1; return 0
when no slot has that name. -/
def rapidRTOS_manager.dereg (m : rapidRTOS_manager) (taskName : String) :
    Nat × rapidRTOS_manager :=
  match firstSlot (fun i => decide (m._taskNames i = taskName)) with
  | some i =>
    (1, { m with
          _taskNames := Function.update m._taskNames i ""
          _taskHandles := Function.update m._taskHandles i 0
          _taskQueues := Function.update m._taskQueues i QueueRef.null
          _responseQueues := Function.update m._responseQueues i QueueRef.null })
  | none => (0, m)

/-- The member `getTaskHandle`: the handle of the first slot whose name equals `taskName`, `NULL`
when there is none. -/
def rapidRTOS_manager.getTaskHandle (m : rapidRTOS_manager) (taskName : String) :
    TaskHandle_t :=
  match firstSlot (fun i => decide (m._taskNames i = taskName)) with
  | some i => m._taskHandles i
  | none => 0

/-- The counting loop of `getNumTasks`, from index `i` on, `numTasks` being a `uint8_t`. -/
def countFrom (cond : Fin rapidRTOS_MAX_MODULES → Bool) : Nat → Nat → Nat → Nat
  | 0, _, numTasks => numTasks
  | fuel + 1, i, numTasks =>
    if h : i < rapidRTOS_MAX_MODULES then
      countFrom cond fuel (i + 1) (if cond ⟨i, h⟩ then (numTasks + 1) % 256 else numTasks)
    else numTasks

/-- The member `getNumTasks`: the number of slots whose name differs from `""`. -/
def rapidRTOS_manager.getNumTasks (m : rapidRTOS_manager) : Nat :=
  countFrom (fun i => decide (m._taskNames i ≠ "")) rapidRTOS_MAX_MODULES 0 0

/-- The text `printf` writes for the conversion `%d` when it is handed the `unsigned long`
that `millis()` returns: the 32 bits are read as an `int`, so from `2 ^ 31` on the text
is that of the negative number `value - 2 ^ 32`. -/
def printfSigned (value : Nat) : String :=
  if value % 2 ^ 32 < 2 ^ 31 then toString (value % 2 ^ 32)
  else "-" ++ toString (2 ^ 32 - value % 2 ^ 32)

/-- The member `printDebug` with a message type: when `_debugLevel >= debugLevel`, the tag, the
time stamp and the formatted message are printed, one stream call each. `millis` is
the value `millis()` returns and `formatted` the text `printf(message, args...)` writes. -/
def rapidRTOS_manager.printDebug (m : rapidRTOS_manager) (debugLevel : Nat)
    (messageType : rapidDebug) (millis : Nat) (formatted : String) : List Effect :=
  if m._debugLevel ≥ debugLevel then
    [ Effect.print (match messageType with
        | rapidDebug.ERROR => "[ERROR]"
        | rapidDebug.WARNING => "[WARNING]"
        | rapidDebug.INFO => "[INFO]"
        | rapidDebug.other _ => "[DEBUG]"),
      Effect.print (" (" ++ printfSigned millis ++ ") "),
      Effect.print formatted ]
  else []

/-! ## `rapidRTOS_manager::parse` -/

/-- What makes the behaviour of `parse` undefined: a write outside `function[16]`, a
write outside `parameters[48]`, or `message++` at the terminator of the text (what is
read afterwards is not part of the text). `outOfFuel` does not arise: the loop is run
with more fuel than the text has characters, and each pass moves `message` forward. -/
inductive ParseError where
  | functionOverflow
  | parametersOverflow
  | readPastTerminator
  | outOfFuel
deriving DecidableEq, Repr

deriving instance DecidableEq for Except

/-- The assignment `returnMessage.function[i] = c`. -/
def writeFunction (r : rapidFunction) (i : Nat) (c : Char) : Except ParseError rapidFunction :=
  if i < 16 then Except.ok { r with function := r.function.set i c }
  else Except.error ParseError.functionOverflow

/-- The assignment `returnMessage.parameters[i] = c`. -/
def writeParameters (r : rapidFunction) (i : Nat) (c : Char) :
    Except ParseError rapidFunction :=
  if i < 48 then Except.ok { r with parameters := r.parameters.set i c }
  else Except.error ParseError.parametersOverflow

/-- The read `message[0]`: the first remaining character, the terminator when none is
left. -/
def peek (message : List Char) : Char :=
  message.headD NUL

/-- The increment `message++`. -/
def advance : List Char → Except ParseError (List Char)
  | [] => Except.error ParseError.readPastTerminator
  | c :: rest => if c = NUL then Except.error ParseError.readPastTerminator else Except.ok rest

/-- The local variables of `parse`; `message` is the text from the read pointer on. -/
structure ParseState where
  returnMessage : rapidFunction
  functionIndex : Nat
  parameterIndex : Nat
  functionComplete : Bool
  messageComplete : Bool
  message : List Char
deriving DecidableEq, Repr

/-- One pass through the body of the `while` loop of `parse`. -/
def parseBody (s : ParseState) : Except ParseError ParseState :=
  if !s.functionComplete then
    (writeFunction s.returnMessage s.functionIndex (peek s.message)).bind fun r1 =>
    (advance s.message).bind fun message1 =>
    let messageComplete1 := if peek message1 = ')' then true else s.messageComplete
    if peek message1 = '(' then
      (writeFunction r1 (s.functionIndex + 1) NUL).bind fun r2 =>
      Except.ok { s with returnMessage := r2, functionIndex := s.functionIndex + 1,
                         functionComplete := true, messageComplete := messageComplete1,
                         message := message1 }
    else
      Except.ok { s with returnMessage := r1, functionIndex := s.functionIndex + 1,
                         messageComplete := messageComplete1, message := message1 }
  else
    (if peek s.message = '(' then advance s.message else Except.ok s.message).bind
      fun message1 =>
    (if peek message1 ≠ ')' then
        (writeParameters s.returnMessage s.parameterIndex (peek message1)).bind fun r1 =>
        (advance message1).bind fun message2 =>
        Except.ok (r1, s.parameterIndex + 1, message2)
      else Except.ok (s.returnMessage, s.parameterIndex, message1)).bind
      fun (r1, parameterIndex1, message2) =>
    if peek message2 = ')' then
      (writeParameters r1 parameterIndex1 NUL).bind fun r2 =>
      (advance message2).bind fun message3 =>
      Except.ok { s with returnMessage := r2, parameterIndex := parameterIndex1,
                         messageComplete := true, message := message3 }
    else
      Except.ok { s with returnMessage := r1, parameterIndex := parameterIndex1,
                         message := message2 }

/-- The loop `while (message[0] != 0 && !messageComplete) body`. -/
def parseLoop : Nat → ParseState → Except ParseError ParseState
  | 0, _ => Except.error ParseError.outOfFuel
  | fuel + 1, s =>
    if peek s.message ≠ NUL ∧ s.messageComplete = false then
      (parseBody s).bind (parseLoop fuel)
    else Except.ok s

/-- The member `parse`: `uninit` is the content of the local `returnMessage` before the
first write (it is not initialised). After the loop both fields get a terminator at
their index. -/
def rapidRTOS_manager.parse (uninit : rapidFunction) (message : List Char) :
    Except ParseError rapidFunction :=
  (parseLoop (message.length + 1)
    { returnMessage := uninit, functionIndex := 0, parameterIndex := 0,
      functionComplete := false, messageComplete := false, message := message }).bind fun s =>
  (writeFunction s.returnMessage s.functionIndex NUL).bind fun r =>
  writeParameters r s.parameterIndex NUL

/-- The characters the parameter branch of `parse` stores while it scans `text`, the
text between the read pointer and the first `)`: a `(` found at the start of a pass is
stepped over and the character after it is stored. -/
def storedParameters : List Char → List Char
  | [] => []
  | [c] => if c = '(' then [] else [c]
  | c :: d :: rest =>
    if c = '(' then d :: storedParameters rest else c :: storedParameters (d :: rest)

/-! ## `rapidPlugin`: the lifecycle -/

/-- What the kernel answers to one `xTaskCreate`: the `BaseType_t` it returns, and the
handle it stores through its last argument, if it stores one (`none`: the member the
argument points to keeps the value it has). FreeRTOS answers `pdPASS` with the handle
of the new task stored, or `errCOULD_NOT_ALLOCATE_REQUIRED_MEMORY` with nothing
stored. -/
structure SpawnAnswer where
  returned : BaseType_t
  stored : Option TaskHandle_t
deriving DecidableEq, Repr

/-- What the kernel answers to the calls `run` makes: the handles returned by the two
`xQueueCreate` calls (`0` when the queue could not be created), and the answer to each
`xTaskCreate`. -/
structure KernelAnswers where
  taskQueue : QueueHandle_t
  taskResponse : QueueHandle_t
  worker : SpawnAnswer
  interface : SpawnAnswer
deriving DecidableEq, Repr

/-- What makes a call of `run` undefined: its `sprintf` writes beyond the 32 bytes of
`_iID`. -/
inductive RunError where
  | iIDOverflow
deriving DecidableEq, Repr

/-- What a call of `run` yields: the value returned, the plugin object and the directory
afterwards, and the effects in program order. -/
structure RunResult where
  returned : BaseType_t
  plugin : rapidPlugin
  manager : rapidRTOS_manager
  effects : List Effect

/-- What a call of `stop`, or one pass of the interface loop, yields: the plugin object
and the directory afterwards, and the effects in program order. -/
structure Outcome where
  plugin : rapidPlugin
  manager : rapidRTOS_manager
  effects : List Effect

/-- A plugin object after construction: the four handle members have the initialiser
`NULL`; the name is set by the derived class. -/
def rapidPlugin.new (pID : String) (iID : String) : rapidPlugin :=
  { _pID := pID, _iID := iID, _taskHandle := 0, _interfaceHandle := 0,
    _taskQueue := 0, _taskResponse := 0 }

/-- The `else` branch of `run`: delete `_taskHandle`, delete both queues, clear the
three members, return 0. `before` holds the effects up to that point. -/
def rapidPlugin.runRollback (p : rapidPlugin) (m : rapidRTOS_manager) (before : List Effect) :
    RunResult :=
  { returned := 0
    plugin := { p with _taskHandle := 0, _taskQueue := 0, _taskResponse := 0 }
    manager := m
    effects := before ++ [Effect.vTaskDelete p._taskHandle, Effect.vQueueDelete p._taskQueue,
                          Effect.vQueueDelete p._taskResponse] }

/-- The `sprintf(_iID, "i_%s", _pID)` of `run`: the text and its terminator have to fit
the 32 bytes of `_iID`, that is, the name has at most 29 characters. -/
def sprintf_iID (pID : String) : Except RunError String :=
  if ("i_" ++ pID).length < 32 then Except.ok ("i_" ++ pID)
  else Except.error RunError.iIDOverflow

/-- The statements of `run` that follow its `sprintf`, for the plugin object number
`this` and the directory `m`. The arguments `child`, `stackDepth`, `interfaceDepth`,
`queueSize` and `priority` are only passed on to the kernel, whose answers are `k`.
Each `xTaskCreate` stores a handle, if it does, before its result is tested; the result
is tested as a truth value (any value other than 0 counts as true), and the `&&` does
not attempt the second spawn when the first result is 0. `reg` is handed `_taskHandle`
as it stands. -/
def rapidPlugin.runAfterSprintf (this : Nat) (p0 : rapidPlugin) (m : rapidRTOS_manager)
    (k : KernelAnswers) : RunResult :=
  if m.getTaskHandle p0._pID = 0 then
    let p1 := { p0 with _taskQueue := k.taskQueue, _taskResponse := k.taskResponse }
    let created := [Effect.xQueueCreate k.taskQueue, Effect.xQueueCreate k.taskResponse]
    let p2 := { p1 with _taskHandle := k.worker.stored.getD p1._taskHandle }
    if k.worker.returned ≠ 0 then
      let p3 := { p2 with _interfaceHandle := k.interface.stored.getD p2._interfaceHandle }
      if k.interface.returned ≠ 0 then
        let registered :=
          m.reg p3._taskHandle p3._pID (QueueRef.taskQueue this) (QueueRef.taskResponse this)
        { returned := (registered.1 : Int)
          plugin := p3
          manager := registered.2
          effects := created ++ [Effect.xTaskCreate p3._pID k.worker.stored,
                                 Effect.xTaskCreate p3._iID k.interface.stored] }
      else
        rapidPlugin.runRollback p3 m
          (created ++ [Effect.xTaskCreate p3._pID k.worker.stored,
                       Effect.xTaskCreate p3._iID k.interface.stored])
    else
      rapidPlugin.runRollback p2 m (created ++ [Effect.xTaskCreate p2._pID k.worker.stored])
  else { returned := 0, plugin := p0, manager := m, effects := [] }

/-- The member `run`: the `sprintf` into `_iID`, then the statements that follow it. -/
def rapidPlugin.run (this : Nat) (p : rapidPlugin) (m : rapidRTOS_manager) (k : KernelAnswers) :
    Except RunError RunResult :=
  (sprintf_iID p._pID).bind fun iID =>
    Except.ok (rapidPlugin.runAfterSprintf this { p with _iID := iID } m k)

/-- The member `stop`: when `_taskHandle` is not `NULL`, delete the interface task (when
its handle is not `NULL`) and the worker task, clear `_taskHandle`, deregister the
name, delete both queues and clear their handles. `_interfaceHandle` is not assigned. -/
def rapidPlugin.stop (p : rapidPlugin) (m : rapidRTOS_manager) : Outcome :=
  if p._taskHandle ≠ 0 then
    { plugin := { p with _taskHandle := 0, _taskQueue := 0, _taskResponse := 0 }
      manager := (m.dereg p._pID).2
      effects :=
        (if p._interfaceHandle ≠ 0 then [Effect.vTaskDelete p._interfaceHandle] else []) ++
          [Effect.vTaskDelete p._taskHandle, Effect.vQueueDelete p._taskQueue,
           Effect.vQueueDelete p._taskResponse] }
  else { plugin := p, manager := m, effects := [] }

/-- A call of `stop` followed by a call of `run` on the same plugin object, nothing else
touching the directory in between. -/
def rapidPlugin.stopThenRun (this : Nat) (p : rapidPlugin) (m : rapidRTOS_manager)
    (k : KernelAnswers) : Except RunError RunResult :=
  rapidPlugin.run this (rapidPlugin.stop p m).plugin (rapidPlugin.stop p m).manager k

/-- The base-class `interface`: it handles nothing and leaves the buffer alone. The
first component is the returned `uint8_t`, the second the text in `messageBuffer`
afterwards. -/
def rapidPlugin.interface (_incoming : rapidFunction) (messageBuffer : List Char) :
    Nat × List Char :=
  (0, messageBuffer)

/-- What makes one pass of the interface loop undefined: `parse` is, or a `sprintf`
writes beyond `messageBuffer`. -/
inductive LoopError where
  | parse (e : ParseError)
  | messageBufferOverflow
deriving DecidableEq, Repr

/-- A `sprintf(messageBuffer, ...)` that produces `text`: the text and its terminator
have to fit the `rapidRTOS_DEFAULT_INTERFACE_BUFFER` bytes of the buffer. -/
def sprintfMessageBuffer (text : List Char) : Except LoopError (List Char) :=
  if text.length < rapidRTOS_DEFAULT_INTERFACE_BUFFER then Except.ok text
  else Except.error LoopError.messageBufferOverflow

/-- One pass of the `for ( ;; )` loop of `interface_loop`, from the receipt of
`incomingMessage` to the sending of the response. `interface` is the virtual member
the plugin's class provides, `uninit` the content of the local of `parse` before its
first write, `millis` the clock reading used by `printDebug`. The result is the plugin,
the directory and the effects in program order. The `continue` and `break` of the
`do ... while (false)` block both lead to the send. In the `stop` branch the effects
are those of the statements as written; a kernel that ends the running task at its own
`vTaskDelete` performs none of the later ones. -/
def rapidPlugin.interface_loop (interface : rapidFunction → List Char → Nat × List Char)
    (uninit : rapidFunction) (millis : Nat) (plugin : rapidPlugin) (m : rapidRTOS_manager)
    (incomingMessage : List Char) : Except LoopError Outcome :=
  let received := [Effect.xQueueReceive plugin._taskQueue]
  match rapidRTOS_manager.parse uninit incomingMessage with
  | Except.error e => Except.error (LoopError.parse e)
  | Except.ok incoming =>
    if cstr incoming.function = "identity".toList then
      (sprintfMessageBuffer plugin._pID.toList).bind fun messageBuffer =>
      Except.ok
        { plugin := plugin, manager := m,
          effects := received ++ [Effect.xQueueSend plugin._taskResponse messageBuffer] }
    else if cstr incoming.function = "stop".toList then
      let stopped := rapidPlugin.stop plugin m
      Except.ok
        { plugin := stopped.plugin, manager := stopped.manager,
          effects := received ++ stopped.effects ++
            [Effect.xQueueSend stopped.plugin._taskResponse []] }
    else
      let handled := interface incoming []
      if handled.1 ≠ 0 then
        Except.ok
          { plugin := plugin, manager := m,
            effects := received ++ [Effect.interface incoming,
                                    Effect.xQueueSend plugin._taskResponse handled.2] }
      else
        (sprintfMessageBuffer
          ("unknown_function(".toList ++ cstr incoming.function ++ ")".toList)).bind
          fun messageBuffer =>
        Except.ok
          { plugin := plugin, manager := m,
            effects := received ++ [Effect.interface incoming] ++
              m.printDebug 1 rapidDebug.ERROR millis
                (plugin._pID ++ ": unknown_function(" ++ String.mk (cstr incoming.function)
                  ++ ")\n") ++
              [Effect.xQueueSend plugin._taskResponse messageBuffer] }

/-! ## Sequences of calls -/

/-- A call of the directory's registration interface. -/
inductive DirectoryCall where
  | reg (taskHandle : TaskHandle_t) (taskName : String) (command response : QueueRef)
  | dereg (taskName : String)
deriving DecidableEq, Repr

/-- The directory after one registration call. -/
def DirectoryCall.apply (m : rapidRTOS_manager) : DirectoryCall → rapidRTOS_manager
  | DirectoryCall.reg taskHandle taskName command response =>
    (m.reg taskHandle taskName command response).2
  | DirectoryCall.dereg taskName => (m.dereg taskName).2

/-- The directory after a sequence of registration calls, made in order. -/
def rapidRTOS_manager.afterCalls (m : rapidRTOS_manager) (calls : List DirectoryCall) :
    rapidRTOS_manager :=
  calls.foldl DirectoryCall.apply m

/-- A call on one plugin object: `run` with the directory it finds and the kernel's
answers, or `stop` with the directory it finds. -/
inductive PluginCall where
  | run (this : Nat) (m : rapidRTOS_manager) (k : KernelAnswers)
  | stop (m : rapidRTOS_manager)

/-- The plugin object after one call; a `run` that is undefined leaves none. -/
def PluginCall.apply (p : rapidPlugin) : PluginCall → Except RunError rapidPlugin
  | PluginCall.run this m k => (rapidPlugin.run this p m k).map fun result => result.plugin
  | PluginCall.stop m => Except.ok (rapidPlugin.stop p m).plugin

/-- The plugin object after a sequence of calls, made in order. -/
def rapidPlugin.afterCalls : rapidPlugin → List PluginCall → Except RunError rapidPlugin
  | p, [] => Except.ok p
  | p, call :: rest => (PluginCall.apply p call).bind fun p1 => rapidPlugin.afterCalls p1 rest

/-- The program state the lifecycle acts on: the one directory and the plugin objects,
numbered. -/
structure World where
  manager : rapidRTOS_manager
  plugins : Nat → rapidPlugin

/-- A whole call of `run` or `stop` on the plugin object number `this`. -/
inductive LifecycleCall where
  | run (this : Nat) (k : KernelAnswers)
  | stop (this : Nat)
deriving DecidableEq, Repr

/-- The program state after one lifecycle call; a `run` that is undefined leaves none. -/
def LifecycleCall.apply (w : World) : LifecycleCall → Except RunError World
  | LifecycleCall.run this k =>
    (rapidPlugin.run this (w.plugins this) w.manager k).map fun result =>
      { manager := result.manager, plugins := Function.update w.plugins this result.plugin }
  | LifecycleCall.stop this =>
    let result := rapidPlugin.stop (w.plugins this) w.manager
    Except.ok
      { manager := result.manager, plugins := Function.update w.plugins this result.plugin }

/-- The program state after a sequence of lifecycle calls, made in order. -/
def World.afterCalls : World → List LifecycleCall → Except RunError World
  | w, [] => Except.ok w
  | w, call :: rest => (LifecycleCall.apply w call).bind fun w1 => World.afterCalls w1 rest

/-- The spawn succeeded, as FreeRTOS reports it: the result is `pdPASS` and the handle
of the new task, which is not `NULL`, has been stored. -/
def SpawnAnswer.succeeded (a : SpawnAnswer) : Prop :=
  a.returned = pdPASS ∧ a.stored.isSome = true ∧ a.stored ≠ some 0

/-- The spawn failed, as FreeRTOS reports it: the result is
`errCOULD_NOT_ALLOCATE_REQUIRED_MEMORY` and nothing has been stored. -/
def SpawnAnswer.failed (a : SpawnAnswer) : Prop :=
  a.returned = errCOULD_NOT_ALLOCATE_REQUIRED_MEMORY ∧ a.stored = none

instance (a : SpawnAnswer) : Decidable a.succeeded := by
  unfold SpawnAnswer.succeeded; infer_instance

instance (a : SpawnAnswer) : Decidable a.failed := by
  unfold SpawnAnswer.failed; infer_instance

/-- Both task spawns of a `run` have succeeded. -/
def KernelAnswers.tasksSpawned (k : KernelAnswers) : Prop :=
  k.worker.succeeded ∧ k.interface.succeeded

/-- Both `xQueueCreate` calls of a `run` have created their queue. -/
def KernelAnswers.queuesCreated (k : KernelAnswers) : Prop :=
  k.taskQueue ≠ 0 ∧ k.taskResponse ≠ 0

instance (k : KernelAnswers) : Decidable k.tasksSpawned := by
  unfold KernelAnswers.tasksSpawned; infer_instance

instance (k : KernelAnswers) : Decidable k.queuesCreated := by
  unfold KernelAnswers.queuesCreated; infer_instance

/-- No two slots with a name other than `""` hold the same name. -/
def rapidRTOS_manager.uniqueNames (m : rapidRTOS_manager) : Prop :=
  ∀ i j : Fin rapidRTOS_MAX_MODULES,
    m._taskNames i ≠ "" → m._taskNames i = m._taskNames j → i = j

/-- Every slot with a name other than `""` has a handle other than `NULL`. -/
def rapidRTOS_manager.activeHandles (m : rapidRTOS_manager) : Prop :=
  ∀ i : Fin rapidRTOS_MAX_MODULES, m._taskNames i ≠ "" → m._taskHandles i ≠ 0

instance (m : rapidRTOS_manager) : Decidable m.uniqueNames := by
  unfold rapidRTOS_manager.uniqueNames; infer_instance

instance (m : rapidRTOS_manager) : Decidable m.activeHandles := by
  unfold rapidRTOS_manager.activeHandles; infer_instance

/-- Some slot with a name other than `""` holds `taskName`: the name is active. -/
def rapidRTOS_manager.active (m : rapidRTOS_manager) (taskName : String) : Prop :=
  ∃ i : Fin rapidRTOS_MAX_MODULES, m._taskNames i ≠ "" ∧ m._taskNames i = taskName

instance (m : rapidRTOS_manager) (taskName : String) : Decidable (m.active taskName) := by
  unfold rapidRTOS_manager.active; infer_instance

/-- Every `reg` of the sequence, made in order from the directory `m` on, is made for a
name that is not active at the time of the call (the discipline the guard of `run`
stands for). -/
def guardedCalls : rapidRTOS_manager → List DirectoryCall → Prop
  | _, [] => True
  | m, DirectoryCall.reg taskHandle taskName command response :: rest =>
    ¬ m.active taskName ∧
      guardedCalls (m.reg taskHandle taskName command response).2 rest
  | m, DirectoryCall.dereg taskName :: rest => guardedCalls (m.dereg taskName).2 rest

/-- The four resources of a plugin are all there. -/
def rapidPlugin.allPresent (p : rapidPlugin) : Prop :=
  p._taskHandle ≠ 0 ∧ p._interfaceHandle ≠ 0 ∧ p._taskQueue ≠ 0 ∧ p._taskResponse ≠ 0

/-- None of the four resources of a plugin is there. -/
def rapidPlugin.allAbsent (p : rapidPlugin) : Prop :=
  p._taskHandle = 0 ∧ p._interfaceHandle = 0 ∧ p._taskQueue = 0 ∧ p._taskResponse = 0

/-- The worker handle and the two queue handles of a plugin are `NULL`. -/
def rapidPlugin.workerAndQueuesAbsent (p : rapidPlugin) : Prop :=
  p._taskHandle = 0 ∧ p._taskQueue = 0 ∧ p._taskResponse = 0

instance (p : rapidPlugin) : Decidable p.allPresent := by
  unfold rapidPlugin.allPresent; infer_instance

instance (p : rapidPlugin) : Decidable p.allAbsent := by
  unfold rapidPlugin.allAbsent; infer_instance

instance (p : rapidPlugin) : Decidable p.workerAndQueuesAbsent := by
  unfold rapidPlugin.workerAndQueuesAbsent; infer_instance

/-- In a call on a plugin object, a `run` has both its queues created and both its
tasks spawned. -/
def PluginCall.valid : PluginCall → Prop
  | PluginCall.run _ _ k => k.queuesCreated ∧ k.tasksSpawned
  | PluginCall.stop _ => True

/-- In a lifecycle call, a `run` has its worker task spawned (whatever the spawn of the
interface task yields). -/
def LifecycleCall.valid : LifecycleCall → Prop
  | LifecycleCall.run _ k => k.worker.succeeded
  | LifecycleCall.stop _ => True

/-- A directory in which no slot holds anything: names `""`, handles and references
`NULL`, debug level 0. -/
def emptyDirectory : rapidRTOS_manager :=
  { _taskNames := fun _ => "", _taskHandles := fun _ => 0, _taskQueues := fun _ => QueueRef.null,
    _responseQueues := fun _ => QueueRef.null, _debugLevel := 0 }

/-- A directory whose ten slots are all taken, by the names `t0` to `t9` with the
handles 100 to 109. -/
def fullDirectory : rapidRTOS_manager :=
  { _taskNames := fun i => "t" ++ toString i.val, _taskHandles := fun i => 100 + i.val,
    _taskQueues := fun i => QueueRef.taskQueue (100 + i.val),
    _responseQueues := fun i => QueueRef.taskResponse (100 + i.val), _debugLevel := 0 }

/-- Arbitrary content for the local of `parse` before its first write. -/
def staleFunction : rapidFunction :=
  { function := List.replicate 16 'x', parameters := List.replicate 48 'y' }

/-- Kernel answers in which both queues are created (handles 11 and 12) and both tasks
are spawned (handles 21 and 22). -/
def allCreated : KernelAnswers :=
  { taskQueue := 11, taskResponse := 12, worker := ⟨pdPASS, some 21⟩,
    interface := ⟨pdPASS, some 22⟩ }

/-- Kernel answers of a later `run` in which everything is created again: the queues
13 and 14, the tasks 31 and 32. -/
def createdAgain : KernelAnswers :=
  { taskQueue := 13, taskResponse := 14, worker := ⟨pdPASS, some 31⟩,
    interface := ⟨pdPASS, some 32⟩ }

/-- The answer of an `xTaskCreate` that fails, as FreeRTOS gives it. -/
def spawnFailed : SpawnAnswer :=
  { returned := errCOULD_NOT_ALLOCATE_REQUIRED_MEMORY, stored := none }

/-- A task name of 30 characters: with the two characters `i_` in front and the
terminator behind, one byte more than `_iID` has. -/
def longName : String :=
  String.mk (List.replicate 30 'n')

/-- Whether a sequence of calls is guarded can be computed, call by call. -/
def guardedCalls.decide : (m : rapidRTOS_manager) → (calls : List DirectoryCall) →
    Decidable (guardedCalls m calls)
  | _, [] => isTrue trivial
  | m, DirectoryCall.reg taskHandle taskName command response :: rest =>
    @instDecidableAnd _ _ _
      (guardedCalls.decide (m.reg taskHandle taskName command response).2 rest)
  | m, DirectoryCall.dereg taskName :: rest => guardedCalls.decide (m.dereg taskName).2 rest

instance (m : rapidRTOS_manager) (calls : List DirectoryCall) :
    Decidable (guardedCalls m calls) :=
  guardedCalls.decide m calls
/-- A directory whose slot 0 holds the name `a` with a `NULL` handle, as
`reg(NULL, "a", NULL, NULL)` leaves it; the other slots are free. -/
def nullHandleDirectory : rapidRTOS_manager :=
  (emptyDirectory.reg 0 "a" QueueRef.null QueueRef.null).2

/-- The plugin `a` after a `run` that created everything, and the directory that `run`
leaves when it starts from the empty one. -/
def runningPlugin : rapidPlugin :=
  { _pID := "a", _iID := "i_a", _taskHandle := 21, _interfaceHandle := 22,
    _taskQueue := 11, _taskResponse := 12 }

/-- The directory in which slot 0 holds the entry of `runningPlugin` (object number 0). -/
def runningDirectory : rapidRTOS_manager :=
  (emptyDirectory.reg 21 "a" (QueueRef.taskQueue 0) (QueueRef.taskResponse 0)).2

/-- The plugin `longName`, running: its worker is the task 21. -/
def longRunningPlugin : rapidPlugin :=
  { _pID := longName, _iID := "", _taskHandle := 21, _interfaceHandle := 22,
    _taskQueue := 11, _taskResponse := 12 }

/-- The directory in which slot 0 holds the entry of `longRunningPlugin`. -/
def longRunningDirectory : rapidRTOS_manager :=
  (emptyDirectory.reg 21 longName (QueueRef.taskQueue 0) (QueueRef.taskResponse 0)).2

/-! ## `rapidRTOS_manager::cmd` -/

/-- What makes a `cmd` undefined: it dereferences a `NULL` queue reference. -/
inductive CmdError where
  | nullDereference
deriving DecidableEq, Repr

/-- The dereference `*ref` of a queue reference: the member of the plugin object it
points to, or the content `memory` has at some other address. -/
def QueueRef.deref (plugins : Nat → rapidPlugin) (memory : Nat → QueueHandle_t) :
    QueueRef → Except CmdError QueueHandle_t
  | QueueRef.null => Except.error CmdError.nullDereference
  | QueueRef.taskQueue plugin => Except.ok (plugins plugin)._taskQueue
  | QueueRef.taskResponse plugin => Except.ok (plugins plugin)._taskResponse
  | QueueRef.other address => Except.ok (memory address)

/-- What a call of `cmd` yields: the response returned, the queue references it has
dereferenced and the kernel calls it has made, both in program order. -/
structure CmdResult where
  response : List Char
  dereferenced : List QueueRef
  effects : List Effect
deriving DecidableEq, Repr

/-- The member `cmd` of the manager: at the first slot whose name equals `taskName`,
send the command on `*_taskQueues[i]`, receive into `response` from
`*_responseQueues[i]` and leave the loop; `response` starts as `""`. `received` is what
`xQueueReceive` stores: the item that arrives within the timeout, if any. The timeout
is only passed on to the kernel. -/
def rapidRTOS_manager.cmd (m : rapidRTOS_manager) (plugins : Nat → rapidPlugin)
    (memory : Nat → QueueHandle_t) (taskName : String) (command : List Char)
    (received : Option (List Char)) : Except CmdError CmdResult :=
  match firstSlot (fun i => decide (m._taskNames i = taskName)) with
  | some i =>
    (QueueRef.deref plugins memory (m._taskQueues i)).bind fun commandQueue =>
    (QueueRef.deref plugins memory (m._responseQueues i)).bind fun responseQueue =>
    Except.ok
      { response := received.getD []
        dereferenced := [m._taskQueues i, m._responseQueues i]
        effects := [Effect.xQueueSend commandQueue command,
                    Effect.xQueueReceive responseQueue] }
  | none => Except.ok { response := [], dereferenced := [], effects := [] }

/-- No write of `parse` went outside the two arrays. -/
def writesInBounds (result : Except ParseError rapidFunction) : Prop :=
  result ≠ Except.error ParseError.functionOverflow ∧
    result ≠ Except.error ParseError.parametersOverflow

instance (result : Except ParseError rapidFunction) : Decidable (writesInBounds result) := by
  unfold writesInBounds; infer_instance

/-- The three values `parse` builds its result from: the struct and the two indices. -/
def ParseState.written (s : ParseState) : rapidFunction × Nat × Nat :=
  (s.returnMessage, s.functionIndex, s.parameterIndex)

/-- The two assignments after the loop of `parse`. -/
def terminate (written : rapidFunction × Nat × Nat) : Except ParseError rapidFunction :=
  (writeFunction written.1 written.2.1 NUL).bind fun r => writeParameters r written.2.2 NUL

/-- The plugin `B` of the scenario, running, with the queues 11 and 12. -/
def pluginB : rapidPlugin :=
  { _pID := "B", _iID := "i_B", _taskHandle := 21, _interfaceHandle := 22,
    _taskQueue := 11, _taskResponse := 12 }

/-- The number of slots whose name is not `""`, counted as the specification words it:
the size of the set of active slots. -/
def rapidRTOS_manager.activeSlots (m : rapidRTOS_manager) : Nat :=
  (Finset.univ.filter (fun i : Fin rapidRTOS_MAX_MODULES => m._taskNames i ≠ "")).card

/-! ## Lemmas on buffers and on the parser -/

theorem take_set_succ (c : Char) : ∀ (buf : List Char) (n : Nat), n < buf.length →
    (buf.set n c).take (n + 1) = buf.take n ++ [c]
  | [], _, h => by simp at h
  | _ :: t, 0, _ => by simp
  | b :: t, n + 1, h => by
    have := take_set_succ c t n (by simpa using h)
    simp [List.set, this]

theorem take_set_same (c : Char) : ∀ (buf : List Char) (n : Nat),
    (buf.set n c).take n = buf.take n
  | [], _ => by simp
  | _ :: t, 0 => by simp
  | b :: t, n + 1 => by
    have := take_set_same c t n
    simp [List.set, this]

theorem cstr_append_NUL (w rest : List Char) (hw : ∀ x ∈ w, x ≠ NUL) :
    cstr (w ++ NUL :: rest) = w := by
  induction w with
  | nil => simp [cstr]
  | cons a w ih =>
    have ha : a ≠ NUL := hw a (by simp)
    have := ih (fun x hx => hw x (by simp [hx]))
    simp [cstr] at this ⊢
    simp [ha, this]

theorem cstr_of_take (buf w : List Char) (n : Nat) (h : buf.take (n + 1) = w ++ [NUL])
    (hw : ∀ x ∈ w, x ≠ NUL) : cstr buf = w := by
  have e : buf = (w ++ [NUL]) ++ buf.drop (n + 1) := by
    rw [← h]; exact (List.take_append_drop _ _).symm
  rw [e]
  simpa using cstr_append_NUL w (buf.drop (n + 1)) hw

theorem parseLoop_complete (fuel : Nat) (r : rapidFunction) (fi pi : Nat) (fc : Bool)
    (message : List Char) :
    parseLoop (fuel + 1) ⟨r, fi, pi, fc, true, message⟩ =
      Except.ok ⟨r, fi, pi, fc, true, message⟩ := by
  simp [parseLoop]

theorem storedParameters_length_le : ∀ (n : Nat) (text : List Char), text.length ≤ n →
    (storedParameters text).length ≤ text.length
  | _, [], _ => by simp [storedParameters]
  | _, [c], _ => by by_cases h : c = '(' <;> simp [storedParameters, h]
  | 0, _ :: _ :: _, h => by simp at h
  | n + 1, c :: d :: rest, h => by
    have h1 := storedParameters_length_le n rest (by simp at h; omega)
    have h2 := storedParameters_length_le n (d :: rest) (by simp at h ⊢; omega)
    by_cases hc : c = '('
    · simp [storedParameters, hc]; omega
    · simp [storedParameters, hc] at h2 ⊢; omega

theorem storedParameters_plain : ∀ (n : Nat) (text : List Char), text.length ≤ n →
    (∀ x ∈ text, x ≠ '(') → storedParameters text = text
  | _, [], _, _ => by simp [storedParameters]
  | _, [c], _, h => by
    have : c ≠ '(' := h c (by simp)
    simp [storedParameters, this]
  | 0, _ :: _ :: _, h, _ => by simp at h
  | n + 1, c :: d :: rest, h, hp => by
    have hc : c ≠ '(' := hp c (by simp)
    have h2 := storedParameters_plain n (d :: rest) (by simp at h ⊢; omega)
      (fun x hx => hp x (by simp at hx ⊢; tauto))
    simp [storedParameters, hc, h2]

/-- The parameter branch, run on text holding a `)`: the loop ends at the first `)`,
leaves `function` and `functionIndex` alone and stores `storedParameters` from
`parameterIndex` on, the terminator behind it. -/
theorem parseLoop_parameters : ∀ (n : Nat) (pre rest : List Char) (r : rapidFunction)
    (fi pi : Nat), pre.length ≤ n → (∀ x ∈ pre, x ≠ ')' ∧ x ≠ NUL) →
    pi + (storedParameters pre).length < 48 → r.parameters.length = 48 →
    ∃ r1 rest1, (∀ fuel, pre.length + 1 < fuel →
        parseLoop fuel ⟨r, fi, pi, true, false, pre ++ ')' :: rest⟩ =
          Except.ok ⟨r1, fi, pi + (storedParameters pre).length, true, true, rest1⟩) ∧
      r1.function = r.function ∧ r1.parameters.length = 48 ∧
      r1.parameters.take (pi + (storedParameters pre).length) =
        r.parameters.take pi ++ storedParameters pre := by
  intro n
  induction n with
  | zero =>
    intro pre rest r fi pi hn hpre hpi hlen
    have : pre = [] := by simpa using hn
    subst this
    refine ⟨{ r with parameters := r.parameters.set pi NUL }, rest, ?_, rfl, by simp [hlen], ?_⟩
    · intro fuel hfuel
      obtain ⟨f, rfl⟩ : ∃ f, fuel = f + 1 + 1 := ⟨fuel - 2, by simp at hfuel; omega⟩
      have hpi' : pi < 48 := by simpa [storedParameters] using hpi
      have hN : ¬ (')' = NUL) := by decide
      simp [parseLoop, parseBody, writeParameters, advance, peek, Except.bind, hpi', hN,
        storedParameters]
    · simp [storedParameters, take_set_same]
  | succ n ih =>
    intro pre rest r fi pi hn hpre hpi hlen
    have hN : ¬ (')' = NUL) := by decide
    have hO : ¬ ('(' = NUL) := by decide
    match pre, hn, hpre, hpi with
    | [], hn, hpre, hpi => exact ih [] rest r fi pi (by simp) hpre hpi hlen
    | [c], hn, hpre, hpi =>
      have hc := hpre c (by simp)
      by_cases hco : c = '('
      · subst hco
        refine ⟨{ r with parameters := r.parameters.set pi NUL }, rest, ?_, rfl,
          by simp [hlen], ?_⟩
        · intro fuel hfuel
          obtain ⟨f, rfl⟩ : ∃ f, fuel = f + 1 + 1 := ⟨fuel - 2, by simp at hfuel; omega⟩
          have hpi' : pi < 48 := by simpa [storedParameters] using hpi
          simp [parseLoop, parseBody, writeParameters, advance, peek, Except.bind, hpi', hN,
            hO, storedParameters]
        · simp [storedParameters, take_set_same]
      · refine ⟨{ r with parameters := (r.parameters.set pi c).set (pi + 1) NUL }, rest, ?_,
          rfl, by simp [hlen], ?_⟩
        · intro fuel hfuel
          obtain ⟨f, rfl⟩ : ∃ f, fuel = f + 1 + 1 := ⟨fuel - 2, by simp at hfuel; omega⟩
          have hpi' : pi + 1 < 48 := by simpa [storedParameters, hco] using hpi
          have hpi2 : pi < 48 := by omega
          simp [parseLoop, parseBody, writeParameters, advance, peek, Except.bind, hpi', hpi2,
            hN, hc.1, hc.2, hco, storedParameters]
        · simp [storedParameters, hco, take_set_same]
          exact take_set_succ c r.parameters pi (by omega)
    | c :: d :: t, hn, hpre, hpi =>
      have hc := hpre c (by simp)
      have hd := hpre d (by simp)
      by_cases hco : c = '('
      · subst hco
        have hst : storedParameters ('(' :: d :: t) = d :: storedParameters t := by
          simp [storedParameters]
        rw [hst] at hpi ⊢
        simp only [List.length_cons] at hpi
        have hpi2 : pi < 48 := by omega
        match t, hn, hpre, hpi with
        | [], hn, hpre, hpi =>
          refine ⟨{ r with parameters := (r.parameters.set pi d).set (pi + 1) NUL }, rest, ?_,
            rfl, by simp [hlen], ?_⟩
          · intro fuel hfuel
            obtain ⟨f, rfl⟩ : ∃ f, fuel = f + 1 + 1 := ⟨fuel - 2, by simp at hfuel; omega⟩
            have hpi' : pi + 1 < 48 := by simpa [storedParameters] using hpi
            simp [parseLoop, parseBody, writeParameters, advance, peek, Except.bind, hpi', hpi2,
              hN, hO, hd.1, hd.2, storedParameters]
          · simp [storedParameters, take_set_same]
            exact take_set_succ d r.parameters pi (by omega)
        | x :: t1, hn, hpre, hpi =>
          have hx := hpre x (by simp)
          obtain ⟨r1, rest1, hloop, hf, hl, htake⟩ :=
            ih (x :: t1) rest { r with parameters := r.parameters.set pi d } fi (pi + 1)
              (by simp at hn ⊢; omega) (fun y hy => hpre y (by simp at hy ⊢; tauto))
              (by omega) (by simp [hlen])
          refine ⟨r1, rest1, ?_, hf, hl, ?_⟩
          · intro fuel hfuel
            obtain ⟨f, rfl⟩ : ∃ f, fuel = f + 1 := ⟨fuel - 1, by simp at hfuel; omega⟩
            have hl2 := hloop f (by simp at hfuel ⊢; omega)
            have e : pi + 1 + (storedParameters (x :: t1)).length =
                pi + ((storedParameters (x :: t1)).length + 1) := by omega
            rw [e] at hl2
            simpa [parseLoop, parseBody, writeParameters, advance, peek, Except.bind, hpi2,
              hN, hO, hd.1, hd.2, hx.1, hx.2] using hl2
          · have e : pi + 1 + (storedParameters (x :: t1)).length =
                pi + ((storedParameters (x :: t1)).length + 1) := by omega
            rw [e] at htake
            rw [List.length_cons, htake]
            simp [take_set_succ d r.parameters pi (by omega)]
      · have hst : storedParameters (c :: d :: t) = c :: storedParameters (d :: t) := by
          simp [storedParameters, hco]
        rw [hst] at hpi ⊢
        simp only [List.length_cons] at hpi
        have hpi2 : pi < 48 := by omega
        obtain ⟨r1, rest1, hloop, hf, hl, htake⟩ :=
          ih (d :: t) rest { r with parameters := r.parameters.set pi c } fi (pi + 1)
            (by simp at hn ⊢; omega) (fun y hy => hpre y (by simp at hy ⊢; tauto))
            (by omega) (by simp [hlen])
        refine ⟨r1, rest1, ?_, hf, hl, ?_⟩
        · intro fuel hfuel
          obtain ⟨f, rfl⟩ : ∃ f, fuel = f + 1 := ⟨fuel - 1, by simp at hfuel; omega⟩
          have hl2 := hloop f (by simp at hfuel ⊢; omega)
          have e : pi + 1 + (storedParameters (d :: t)).length =
              pi + ((storedParameters (d :: t)).length + 1) := by omega
          rw [e] at hl2
          simpa [parseLoop, parseBody, writeParameters, advance, peek, Except.bind, hpi2,
            hN, hO, hc.1, hc.2, hco, hd.1, hd.2] using hl2
        · have e : pi + 1 + (storedParameters (d :: t)).length =
              pi + ((storedParameters (d :: t)).length + 1) := by omega
          rw [e] at htake
          rw [List.length_cons, htake]
          simp [take_set_succ c r.parameters pi (by omega)]

theorem storedParameters_mem : ∀ (n : Nat) (text : List Char), text.length ≤ n →
    ∀ x ∈ storedParameters text, x ∈ text
  | _, [], _ => by simp [storedParameters]
  | _, [c], _ => by by_cases h : c = '(' <;> simp [storedParameters, h]
  | 0, _ :: _ :: _, h => by simp at h
  | n + 1, c :: d :: rest, h => by
    have h1 := storedParameters_mem n rest (by simp at h; omega)
    have h2 := storedParameters_mem n (d :: rest) (by simp at h ⊢; omega)
    intro x hx
    by_cases hc : c = '('
    · simp [storedParameters, hc] at hx
      rcases hx with rfl | hx
      · simp
      · have := h1 x hx
        simp [this]
    · simp [storedParameters, hc] at hx
      rcases hx with rfl | hx
      · simp
      · have := h2 x hx
        simp at this
        simp [this]

/-- The function branch, run on a name that is followed by `(`: the name is stored from
`functionIndex` on, the terminator behind it, and the loop goes on in the parameter
branch with the read pointer at the `(`. -/
theorem parseLoop_name : ∀ (cs : List Char) (c : Char) (rest : List Char) (r : rapidFunction)
    (fi pi fuel : Nat), (∀ x ∈ c :: cs, x ≠ '(' ∧ x ≠ ')' ∧ x ≠ NUL) →
    fi + cs.length + 1 < 16 → r.function.length = 16 →
    ∃ r1, parseLoop (fuel + cs.length + 1) ⟨r, fi, pi, false, false, c :: cs ++ '(' :: rest⟩ =
        parseLoop fuel ⟨r1, fi + cs.length + 1, pi, true, false, '(' :: rest⟩ ∧
      r1.parameters = r.parameters ∧ r1.function.length = 16 ∧
      r1.function.take (fi + cs.length + 1) = r.function.take fi ++ c :: cs := by
  intro cs
  induction cs with
  | nil =>
    intro c rest r fi pi fuel hname hfi hlen
    have hc := hname c (by simp)
    refine ⟨{ r with function := (r.function.set fi c).set (fi + 1) NUL }, ?_, rfl,
      by simp [hlen], ?_⟩
    · have hfi1 : fi + 1 < 16 := by simpa using hfi
      have hfi2 : fi < 16 := by omega
      simp [parseLoop, parseBody, writeFunction, advance, peek, Except.bind, hc.2.2, hfi1, hfi2]
    · simp [take_set_same]
      exact take_set_succ c r.function fi (by simp at hfi; omega)
  | cons d cs ih =>
    intro c rest r fi pi fuel hname hfi hlen
    have hc := hname c (by simp)
    have hd := hname d (by simp)
    simp only [List.length_cons] at hfi
    obtain ⟨r1, hloop, hp, hl, htake⟩ :=
      ih d rest { r with function := r.function.set fi c } (fi + 1) pi fuel
        (fun x hx => hname x (by simp at hx ⊢; tauto)) (by omega) (by simp [hlen])
    have e : fi + 1 + cs.length + 1 = fi + (cs.length + 1) + 1 := by omega
    rw [e] at hloop htake
    refine ⟨r1, ?_, hp, hl, ?_⟩
    · have hfi2 : fi < 16 := by omega
      have e2 : fuel + (d :: cs).length + 1 = (fuel + cs.length + 1) + 1 := by
        simp only [List.length_cons]; omega
      rw [e2, List.length_cons, ← hloop]
      simp [parseLoop, parseBody, writeFunction, advance, peek, Except.bind, hc.2.2, hd.1,
        hd.2.1, hfi2]
    · rw [List.length_cons, htake]
      simp [take_set_succ c r.function fi (by omega)]

/-- The result of `parse` on a call text: a name free of parentheses, a `(`, and text that holds a
`)`. The function field is the name and the parameters field is what the parameter
branch stores up to the first `)`; the text `rest` behind that `)` plays no role. -/
theorem parse_call (uninit : rapidFunction) (c : Char) (cs pre rest : List Char)
    (hsized : uninit.sized) (hname : ∀ x ∈ c :: cs, x ≠ '(' ∧ x ≠ ')' ∧ x ≠ NUL)
    (hlen : (c :: cs).length ≤ 15) (hpre : ∀ x ∈ pre, x ≠ ')' ∧ x ≠ NUL)
    (hstored : (storedParameters ('(' :: pre)).length ≤ 47) :
    ∃ r, rapidRTOS_manager.parse uninit (c :: cs ++ '(' :: pre ++ ')' :: rest) = Except.ok r ∧
      cstr r.function = c :: cs ∧ cstr r.parameters = storedParameters ('(' :: pre) := by
  obtain ⟨hf16, hp48⟩ := hsized
  simp only [List.length_cons] at hlen
  obtain ⟨r1, hloop1, hp1, hl1, htake1⟩ :=
    parseLoop_name cs c (pre ++ ')' :: rest) uninit 0 0 (pre.length + rest.length + 3) hname
      (by omega) hf16
  obtain ⟨r2, rest2, hloop2, hf2, hl2, htake2⟩ :=
    parseLoop_parameters ('(' :: pre).length ('(' :: pre) rest r1 (0 + cs.length + 1) 0
      (le_refl _) (fun x hx => by
        simp at hx
        rcases hx with rfl | hx
        · exact ⟨by decide, by decide⟩
        · exact hpre x hx) (by omega) (by rw [hp1]; exact hp48)
  have hfuel : (c :: cs ++ '(' :: pre ++ ')' :: rest).length + 1 =
      (pre.length + rest.length + 3) + cs.length + 1 := by
    simp; omega
  have hrun : parseLoop ((c :: cs ++ '(' :: pre ++ ')' :: rest).length + 1)
      ⟨uninit, 0, 0, false, false, c :: cs ++ '(' :: pre ++ ')' :: rest⟩ =
      Except.ok ⟨r2, 0 + cs.length + 1, 0 + (storedParameters ('(' :: pre)).length, true, true,
        rest2⟩ := by
    rw [hfuel]
    have e : c :: cs ++ '(' :: pre ++ ')' :: rest = c :: cs ++ '(' :: (pre ++ ')' :: rest) := by
      simp
    rw [e, hloop1]
    have := hloop2 (pre.length + rest.length + 3) (by simp; omega)
    simpa using this
  have hw1 : cs.length + 1 < 16 := by omega
  have hw2 : (storedParameters ('(' :: pre)).length < 48 := by omega
  refine ⟨⟨r2.function.set (0 + cs.length + 1) NUL,
    r2.parameters.set (0 + (storedParameters ('(' :: pre)).length) NUL⟩, ?_, ?_, ?_⟩
  · unfold rapidRTOS_manager.parse
    rw [hrun]
    simp [Except.bind, writeFunction, writeParameters, hw1, hw2]
  · apply cstr_of_take _ _ (0 + cs.length + 1)
    · rw [take_set_succ NUL r2.function _ (by rw [hf2, hl1]; omega), hf2, htake1]
      simp
    · intro x hx
      exact (hname x hx).2.2
  · apply cstr_of_take _ _ (0 + (storedParameters ('(' :: pre)).length)
    · rw [take_set_succ NUL r2.parameters _ (by rw [hl2]; omega), htake2]
      simp
    · intro x hx
      have hm := storedParameters_mem _ _ (le_refl _) x hx
      simp at hm
      rcases hm with rfl | hm
      · decide
      · exact (hpre x hm).2

/-! ## Lemmas on the directory scan -/

theorem scanFrom_eq_some (cond : Fin rapidRTOS_MAX_MODULES → Bool) :
    ∀ (fuel i : Nat) (j : Fin rapidRTOS_MAX_MODULES), rapidRTOS_MAX_MODULES ≤ i + fuel →
    (scanFrom cond fuel i = some j ↔
      i ≤ j.val ∧ cond j = true ∧ ∀ k : Fin rapidRTOS_MAX_MODULES, i ≤ k.val → k.val < j.val →
        cond k = false) := by
  intro fuel
  induction fuel with
  | zero =>
    intro i j h
    simp [scanFrom]
    intro hij
    have := j.isLt
    omega
  | succ fuel ih =>
    intro i j h
    by_cases hi : i < rapidRTOS_MAX_MODULES
    · by_cases hc : cond ⟨i, hi⟩ = true
      · simp only [scanFrom, hi, hc, dite_true, if_true, Option.some.injEq]
        constructor
        · rintro rfl
          exact ⟨le_refl _, hc, fun k h1 h2 => by simp at h2; omega⟩
        · rintro ⟨h1, h2, h3⟩
          by_contra hne
          have hlt : i < j.val := by
            rcases Nat.lt_or_ge i j.val with h4 | h4
            · exact h4
            · exact absurd (Fin.ext (by simp; omega)) hne
          have := h3 ⟨i, hi⟩ (le_refl _) hlt
          simp [hc] at this
      · have hc' : cond ⟨i, hi⟩ = false := by simpa using hc
        simp only [scanFrom, hi, hc', dite_true, Bool.false_eq_true, if_false]
        rw [ih (i + 1) j (by omega)]
        constructor
        · rintro ⟨h1, h2, h3⟩
          refine ⟨by omega, h2, fun k hk1 hk2 => ?_⟩
          rcases Nat.eq_or_lt_of_le hk1 with h4 | h4
          · have : k = ⟨i, hi⟩ := Fin.ext h4.symm
            rw [this]; exact hc'
          · exact h3 k h4 hk2
        · rintro ⟨h1, h2, h3⟩
          have hne : i ≠ j.val := by
            intro h4
            have : j = ⟨i, hi⟩ := Fin.ext h4.symm
            rw [this, hc'] at h2
            exact Bool.false_ne_true h2
          exact ⟨by omega, h2, fun k hk1 hk2 => h3 k (by omega) hk2⟩
    · simp only [scanFrom, hi, dite_false]
      constructor
      · intro h0; cases h0
      · rintro ⟨h1, _, _⟩
        have := j.isLt
        omega

/-- The scan leaves at index `j` exactly when `j` is the lowest index satisfying the
condition. -/
theorem firstSlot_eq_some (cond : Fin rapidRTOS_MAX_MODULES → Bool)
    (j : Fin rapidRTOS_MAX_MODULES) :
    firstSlot cond = some j ↔
      cond j = true ∧ ∀ k : Fin rapidRTOS_MAX_MODULES, k < j → cond k = false := by
  unfold firstSlot
  rw [scanFrom_eq_some cond _ 0 j (by omega)]
  constructor
  · rintro ⟨_, h2, h3⟩
    exact ⟨h2, fun k hk => h3 k (Nat.zero_le _) hk⟩
  · rintro ⟨h2, h3⟩
    exact ⟨Nat.zero_le _, h2, fun k _ hk => h3 k hk⟩

theorem exists_lowest (cond : Fin rapidRTOS_MAX_MODULES → Bool) :
    ∀ (n : Nat) (i : Fin rapidRTOS_MAX_MODULES), i.val ≤ n → cond i = true →
      ∃ j, cond j = true ∧ ∀ k : Fin rapidRTOS_MAX_MODULES, k < j → cond k = false := by
  intro n
  induction n with
  | zero =>
    intro i hi hc
    refine ⟨i, hc, fun k hk => ?_⟩
    have : k.val < i.val := hk
    omega
  | succ n ih =>
    intro i hi hc
    by_cases hex : ∃ k : Fin rapidRTOS_MAX_MODULES, k < i ∧ cond k = true
    · obtain ⟨k, hk, hck⟩ := hex
      have : k.val < i.val := hk
      exact ih k (by omega) hck
    · refine ⟨i, hc, fun k hk => ?_⟩
      by_contra h
      exact hex ⟨k, hk, by simpa using h⟩

/-- The scan runs to the end exactly when no index satisfies the condition. -/
theorem firstSlot_eq_none (cond : Fin rapidRTOS_MAX_MODULES → Bool) :
    firstSlot cond = none ↔ ∀ k, cond k = false := by
  constructor
  · intro h k
    by_contra hk
    obtain ⟨j, hj1, hj2⟩ := exists_lowest cond k.val k (le_refl _) (by simpa using hk)
    have := (firstSlot_eq_some cond j).2 ⟨hj1, hj2⟩
    rw [h] at this
    cases this
  · intro h
    cases hfs : firstSlot cond with
    | none => rfl
    | some j =>
      have := ((firstSlot_eq_some cond j).1 hfs).1
      rw [h j] at this
      exact absurd this Bool.false_ne_true

/-! ## The directory -/

/-- C4. When all ten slots hold a name other than `""`, `reg` returns 0, the value of its
no-free-slot exit (the one `run` passes on as its failure result), and the directory
it leaves is the directory it found, whatever the name, handle and queue references. -/
theorem reg_full_unchanged (m : rapidRTOS_manager) (taskHandle : TaskHandle_t)
    (taskName : String) (command response : QueueRef)
    (hfull : ∀ i, m._taskNames i ≠ "") :
    m.reg taskHandle taskName command response = (0, m) := by
  have hnone : firstSlot (fun i => decide (m._taskNames i = "")) = none :=
    (firstSlot_eq_none _).2 (fun k => by simpa using hfull k)
  simp [rapidRTOS_manager.reg, hnone]

/-- An instance of C4: a `reg` on the directory whose ten slots are taken. -/
theorem reg_full_unchanged_witness :
    fullDirectory.reg 7 "late" (QueueRef.taskQueue 3) (QueueRef.taskResponse 3) =
      (0, fullDirectory) :=
  reg_full_unchanged fullDirectory 7 "late" (QueueRef.taskQueue 3) (QueueRef.taskResponse 3)
    (by decide)

/-- What `reg` leaves: the directory it found, or that directory with the entry written
to its lowest slot named `""`. -/
theorem reg_cases (m : rapidRTOS_manager) (taskHandle : TaskHandle_t) (taskName : String)
    (command response : QueueRef) :
    ((∀ i, m._taskNames i ≠ "") ∧ m.reg taskHandle taskName command response = (0, m)) ∨
    ∃ i, m._taskNames i = "" ∧ (∀ k, k < i → m._taskNames k ≠ "") ∧
      m.reg taskHandle taskName command response =
        (1, { m with
              _taskNames := Function.update m._taskNames i taskName
              _taskHandles := Function.update m._taskHandles i taskHandle
              _taskQueues := Function.update m._taskQueues i command
              _responseQueues := Function.update m._responseQueues i response }) := by
  cases hfs : firstSlot (fun i => decide (m._taskNames i = "")) with
  | none =>
    left
    have := (firstSlot_eq_none _).1 hfs
    exact ⟨fun i => by simpa using this i, by simp [rapidRTOS_manager.reg, hfs]⟩
  | some i =>
    right
    have := (firstSlot_eq_some _ i).1 hfs
    exact ⟨i, by simpa using this.1, fun k hk => by simpa using this.2 k hk,
      by simp [rapidRTOS_manager.reg, hfs]⟩

/-- What `dereg` leaves: the directory it found, or that directory with its lowest slot
named `taskName` reset. -/
theorem dereg_cases (m : rapidRTOS_manager) (taskName : String) :
    ((∀ i, m._taskNames i ≠ taskName) ∧ m.dereg taskName = (0, m)) ∨
    ∃ i, m._taskNames i = taskName ∧ (∀ k, k < i → m._taskNames k ≠ taskName) ∧
      m.dereg taskName =
        (1, { m with
              _taskNames := Function.update m._taskNames i ""
              _taskHandles := Function.update m._taskHandles i 0
              _taskQueues := Function.update m._taskQueues i QueueRef.null
              _responseQueues := Function.update m._responseQueues i QueueRef.null }) := by
  cases hfs : firstSlot (fun i => decide (m._taskNames i = taskName)) with
  | none =>
    left
    have := (firstSlot_eq_none _).1 hfs
    exact ⟨fun i => by simpa using this i, by simp [rapidRTOS_manager.dereg, hfs]⟩
  | some i =>
    right
    have := (firstSlot_eq_some _ i).1 hfs
    exact ⟨i, by simpa using this.1, fun k hk => by simpa using this.2 k hk,
      by simp [rapidRTOS_manager.dereg, hfs]⟩

/-- What `getTaskHandle` returns: `NULL` when no slot holds the name, the handle of the
lowest slot holding it otherwise. -/
theorem getTaskHandle_cases (m : rapidRTOS_manager) (taskName : String) :
    ((∀ i, m._taskNames i ≠ taskName) ∧ m.getTaskHandle taskName = 0) ∨
    ∃ i, m._taskNames i = taskName ∧ (∀ k, k < i → m._taskNames k ≠ taskName) ∧
      m.getTaskHandle taskName = m._taskHandles i := by
  cases hfs : firstSlot (fun i => decide (m._taskNames i = taskName)) with
  | none =>
    left
    have := (firstSlot_eq_none _).1 hfs
    exact ⟨fun i => by simpa using this i, by simp [rapidRTOS_manager.getTaskHandle, hfs]⟩
  | some i =>
    right
    have := (firstSlot_eq_some _ i).1 hfs
    exact ⟨i, by simpa using this.1, fun k hk => by simpa using this.2 k hk,
      by simp [rapidRTOS_manager.getTaskHandle, hfs]⟩

theorem reg_uniqueNames (m : rapidRTOS_manager) (taskHandle : TaskHandle_t) (taskName : String)
    (command response : QueueRef) (hu : m.uniqueNames) (hna : ¬ m.active taskName) :
    (m.reg taskHandle taskName command response).2.uniqueNames := by
  rcases reg_cases m taskHandle taskName command response with ⟨_, h⟩ | ⟨i, hi, _, h⟩
  · rw [h]; exact hu
  · rw [h]
    intro a b ha hab
    simp only [Function.update_apply] at ha hab
    by_cases hai : a = i <;> by_cases hbi : b = i
    · rw [hai, hbi]
    · simp only [hai, hbi, if_true, if_false] at ha hab
      exact absurd ⟨b, by rw [← hab]; exact ha, hab.symm⟩ hna
    · simp only [hai, hbi, if_true, if_false] at ha hab
      exact absurd ⟨a, ha, hab⟩ hna
    · simp only [hai, hbi, if_false] at ha hab
      exact hu a b ha hab

theorem dereg_uniqueNames (m : rapidRTOS_manager) (taskName : String) (hu : m.uniqueNames) :
    (m.dereg taskName).2.uniqueNames := by
  rcases dereg_cases m taskName with ⟨_, h⟩ | ⟨i, _, _, h⟩
  · rw [h]; exact hu
  · rw [h]
    intro a b ha hab
    simp only [Function.update_apply] at ha hab
    by_cases hai : a = i <;> by_cases hbi : b = i
    · rw [hai, hbi]
    · simp [hai] at ha
    · simp only [hai, hbi, if_true, if_false] at ha hab
      exact absurd hab ha
    · simp only [hai, hbi, if_false] at ha hab
      exact hu a b ha hab

theorem reg_activeHandles (m : rapidRTOS_manager) (taskHandle : TaskHandle_t)
    (taskName : String) (command response : QueueRef) (hh : m.activeHandles)
    (hnew : taskName ≠ "" → taskHandle ≠ 0) :
    (m.reg taskHandle taskName command response).2.activeHandles := by
  rcases reg_cases m taskHandle taskName command response with ⟨_, h⟩ | ⟨i, _, _, h⟩
  · rw [h]; exact hh
  · rw [h]
    intro a ha
    simp only [Function.update_apply] at ha ⊢
    by_cases hai : a = i
    · simp only [hai, if_true] at ha ⊢
      exact hnew ha
    · simp only [hai, if_false] at ha ⊢
      exact hh a ha

theorem dereg_activeHandles (m : rapidRTOS_manager) (taskName : String)
    (hh : m.activeHandles) : (m.dereg taskName).2.activeHandles := by
  rcases dereg_cases m taskName with ⟨_, h⟩ | ⟨i, _, _, h⟩
  · rw [h]; exact hh
  · rw [h]
    intro a ha
    simp only [Function.update_apply] at ha ⊢
    by_cases hai : a = i
    · simp [hai] at ha
    · simp only [hai, if_false] at ha ⊢
      exact hh a ha

/-- When every active slot has a handle and the lookup of a name yields `NULL`, the
name is not active. -/
theorem not_active_of_getTaskHandle (m : rapidRTOS_manager) (taskName : String)
    (hh : m.activeHandles) (h0 : m.getTaskHandle taskName = 0) : ¬ m.active taskName := by
  rintro ⟨j, hj1, hj2⟩
  rcases getTaskHandle_cases m taskName with ⟨hnone, _⟩ | ⟨i, hi, _, hget⟩
  · exact hnone j hj2
  · rw [hget] at h0
    exact hh i (by rw [hi, ← hj2]; exact hj1) h0

theorem guarded_uniqueNames : ∀ (calls : List DirectoryCall) (m : rapidRTOS_manager),
    m.uniqueNames → guardedCalls m calls → (m.afterCalls calls).uniqueNames
  | [], _, hu, _ => hu
  | DirectoryCall.reg taskHandle taskName command response :: rest, m, hu, hg => by
    have h := guarded_uniqueNames rest (m.reg taskHandle taskName command response).2
      (reg_uniqueNames m taskHandle taskName command response hu hg.1) hg.2
    simpa [rapidRTOS_manager.afterCalls, DirectoryCall.apply] using h
  | DirectoryCall.dereg taskName :: rest, m, hu, hg => by
    have h := guarded_uniqueNames rest (m.dereg taskName).2
      (dereg_uniqueNames m taskName hu) hg
    simpa [rapidRTOS_manager.afterCalls, DirectoryCall.apply] using h

theorem new_uniqueNames (uninit : rapidRTOS_manager) :
    (rapidRTOS_manager.new uninit).uniqueNames := by
  intro i j hi
  simp [rapidRTOS_manager.new] at hi

theorem new_activeHandles (uninit : rapidRTOS_manager) :
    (rapidRTOS_manager.new uninit).activeHandles := by
  intro i hi
  simp [rapidRTOS_manager.new] at hi

/-- C3, as stated, fails: two `reg` calls with the same name, made on the freshly
constructed directory, leave the name `a` in slot 0 and in slot 1. -/
theorem reg_twice_duplicates :
    ¬ ((rapidRTOS_manager.new emptyDirectory).afterCalls
        [DirectoryCall.reg 1 "a" QueueRef.null QueueRef.null,
         DirectoryCall.reg 2 "a" QueueRef.null QueueRef.null]).uniqueNames := by
  decide

/-- C3, amended. For every sequence of `reg` and `dereg` calls applied to the freshly
constructed directory in which each `reg` is made for a name that is not active at the
time of the call, no two active slots of the resulting directory hold the same name. -/
theorem guarded_calls_unique (uninit : rapidRTOS_manager) (calls : List DirectoryCall)
    (hg : guardedCalls (rapidRTOS_manager.new uninit) calls) :
    ((rapidRTOS_manager.new uninit).afterCalls calls).uniqueNames :=
  guarded_uniqueNames calls _ (new_uniqueNames uninit) hg

/-- An instance of C3 as amended: register, deregister and register again. -/
theorem guarded_calls_unique_witness :
    ((rapidRTOS_manager.new emptyDirectory).afterCalls
        [DirectoryCall.reg 1 "a" QueueRef.null QueueRef.null,
         DirectoryCall.dereg "a",
         DirectoryCall.reg 2 "a" QueueRef.null QueueRef.null,
         DirectoryCall.reg 3 "b" QueueRef.null QueueRef.null]).uniqueNames :=
  guarded_calls_unique emptyDirectory _ (by decide)

/-! ## The lifecycle -/

/-- After a `reg` that found a free slot, for a name that was not active, the lookup of
the name yields the registered handle. -/
theorem getTaskHandle_reg (m : rapidRTOS_manager) (taskHandle : TaskHandle_t)
    (taskName : String) (command response : QueueRef) (hna : ¬ m.active taskName)
    (hfree : ∃ i, m._taskNames i = "") :
    (m.reg taskHandle taskName command response).2.getTaskHandle taskName = taskHandle := by
  rcases reg_cases m taskHandle taskName command response with ⟨hfull, _⟩ | ⟨i, hi0, hlow, h⟩
  · obtain ⟨i, hi⟩ := hfree
    exact absurd hi (hfull i)
  · rw [h]
    have hfs : firstSlot (fun j => decide (Function.update m._taskNames i taskName j = taskName))
        = some i := by
      rw [firstSlot_eq_some]
      refine ⟨by simp, fun k hk => ?_⟩
      have hki : k ≠ i := Fin.ne_of_lt hk
      simp only [Function.update_apply, hki, if_false, decide_eq_false_iff_not]
      intro hk2
      exact hna ⟨k, hlow k hk, hk2⟩
    simp [rapidRTOS_manager.getTaskHandle, hfs]

theorem getNumTasks_congr (m1 m2 : rapidRTOS_manager) (h : m1._taskNames = m2._taskNames) :
    m1.getNumTasks = m2.getNumTasks := by
  simp [rapidRTOS_manager.getNumTasks, h]

theorem sprintf_iID_fits (pID : String) (h : pID.length ≤ 29) :
    sprintf_iID pID = Except.ok ("i_" ++ pID) := by
  have h2 : ("i_" ++ pID).length < 32 := by
    rw [String.length_append]
    have : "i_".length = 2 := rfl
    omega
  unfold sprintf_iID
  rw [if_pos h2]

theorem run_fits (this : Nat) (p : rapidPlugin) (m : rapidRTOS_manager) (k : KernelAnswers)
    (h : p._pID.length ≤ 29) :
    rapidPlugin.run this p m k =
      Except.ok (rapidPlugin.runAfterSprintf this { p with _iID := "i_" ++ p._pID } m k) := by
  simp [rapidPlugin.run, sprintf_iID_fits _ h, Except.bind]

theorem runAfterSprintf_rejected (this : Nat) (p : rapidPlugin) (m : rapidRTOS_manager)
    (k : KernelAnswers) (hreg : m.getTaskHandle p._pID ≠ 0) :
    rapidPlugin.runAfterSprintf this p m k =
      { returned := 0, plugin := p, manager := m, effects := [] } := by
  simp [rapidPlugin.runAfterSprintf, hreg]

theorem runAfterSprintf_pID (this : Nat) (p : rapidPlugin) (m : rapidRTOS_manager)
    (k : KernelAnswers) : (rapidPlugin.runAfterSprintf this p m k).plugin._pID = p._pID := by
  unfold rapidPlugin.runAfterSprintf rapidPlugin.runRollback
  split_ifs <;> rfl

/-- The result of `run` is 1 exactly when the lookup yields `NULL`, both spawn results
are other than 0 and some slot is free. -/
theorem runAfterSprintf_eq_one_iff (this : Nat) (p : rapidPlugin) (m : rapidRTOS_manager)
    (k : KernelAnswers) :
    (rapidPlugin.runAfterSprintf this p m k).returned = 1 ↔
      m.getTaskHandle p._pID = 0 ∧ k.worker.returned ≠ 0 ∧ k.interface.returned ≠ 0 ∧
        ∃ i, m._taskNames i = "" := by
  by_cases hg : m.getTaskHandle p._pID = 0
  · by_cases hw : k.worker.returned = 0
    · simp [rapidPlugin.runAfterSprintf, rapidPlugin.runRollback, hg, hw]
    · by_cases hi : k.interface.returned = 0
      · simp [rapidPlugin.runAfterSprintf, rapidPlugin.runRollback, hg, hw, hi]
      · simp only [rapidPlugin.runAfterSprintf, hg, hw, hi, if_true, ne_eq, not_false_eq_true,
          true_and]
        rcases reg_cases m (k.worker.stored.getD p._taskHandle) p._pID (QueueRef.taskQueue this)
          (QueueRef.taskResponse this) with ⟨hfull, h⟩ | ⟨i, hi0, _, h⟩
        · rw [h]
          simp
          exact hfull
        · rw [h]
          simp
          exact ⟨i, hi0⟩
  · simp [rapidPlugin.runAfterSprintf, hg]

theorem SpawnAnswer.succeeded_stored (a : SpawnAnswer) (h : a.succeeded) :
    ∃ handle, a.stored = some handle ∧ handle ≠ 0 ∧ a.returned ≠ 0 := by
  obtain ⟨h1, h2, h3⟩ := h
  obtain ⟨handle, hh⟩ := Option.isSome_iff_exists.1 h2
  refine ⟨handle, hh, fun h0 => h3 (by rw [hh, h0]), ?_⟩
  rw [h1]
  decide

/-- C2, the code at a failing input. The directory is full, the name `k` is not
registered, both queues and both tasks are created: `run` returns 0, and it has deleted
no task and no queue; the plugin keeps the four handles. -/
theorem run_full_directory_no_rollback :
    (rapidPlugin.run 0 (rapidPlugin.new "k" "") fullDirectory allCreated).map
        (fun result => (result.returned, result.plugin, result.effects)) =
      Except.ok
        (0,
         { _pID := "k", _iID := "i_k", _taskHandle := 21, _interfaceHandle := 22,
           _taskQueue := 11, _taskResponse := 12 },
         [Effect.xQueueCreate 11, Effect.xQueueCreate 12, Effect.xTaskCreate "k" (some 21),
          Effect.xTaskCreate "i_k" (some 22)]) ∧
    allCreated.worker.succeeded ∧ allCreated.interface.succeeded ∧
    fullDirectory.getTaskHandle "k" = 0 ∧ (∀ i, fullDirectory._taskNames i ≠ "") := by
  decide

/-- The state `run` leaves when the lookup yields `NULL` and both spawn results are
other than 0: the entry is handed to `reg`, whose result is returned. -/
theorem runAfterSprintf_registered (this : Nat) (p : rapidPlugin) (m : rapidRTOS_manager)
    (k : KernelAnswers) (hg : m.getTaskHandle p._pID = 0) (hw : k.worker.returned ≠ 0)
    (hi : k.interface.returned ≠ 0) :
    rapidPlugin.runAfterSprintf this p m k =
      { returned := ((m.reg (k.worker.stored.getD p._taskHandle) p._pID (QueueRef.taskQueue this)
          (QueueRef.taskResponse this)).1 : Int)
        plugin := { p with _taskQueue := k.taskQueue, _taskResponse := k.taskResponse,
                           _taskHandle := k.worker.stored.getD p._taskHandle,
                           _interfaceHandle := k.interface.stored.getD p._interfaceHandle }
        manager := (m.reg (k.worker.stored.getD p._taskHandle) p._pID (QueueRef.taskQueue this)
          (QueueRef.taskResponse this)).2
        effects := [Effect.xQueueCreate k.taskQueue, Effect.xQueueCreate k.taskResponse,
          Effect.xTaskCreate p._pID k.worker.stored,
          Effect.xTaskCreate p._iID k.interface.stored] } := by
  simp [rapidPlugin.runAfterSprintf, hg, hw, hi]

/-- C5, as stated, fails. Slot 0 holds the name `a` with a `NULL` handle: the `run` of
the plugin `a` succeeds and registers the name in slot 1 with the worker handle 21;
without any `stop`, the second `run` succeeds as well, because the lookup yields the
`NULL` of slot 0: it creates two queues and two tasks again and registers the name in
slot 2. And for the running plugin whose name has 30 characters, registered with the
handle 21, the `sprintf` of the second `run` writes beyond `_iID`, so that no result is
determined. -/
theorem second_run_accepted :
    (rapidPlugin.run 0 (rapidPlugin.new "a" "") nullHandleDirectory allCreated).map
        (fun first => (first.returned, first.plugin, first.manager._taskNames 1,
          first.manager._taskHandles 1)) =
      Except.ok (1, runningPlugin, "a", 21) ∧
    ((rapidPlugin.run 0 (rapidPlugin.new "a" "") nullHandleDirectory allCreated).bind
        fun first => rapidPlugin.run 0 first.plugin first.manager createdAgain).map
        (fun second => (second.returned, second.plugin, second.effects,
          second.manager._taskNames 2)) =
      Except.ok
        (1,
         { _pID := "a", _iID := "i_a", _taskHandle := 31, _interfaceHandle := 32,
           _taskQueue := 13, _taskResponse := 14 },
         [Effect.xQueueCreate 13, Effect.xQueueCreate 14, Effect.xTaskCreate "a" (some 31),
          Effect.xTaskCreate "i_a" (some 32)],
         "a") ∧
    longRunningPlugin._pID.length = 30 ∧
    longRunningDirectory.getTaskHandle longRunningPlugin._pID = 21 ∧
    (rapidPlugin.run 0 longRunningPlugin longRunningDirectory createdAgain).map
        (fun second => second.returned) =
      Except.error RunError.iIDOverflow := by
  decide

/-- C5, amended. Take a plugin whose name has at most 29 characters. When the lookup of
the name yields a handle other than `NULL`, `run` returns 0 without a single kernel
call (no task spawned, no queue created), the directory is the one it found, and the
plugin keeps its name and its four handles (`_iID` is written again, with the text
derived from the name). That is the case after a `run` of the plugin that returned 1
with its worker spawn succeeding and the name not active before: the lookup of the name
then yields the new worker handle, and a second `run`, made in that state, returns 0
and changes nothing. -/
theorem run_registered_rejected (this : Nat) (p : rapidPlugin) (m : rapidRTOS_manager)
    (k : KernelAnswers) (hfits : p._pID.length ≤ 29) :
    (m.getTaskHandle p._pID ≠ 0 →
      rapidPlugin.run this p m k =
        Except.ok { returned := 0, plugin := { p with _iID := "i_" ++ p._pID }, manager := m,
                    effects := [] }) ∧
    (¬ m.active p._pID → k.worker.succeeded →
      ∀ first, rapidPlugin.run this p m k = Except.ok first → first.returned = 1 →
        first.plugin._taskHandle ≠ 0 ∧
        first.manager.getTaskHandle p._pID = first.plugin._taskHandle ∧
        ∀ k2, rapidPlugin.run this first.plugin first.manager k2 =
          Except.ok { returned := 0, plugin := first.plugin, manager := first.manager,
                      effects := [] }) := by
  constructor
  · intro hreg
    rw [run_fits this p m k hfits]
    exact congrArg Except.ok
      (runAfterSprintf_rejected this { p with _iID := "i_" ++ p._pID } m k hreg)
  · intro hna hw first hfirst hret
    rw [run_fits this p m k hfits] at hfirst
    injection hfirst with hfirst
    subst hfirst
    obtain ⟨hg, hwr, hir, hfree⟩ := (runAfterSprintf_eq_one_iff this _ m k).1 hret
    obtain ⟨handle, hstored, hnonnull, _⟩ := SpawnAnswer.succeeded_stored _ hw
    have hlookup := getTaskHandle_reg m handle p._pID (QueueRef.taskQueue this)
      (QueueRef.taskResponse this) hna hfree
    rw [runAfterSprintf_registered this _ m k hg hwr hir]
    simp only [hstored, Option.getD_some]
    refine ⟨hnonnull, hlookup, fun k2 => ?_⟩
    have hreg2 : (m.reg handle p._pID (QueueRef.taskQueue this)
        (QueueRef.taskResponse this)).2.getTaskHandle p._pID ≠ 0 := by
      rw [hlookup]
      exact hnonnull
    have h2 := run_fits this
      { p with _iID := "i_" ++ p._pID, _taskQueue := k.taskQueue,
               _taskResponse := k.taskResponse, _taskHandle := handle,
               _interfaceHandle := k.interface.stored.getD p._interfaceHandle }
      (m.reg handle p._pID (QueueRef.taskQueue this) (QueueRef.taskResponse this)).2 k2 hfits
    rw [h2]
    exact congrArg Except.ok (runAfterSprintf_rejected this _ _ k2 hreg2)

/-- An instance of C5 as amended: the plugin `a` on the empty directory, run twice. -/
theorem run_registered_rejected_witness :
    (rapidPlugin.new "a" "")._pID.length ≤ 29 ∧ ¬ emptyDirectory.active "a" ∧
    allCreated.worker.succeeded ∧
    rapidPlugin.run 0 (rapidPlugin.new "a" "") emptyDirectory allCreated =
      Except.ok
        { returned := 1, plugin := runningPlugin, manager := runningDirectory,
          effects := [Effect.xQueueCreate 11, Effect.xQueueCreate 12,
            Effect.xTaskCreate "a" (some 21), Effect.xTaskCreate "i_a" (some 22)] } ∧
    runningDirectory.getTaskHandle "a" = 21 ∧
    rapidPlugin.run 0 runningPlugin runningDirectory createdAgain =
      Except.ok { returned := 0, plugin := runningPlugin, manager := runningDirectory,
                  effects := [] } :=
  ⟨by decide, by decide, by decide, rfl, by decide,
   ((run_registered_rejected 0 (rapidPlugin.new "a" "") emptyDirectory allCreated
      (by decide)).2 (by decide) (by decide)
      { returned := 1, plugin := runningPlugin, manager := runningDirectory,
        effects := [Effect.xQueueCreate 11, Effect.xQueueCreate 12,
          Effect.xTaskCreate "a" (some 21), Effect.xTaskCreate "i_a" (some 22)] }
      rfl rfl).2.2 createdAgain⟩

/-- The result of `run` is 1 or 0. -/
theorem runAfterSprintf_returned (this : Nat) (p : rapidPlugin) (m : rapidRTOS_manager)
    (k : KernelAnswers) :
    (rapidPlugin.runAfterSprintf this p m k).returned = 1 ∨
      (rapidPlugin.runAfterSprintf this p m k).returned = 0 := by
  by_cases hg : m.getTaskHandle p._pID = 0
  · by_cases hw : k.worker.returned = 0
    · right
      simp [rapidPlugin.runAfterSprintf, rapidPlugin.runRollback, hg, hw]
    · by_cases hi : k.interface.returned = 0
      · right
        simp [rapidPlugin.runAfterSprintf, rapidPlugin.runRollback, hg, hw, hi]
      · rw [runAfterSprintf_registered this p m k hg hw hi]
        rcases reg_cases m (k.worker.stored.getD p._taskHandle) p._pID
          (QueueRef.taskQueue this) (QueueRef.taskResponse this)
          with ⟨_, h⟩ | ⟨i, _, _, h⟩
        · right
          simp [h]
        · left
          simp [h]
  · right
    simp [rapidPlugin.runAfterSprintf, hg]

/-- C6, as stated, fails. When the worker spawn fails as FreeRTOS reports it (result
`errCOULD_NOT_ALLOCATE_REQUIRED_MEMORY`, nothing stored), `run` of the plugin `a` on the
empty directory still returns 1 and registers the name, with the `NULL` the worker
handle still is, so that the lookup of `a` yields `NULL`. When slot 0 holds the name `a`
with a `NULL` handle and everything is created, `run` returns 1, storing its entry in
slot 1, and the lookup of `a` afterwards yields the `NULL` of slot 0, not the new worker
handle 21. And for a name of 30 characters the `sprintf` of `run` writes beyond `_iID`. -/
theorem run_success_lookup_null :
    spawnFailed.failed ∧
    (rapidPlugin.run 0 (rapidPlugin.new "a" "") emptyDirectory
        ⟨11, 12, spawnFailed, ⟨pdPASS, some 22⟩⟩).map
        (fun result => (result.returned, result.manager._taskNames 0,
          result.manager.getTaskHandle "a")) =
      Except.ok (1, "a", 0) ∧
    allCreated.worker = ⟨pdPASS, some 21⟩ ∧
    (rapidPlugin.run 0 (rapidPlugin.new "a" "") nullHandleDirectory allCreated).map
        (fun result => (result.returned, result.manager.getTaskHandle "a")) =
      Except.ok (1, 0) ∧
    longName.length = 30 ∧
    (rapidPlugin.run 0 (rapidPlugin.new longName "") emptyDirectory allCreated).map
        (fun result => result.returned) =
      Except.error RunError.iIDOverflow := by
  decide

/-- C6, amended. Take a plugin whose name has at most 29 characters. `run` returns 1 or 0;
it returns 1 only if the lookup of the plugin's name yields no handle and the directory
has a free slot; and it returns 1 if the lookup yields no handle, both task spawns
succeed and the directory has a free slot. Whenever `run` returns 1, its worker spawn
having succeeded and the plugin's name not having been active before the call, a
subsequent `getTaskHandle` of the name returns the newly created worker task handle. -/
theorem run_success_iff_and_lookup (this : Nat) (p : rapidPlugin) (m : rapidRTOS_manager)
    (k : KernelAnswers) (hfits : p._pID.length ≤ 29) :
    ∃ result, rapidPlugin.run this p m k = Except.ok result ∧
      (result.returned = 1 ∨ result.returned = 0) ∧
      (result.returned = 1 → m.getTaskHandle p._pID = 0 ∧ ∃ i, m._taskNames i = "") ∧
      (m.getTaskHandle p._pID = 0 → k.worker.succeeded → k.interface.succeeded →
        (∃ i, m._taskNames i = "") → result.returned = 1) ∧
      (result.returned = 1 → k.worker.succeeded → ¬ m.active p._pID →
        k.worker.stored = some (result.manager.getTaskHandle p._pID)) := by
  refine ⟨_, run_fits this p m k hfits, ?_, ?_, ?_, ?_⟩
  · exact runAfterSprintf_returned this _ m k
  · intro h1
    obtain ⟨hg, _, _, hfree⟩ := (runAfterSprintf_eq_one_iff this _ m k).1 h1
    exact ⟨hg, hfree⟩
  · intro hg hw hi hfree
    obtain ⟨_, _, _, hwr⟩ := SpawnAnswer.succeeded_stored _ hw
    obtain ⟨_, _, _, hir⟩ := SpawnAnswer.succeeded_stored _ hi
    exact (runAfterSprintf_eq_one_iff this _ m k).2 ⟨hg, hwr, hir, hfree⟩
  · intro h1 hw hna
    obtain ⟨hg, hwr, hir, hfree⟩ := (runAfterSprintf_eq_one_iff this _ m k).1 h1
    obtain ⟨handle, hstored, _, _⟩ := SpawnAnswer.succeeded_stored _ hw
    rw [runAfterSprintf_registered this _ m k hg hwr hir]
    simp only [hstored, Option.getD_some]
    exact congrArg some (getTaskHandle_reg m handle p._pID _ _ hna hfree).symm

/-- An instance of C6 as amended: the first `run` of the plugin `a` on the empty directory. -/
theorem run_success_iff_and_lookup_witness :
    (rapidPlugin.new "a" "")._pID.length ≤ 29 ∧
    emptyDirectory.getTaskHandle (rapidPlugin.new "a" "")._pID = 0 ∧
    allCreated.worker.succeeded ∧ allCreated.interface.succeeded ∧
    (∃ i, emptyDirectory._taskNames i = "") ∧
    ¬ emptyDirectory.active (rapidPlugin.new "a" "")._pID ∧
    (rapidPlugin.run 0 (rapidPlugin.new "a" "") emptyDirectory allCreated).map
        (fun result => (result.returned, result.manager.getTaskHandle "a")) =
      Except.ok (1, 21) ∧
    ∃ result, rapidPlugin.run 0 (rapidPlugin.new "a" "") emptyDirectory allCreated =
        Except.ok result ∧
      (result.returned = 1 ∨ result.returned = 0) ∧
      (result.returned = 1 →
        emptyDirectory.getTaskHandle (rapidPlugin.new "a" "")._pID = 0 ∧
          ∃ i, emptyDirectory._taskNames i = "") ∧
      (emptyDirectory.getTaskHandle (rapidPlugin.new "a" "")._pID = 0 →
        allCreated.worker.succeeded → allCreated.interface.succeeded →
        (∃ i, emptyDirectory._taskNames i = "") → result.returned = 1) ∧
      (result.returned = 1 → allCreated.worker.succeeded →
        ¬ emptyDirectory.active (rapidPlugin.new "a" "")._pID →
        allCreated.worker.stored =
          some (result.manager.getTaskHandle (rapidPlugin.new "a" "")._pID)) :=
  ⟨by decide, by decide, by decide, by decide, by decide, by decide, by decide,
    run_success_iff_and_lookup 0 (rapidPlugin.new "a" "") emptyDirectory allCreated
      (by decide)⟩

theorem runAfterSprintf_plugin_consistent (this : Nat) (p : rapidPlugin)
    (m : rapidRTOS_manager) (k : KernelAnswers) (hq : k.queuesCreated)
    (hk : k.tasksSpawned) (hp : p.allPresent ∨ p.workerAndQueuesAbsent) :
    (rapidPlugin.runAfterSprintf this p m k).plugin.allPresent ∨
      (rapidPlugin.runAfterSprintf this p m k).plugin.workerAndQueuesAbsent := by
  obtain ⟨hq1, hq2⟩ := hq
  obtain ⟨worker, hws, hw0, hw⟩ := SpawnAnswer.succeeded_stored _ hk.1
  obtain ⟨interface, his, hi0, hi⟩ := SpawnAnswer.succeeded_stored _ hk.2
  by_cases hg : m.getTaskHandle p._pID = 0
  · left
    rw [runAfterSprintf_registered this p m k hg hw hi]
    simp [rapidPlugin.allPresent, hws, his, hw0, hi0, hq1, hq2]
  · simpa [rapidPlugin.runAfterSprintf, hg] using hp

theorem stop_plugin_absent (p : rapidPlugin) (m : rapidRTOS_manager)
    (hp : p.allPresent ∨ p.workerAndQueuesAbsent) :
    (rapidPlugin.stop p m).plugin.workerAndQueuesAbsent := by
  by_cases h : p._taskHandle = 0
  · rcases hp with hp | hp
    · exact absurd h hp.1
    · simpa [rapidPlugin.stop, h] using hp
  · simp [rapidPlugin.stop, h, rapidPlugin.workerAndQueuesAbsent]

theorem stop_pID (p : rapidPlugin) (m : rapidRTOS_manager) :
    (rapidPlugin.stop p m).plugin._pID = p._pID := by
  unfold rapidPlugin.stop
  split_ifs <;> rfl

theorem afterCalls_plugin_consistent : ∀ (calls : List PluginCall) (p : rapidPlugin),
    p._pID.length ≤ 29 → (p.allPresent ∨ p.workerAndQueuesAbsent) →
    (∀ call ∈ calls, call.valid) →
    ∃ p1, p.afterCalls calls = Except.ok p1 ∧ (p1.allPresent ∨ p1.workerAndQueuesAbsent)
  | [], p, _, hp, _ => ⟨p, rfl, hp⟩
  | PluginCall.run this m k :: rest, p, hfits, hp, hv => by
    have hk : k.queuesCreated ∧ k.tasksSpawned := hv (PluginCall.run this m k) (by simp)
    have hp1 := runAfterSprintf_plugin_consistent this { p with _iID := "i_" ++ p._pID } m k
      hk.1 hk.2 (by simpa [rapidPlugin.allPresent, rapidPlugin.workerAndQueuesAbsent] using hp)
    have hfits1 : (rapidPlugin.runAfterSprintf this { p with _iID := "i_" ++ p._pID } m
        k).plugin._pID.length ≤ 29 := by
      rw [runAfterSprintf_pID]
      exact hfits
    obtain ⟨p1, h1, h2⟩ := afterCalls_plugin_consistent rest _ hfits1 hp1
      (fun c hc => hv c (by simp [hc]))
    refine ⟨p1, ?_, h2⟩
    rw [rapidPlugin.afterCalls, PluginCall.apply, run_fits this p m k hfits]
    exact h1
  | PluginCall.stop m :: rest, p, hfits, hp, hv => by
    have hfits1 : (rapidPlugin.stop p m).plugin._pID.length ≤ 29 := by
      rw [stop_pID]
      exact hfits
    obtain ⟨p1, h1, h2⟩ := afterCalls_plugin_consistent rest (rapidPlugin.stop p m).plugin
      hfits1 (Or.inr (stop_plugin_absent p m hp)) (fun c hc => hv c (by simp [hc]))
    refine ⟨p1, ?_, h2⟩
    rw [rapidPlugin.afterCalls, PluginCall.apply]
    exact h1

/-- C7, as stated, fails. After a `run` that created everything and the `stop` that
follows, the worker handle and both queue handles are `NULL` while the interface handle
still is 22. After a `run` whose first `xQueueCreate` returns `NULL`, the command
channel is absent while the other three are present. After a `run` whose worker spawn
fails as FreeRTOS reports it, the worker handle is `NULL` while the other three are
present; after one whose interface spawn fails in that way, the interface handle is
`NULL` while the other three are present. In each state the four are neither all
present nor all absent. And for a name of 30 characters the `sprintf` of `run` writes
beyond `_iID`, so that no state is determined. -/
theorem stop_keeps_interface_handle :
    (World.afterCalls ⟨rapidRTOS_manager.new emptyDirectory, fun _ => rapidPlugin.new "a" ""⟩
        [LifecycleCall.run 0 allCreated, LifecycleCall.stop 0]).map (fun w => w.plugins 0) =
      Except.ok { _pID := "a", _iID := "i_a", _taskHandle := 0, _interfaceHandle := 22,
                  _taskQueue := 0, _taskResponse := 0 } ∧
    (World.afterCalls ⟨rapidRTOS_manager.new emptyDirectory, fun _ => rapidPlugin.new "a" ""⟩
        [LifecycleCall.run 0 ⟨0, 12, ⟨pdPASS, some 21⟩, ⟨pdPASS, some 22⟩⟩]).map
        (fun w => w.plugins 0) =
      Except.ok { _pID := "a", _iID := "i_a", _taskHandle := 21, _interfaceHandle := 22,
                  _taskQueue := 0, _taskResponse := 12 } ∧
    spawnFailed.failed ∧
    (World.afterCalls ⟨rapidRTOS_manager.new emptyDirectory, fun _ => rapidPlugin.new "a" ""⟩
        [LifecycleCall.run 0 ⟨11, 12, spawnFailed, ⟨pdPASS, some 22⟩⟩]).map
        (fun w => w.plugins 0) =
      Except.ok { _pID := "a", _iID := "i_a", _taskHandle := 0, _interfaceHandle := 22,
                  _taskQueue := 11, _taskResponse := 12 } ∧
    (World.afterCalls ⟨rapidRTOS_manager.new emptyDirectory, fun _ => rapidPlugin.new "a" ""⟩
        [LifecycleCall.run 0 ⟨11, 12, ⟨pdPASS, some 21⟩, spawnFailed⟩]).map
        (fun w => w.plugins 0) =
      Except.ok { _pID := "a", _iID := "i_a", _taskHandle := 21, _interfaceHandle := 0,
                  _taskQueue := 11, _taskResponse := 12 } ∧
    (∀ p : rapidPlugin,
      p ∈ [{ _pID := "a", _iID := "i_a", _taskHandle := 0, _interfaceHandle := 22,
             _taskQueue := 0, _taskResponse := 0 },
           { _pID := "a", _iID := "i_a", _taskHandle := 21, _interfaceHandle := 22,
             _taskQueue := 0, _taskResponse := 12 },
           { _pID := "a", _iID := "i_a", _taskHandle := 0, _interfaceHandle := 22,
             _taskQueue := 11, _taskResponse := 12 },
           { _pID := "a", _iID := "i_a", _taskHandle := 21, _interfaceHandle := 0,
             _taskQueue := 11, _taskResponse := 12 }] →
      ¬ (p.allPresent ∨ p.allAbsent)) ∧
    longName.length = 30 ∧
    (World.afterCalls
        ⟨rapidRTOS_manager.new emptyDirectory, fun _ => rapidPlugin.new longName ""⟩
        [LifecycleCall.run 0 allCreated]).map (fun w => w.plugins 0) =
      Except.error RunError.iIDOverflow := by
  decide

/-- C7, amended. Take a plugin whose name has at most 29 characters. In every plugin
state reachable from the initial state by any sequence of `run` and `stop` calls
(whatever directory each call finds, whatever the registration outcomes) in which
every `xQueueCreate` creates its queue and every task spawn succeeds (the result is
`pdPASS` and a handle other than `NULL` is stored), either all four resources are
present, or the worker task handle, the command channel and the response channel are
all absent; and after a further `stop` these three are absent. -/
theorem lifecycle_resources_consistent (pID iID : String) (calls : List PluginCall)
    (hfits : pID.length ≤ 29) (hv : ∀ call ∈ calls, call.valid) :
    ∃ p, (rapidPlugin.new pID iID).afterCalls calls = Except.ok p ∧
      (p.allPresent ∨ p.workerAndQueuesAbsent) ∧
      ∀ m, (rapidPlugin.stop p m).plugin.workerAndQueuesAbsent := by
  have h0 : (rapidPlugin.new pID iID).allPresent ∨
      (rapidPlugin.new pID iID).workerAndQueuesAbsent :=
    Or.inr (by simp [rapidPlugin.new, rapidPlugin.workerAndQueuesAbsent])
  obtain ⟨p, h1, h2⟩ := afterCalls_plugin_consistent calls (rapidPlugin.new pID iID) hfits h0 hv
  exact ⟨p, h1, h2, fun m => stop_plugin_absent p m h2⟩

/-- An instance of C7 as amended: a `run`, a `stop`, and a `run` that finds the directory full. -/
theorem lifecycle_resources_consistent_witness :
    "a".length ≤ 29 ∧
    (∀ call ∈ [PluginCall.run 0 emptyDirectory allCreated, PluginCall.stop runningDirectory,
         PluginCall.run 0 fullDirectory createdAgain], call.valid) ∧
    (rapidPlugin.new "a" "").afterCalls
        [PluginCall.run 0 emptyDirectory allCreated, PluginCall.stop runningDirectory,
         PluginCall.run 0 fullDirectory createdAgain] =
      Except.ok { _pID := "a", _iID := "i_a", _taskHandle := 31, _interfaceHandle := 32,
                  _taskQueue := 13, _taskResponse := 14 } ∧
    ∃ p, (rapidPlugin.new "a" "").afterCalls
        [PluginCall.run 0 emptyDirectory allCreated, PluginCall.stop runningDirectory,
         PluginCall.run 0 fullDirectory createdAgain] = Except.ok p ∧
      (p.allPresent ∨ p.workerAndQueuesAbsent) ∧
      ∀ m, (rapidPlugin.stop p m).plugin.workerAndQueuesAbsent :=
  have hv : ∀ call ∈ [PluginCall.run 0 emptyDirectory allCreated,
      PluginCall.stop runningDirectory, PluginCall.run 0 fullDirectory createdAgain],
      call.valid := by
    intro call hcall
    simp only [List.mem_cons, List.mem_singleton, List.not_mem_nil, or_false] at hcall
    rcases hcall with rfl | rfl | rfl
    · exact ⟨by decide, by decide⟩
    · trivial
    · exact ⟨by decide, by decide⟩
  ⟨by decide, hv, by decide, lifecycle_resources_consistent "a" "" _ (by decide) hv⟩

theorem runAfterSprintf_manager_invariant (this : Nat) (p : rapidPlugin)
    (m : rapidRTOS_manager) (k : KernelAnswers) (hk : k.worker.succeeded)
    (hu : m.uniqueNames) (hh : m.activeHandles) :
    (rapidPlugin.runAfterSprintf this p m k).manager.uniqueNames ∧
      (rapidPlugin.runAfterSprintf this p m k).manager.activeHandles := by
  obtain ⟨worker, hws, hw0, hw⟩ := SpawnAnswer.succeeded_stored _ hk
  by_cases hg : m.getTaskHandle p._pID = 0
  · by_cases hi : k.interface.returned = 0
    · simpa [rapidPlugin.runAfterSprintf, rapidPlugin.runRollback, hg, hw, hi] using ⟨hu, hh⟩
    · rw [runAfterSprintf_registered this p m k hg hw hi]
      simp only [hws, Option.getD_some]
      exact ⟨reg_uniqueNames m worker p._pID _ _ hu (not_active_of_getTaskHandle m _ hh hg),
        reg_activeHandles m worker p._pID _ _ hh (fun _ => hw0)⟩
  · simpa [rapidPlugin.runAfterSprintf, hg] using ⟨hu, hh⟩

theorem stop_manager_invariant (p : rapidPlugin) (m : rapidRTOS_manager)
    (hu : m.uniqueNames) (hh : m.activeHandles) :
    (rapidPlugin.stop p m).manager.uniqueNames ∧ (rapidPlugin.stop p m).manager.activeHandles := by
  by_cases h : p._taskHandle = 0
  · simpa [rapidPlugin.stop, h] using ⟨hu, hh⟩
  · simp only [rapidPlugin.stop, h, ne_eq, not_false_eq_true, if_true]
    exact ⟨dereg_uniqueNames m _ hu, dereg_activeHandles m _ hh⟩

theorem update_pID_fits (plugins : Nat → rapidPlugin) (this : Nat) (p : rapidPlugin)
    (hfits : ∀ n, (plugins n)._pID.length ≤ 29) (hp : p._pID = (plugins this)._pID) :
    ∀ n, (Function.update plugins this p n)._pID.length ≤ 29 := by
  intro n
  by_cases hn : n = this
  · subst hn
    rw [Function.update_same, hp]
    exact hfits n
  · rw [Function.update_noteq hn]
    exact hfits n

theorem afterCalls_manager_invariant : ∀ (calls : List LifecycleCall) (w : World),
    (∀ n, (w.plugins n)._pID.length ≤ 29) → w.manager.uniqueNames → w.manager.activeHandles →
    (∀ call ∈ calls, call.valid) →
    ∃ w1, w.afterCalls calls = Except.ok w1 ∧ w1.manager.uniqueNames ∧ w1.manager.activeHandles
  | [], w, _, hu, hh, _ => ⟨w, rfl, hu, hh⟩
  | LifecycleCall.run this k :: rest, w, hfits, hu, hh, hv => by
    have hk : k.worker.succeeded := hv (LifecycleCall.run this k) (by simp)
    have h1 := runAfterSprintf_manager_invariant this
      { w.plugins this with _iID := "i_" ++ (w.plugins this)._pID } w.manager k hk hu hh
    obtain ⟨w1, h2, h3⟩ := afterCalls_manager_invariant rest
      { manager := (rapidPlugin.runAfterSprintf this
          { w.plugins this with _iID := "i_" ++ (w.plugins this)._pID } w.manager k).manager,
        plugins := Function.update w.plugins this (rapidPlugin.runAfterSprintf this
          { w.plugins this with _iID := "i_" ++ (w.plugins this)._pID } w.manager k).plugin }
      (update_pID_fits _ _ _ hfits (runAfterSprintf_pID _ _ _ _)) h1.1 h1.2
      (fun c hc => hv c (by simp [hc]))
    refine ⟨w1, ?_, h3⟩
    rw [World.afterCalls, LifecycleCall.apply, run_fits this _ _ k (hfits this)]
    exact h2
  | LifecycleCall.stop this :: rest, w, hfits, hu, hh, hv => by
    have h1 := stop_manager_invariant (w.plugins this) w.manager hu hh
    obtain ⟨w1, h2, h3⟩ := afterCalls_manager_invariant rest
      { manager := (rapidPlugin.stop (w.plugins this) w.manager).manager,
        plugins := Function.update w.plugins this
          (rapidPlugin.stop (w.plugins this) w.manager).plugin }
      (update_pID_fits _ _ _ hfits (stop_pID _ _)) h1.1 h1.2
      (fun c hc => hv c (by simp [hc]))
    refine ⟨w1, ?_, h3⟩
    rw [World.afterCalls, LifecycleCall.apply]
    exact h2

/-- C8, as stated, fails. Two plugin objects share the name `a` and the directory is
fresh. The worker spawn of the first `run` fails as FreeRTOS reports it (result
`errCOULD_NOT_ALLOCATE_REQUIRED_MEMORY`, nothing stored): `run` registers the name in
slot 0 with the `NULL` the worker handle still is, an active entry with a `NULL`
handle. The `run` of the other object, everything created, then finds the lookup
yielding `NULL` and registers the name again, in slot 1: two active entries with the
same name. And for a plugin whose name has 30 characters the `sprintf` of `run` writes
beyond `_iID`, so that no directory state is determined. -/
theorem failed_spawn_registers_null :
    spawnFailed.failed ∧
    (∃ w, World.afterCalls
        ⟨rapidRTOS_manager.new emptyDirectory, fun _ => rapidPlugin.new "a" ""⟩
        [LifecycleCall.run 0 ⟨11, 12, spawnFailed, ⟨pdPASS, some 22⟩⟩] = Except.ok w ∧
      w.manager._taskNames 0 = "a" ∧ w.manager._taskHandles 0 = 0 ∧
      ¬ w.manager.activeHandles) ∧
    (∃ w, World.afterCalls
        ⟨rapidRTOS_manager.new emptyDirectory, fun _ => rapidPlugin.new "a" ""⟩
        [LifecycleCall.run 0 ⟨11, 12, spawnFailed, ⟨pdPASS, some 22⟩⟩,
         LifecycleCall.run 1 allCreated] = Except.ok w ∧
      w.manager._taskNames 0 = "a" ∧ w.manager._taskNames 1 = "a" ∧
      ¬ w.manager.uniqueNames) ∧
    longName.length = 30 ∧
    (World.afterCalls
        ⟨rapidRTOS_manager.new emptyDirectory, fun _ => rapidPlugin.new longName ""⟩
        [LifecycleCall.run 0 allCreated]).map (fun w => w.manager._taskNames 0) =
      Except.error RunError.iIDOverflow :=
  ⟨by decide, ⟨_, rfl, by decide, by decide, by decide⟩,
    ⟨_, rfl, by decide, by decide, by decide⟩, by decide, by decide⟩

/-- C8, amended. Start from the freshly constructed directory and any plugin objects
with names of at most 29 characters (shared or not) and make any sequence of whole
`run` and `stop` calls on them in which every spawn of a worker task succeeds (the
result is `pdPASS` and a handle other than `NULL` is stored), whatever the spawns of
the interface tasks yield: the directory never holds the same name in two active
slots, and every active slot has a worker handle other than `NULL`. -/
theorem lifecycle_directory_invariant (uninit : rapidRTOS_manager)
    (plugins : Nat → rapidPlugin) (calls : List LifecycleCall)
    (hfits : ∀ n, (plugins n)._pID.length ≤ 29) (hv : ∀ call ∈ calls, call.valid) :
    ∃ w, World.afterCalls ⟨rapidRTOS_manager.new uninit, plugins⟩ calls = Except.ok w ∧
      w.manager.uniqueNames ∧ w.manager.activeHandles :=
  afterCalls_manager_invariant calls _ hfits (new_uniqueNames uninit) (new_activeHandles uninit)
    hv

/-- An instance of C8 as amended: two plugin objects that share the name `a`; the second
`run` of the sequence is rejected, the last one takes the slot that `stop` has freed. -/
theorem lifecycle_directory_invariant_witness :
    (∀ _n : Nat, (rapidPlugin.new "a" "")._pID.length ≤ 29) ∧
    (∀ call ∈ [LifecycleCall.run 0 allCreated, LifecycleCall.run 1 createdAgain,
       LifecycleCall.stop 0, LifecycleCall.run 1 createdAgain], call.valid) ∧
    (World.afterCalls ⟨rapidRTOS_manager.new emptyDirectory, fun _ => rapidPlugin.new "a" ""⟩
      [LifecycleCall.run 0 allCreated, LifecycleCall.run 1 createdAgain,
       LifecycleCall.stop 0, LifecycleCall.run 1 createdAgain]).map
        (fun w => (w.manager._taskNames 0, w.manager._taskHandles 0, w.manager.getNumTasks)) =
      Except.ok ("a", 31, 1) ∧
    ∃ w, World.afterCalls
        ⟨rapidRTOS_manager.new emptyDirectory, fun _ => rapidPlugin.new "a" ""⟩
        [LifecycleCall.run 0 allCreated, LifecycleCall.run 1 createdAgain,
         LifecycleCall.stop 0, LifecycleCall.run 1 createdAgain] = Except.ok w ∧
      w.manager.uniqueNames ∧ w.manager.activeHandles :=
  have hfits : ∀ _n : Nat, (rapidPlugin.new "a" "")._pID.length ≤ 29 := fun _ => by decide
  have hv : ∀ call ∈ [LifecycleCall.run 0 allCreated, LifecycleCall.run 1 createdAgain,
      LifecycleCall.stop 0, LifecycleCall.run 1 createdAgain], call.valid := by
    intro call hcall
    simp only [List.mem_cons, List.mem_singleton, List.not_mem_nil, or_false] at hcall
    rcases hcall with rfl | rfl | rfl | rfl
    · exact (by decide : allCreated.worker.succeeded)
    · exact (by decide : createdAgain.worker.succeeded)
    · trivial
    · exact (by decide : createdAgain.worker.succeeded)
  ⟨hfits, hv, by decide,
    lifecycle_directory_invariant emptyDirectory (fun _ => rapidPlugin.new "a" "") _ hfits hv⟩

/-- C9, as stated, fails. Slot 0 holds the name `a` with a `NULL` handle. The first
`run` of the plugin `a` returns 1 and stores its entry in slot 1; `stop` then resets
slot 0, the lowest slot named `a`; the second `run`, with both spawns succeeding,
finds the entry of slot 1 and returns 0. When, on the empty directory, the worker spawn
of the first `run` fails as FreeRTOS reports it, that `run` returns 1 and stores the
name in slot 0 with a `NULL` handle; `stop` then does nothing, and the second `run`
stores the name in slot 1: two slots are occupied where one was. And for a name of 30
characters the `sprintf` of `run` writes beyond `_iID`, so that no result is
determined. -/
theorem stop_run_rejected :
    (rapidPlugin.run 0 (rapidPlugin.new "a" "") nullHandleDirectory allCreated).map
        (fun first => (first.returned, first.manager._taskNames 1)) =
      Except.ok (1, "a") ∧
    ((rapidPlugin.run 0 (rapidPlugin.new "a" "") nullHandleDirectory allCreated).bind
        fun first => rapidPlugin.stopThenRun 0 first.plugin first.manager createdAgain).map
        (fun second => second.returned) =
      Except.ok 0 ∧
    createdAgain.worker.succeeded ∧ createdAgain.interface.succeeded ∧
    spawnFailed.failed ∧
    (rapidPlugin.run 0 (rapidPlugin.new "a" "") emptyDirectory
        ⟨11, 12, spawnFailed, ⟨pdPASS, some 22⟩⟩).map
        (fun first => (first.returned, first.manager._taskNames 0,
          first.manager.getNumTasks)) =
      Except.ok (1, "a", 1) ∧
    ((rapidPlugin.run 0 (rapidPlugin.new "a" "") emptyDirectory
        ⟨11, 12, spawnFailed, ⟨pdPASS, some 22⟩⟩).bind
        fun first => rapidPlugin.stopThenRun 0 first.plugin first.manager createdAgain).map
        (fun second => (second.returned, second.manager._taskNames 1,
          second.manager._taskHandles 1, second.manager.getNumTasks)) =
      Except.ok (1, "a", 31, 2) ∧
    longName.length = 30 ∧
    (rapidPlugin.run 0 (rapidPlugin.new longName "") emptyDirectory allCreated).map
        (fun first => first.returned) =
      Except.error RunError.iIDOverflow := by
  decide

/-- C9, amended. Take a plugin with a non-empty name of at most 29 characters that is
not active in the directory, and a `run` of it that returns 1 with its worker spawn
succeeding; the entry is stored in the lowest free slot `i`. Calling `stop` and then
`run` again, both spawns succeeding and nothing else touching the directory, returns 1
and stores the name in the same slot `i`, with the new worker handle: the names held
by the slots, and so the occupied slots and the count, are those after the first
`run`. -/
theorem stop_run_reuses_slot (this : Nat) (p : rapidPlugin) (m : rapidRTOS_manager)
    (k1 k2 : KernelAnswers) (first : RunResult)
    (hfits : p._pID.length ≤ 29) (hname : p._pID ≠ "") (hna : ¬ m.active p._pID)
    (hfirst : rapidPlugin.run this p m k1 = Except.ok first) (hrun : first.returned = 1)
    (hw1 : k1.worker.succeeded) (hw2 : k2.worker.succeeded) (hi2 : k2.interface.succeeded) :
    ∃ i second, m._taskNames i = "" ∧ (∀ j, j < i → m._taskNames j ≠ "") ∧
      first.manager._taskNames i = p._pID ∧
      rapidPlugin.stopThenRun this first.plugin first.manager k2 = Except.ok second ∧
      second.returned = 1 ∧
      second.manager._taskNames i = p._pID ∧
      k2.worker.stored = some (second.manager._taskHandles i) ∧
      second.manager._taskNames = first.manager._taskNames ∧
      second.manager.getNumTasks = first.manager.getNumTasks := by
  rw [run_fits this p m k1 hfits] at hfirst
  injection hfirst with hfirst
  subst hfirst
  obtain ⟨hg, hwr, hir, _⟩ := (runAfterSprintf_eq_one_iff this _ m k1).1 hrun
  obtain ⟨worker1, hws1, hw10, _⟩ := SpawnAnswer.succeeded_stored _ hw1
  obtain ⟨worker2, hws2, _, hwr2⟩ := SpawnAnswer.succeeded_stored _ hw2
  obtain ⟨interface2, his2, _, hir2⟩ := SpawnAnswer.succeeded_stored _ hi2
  -- no slot of `m` holds the name
  have hnone : ∀ j, m._taskNames j ≠ p._pID := fun j hj => hna ⟨j, by rw [hj]; exact hname, hj⟩
  rcases reg_cases m worker1 p._pID (QueueRef.taskQueue this) (QueueRef.taskResponse this)
    with ⟨hfull, hreg⟩ | ⟨i, hi0, hlow, hreg⟩
  · rw [runAfterSprintf_registered this _ m k1 hg hwr hir] at hrun
    simp [hws1, hreg] at hrun
  · -- `dereg` finds slot `i`
    have hfs1 : firstSlot (fun j => decide (Function.update m._taskNames i p._pID j = p._pID))
        = some i := by
      rw [firstSlot_eq_some]
      refine ⟨by simp, fun j hj => ?_⟩
      have hji : j ≠ i := Fin.ne_of_lt hj
      simpa [Function.update_apply, hji] using hnone j
    have hnames2 : Function.update (Function.update m._taskNames i p._pID) i "" =
        m._taskNames := by
      rw [Function.update_idem, ← hi0, Function.update_eq_self]
    -- after `stop`, no slot holds the name and slot `i` is the lowest free one again
    have hfs2 : firstSlot (fun j => decide (m._taskNames j = p._pID)) = none :=
      (firstSlot_eq_none _).2 (fun j => by simpa using hnone j)
    have hfs3 : firstSlot (fun j => decide (m._taskNames j = "")) = some i := by
      rw [firstSlot_eq_some]
      exact ⟨by simpa using hi0, fun j hj => by simpa using hlow j hj⟩
    rw [runAfterSprintf_registered this _ m k1 hg hwr hir]
    simp only [hws1, Option.getD_some, hreg]
    refine ⟨i, _, hi0, hlow, by simp, run_fits this _ _ k2 ?_, ?_⟩
    · rw [stop_pID]
      exact hfits
    · simp [rapidPlugin.stop, rapidPlugin.runAfterSprintf, rapidRTOS_manager.dereg,
        rapidRTOS_manager.getTaskHandle, rapidRTOS_manager.reg, hw10, hfs1, hnames2, hfs2, hfs3,
        hws2, his2, hwr2, hir2, rapidRTOS_manager.getNumTasks]

/-- An instance of C9 as amended: the plugin `a` on the empty directory, slot 0 used twice. -/
theorem stop_run_reuses_slot_witness :
    (rapidPlugin.new "a" "")._pID.length ≤ 29 ∧ (rapidPlugin.new "a" "")._pID ≠ "" ∧
    ¬ emptyDirectory.active (rapidPlugin.new "a" "")._pID ∧
    allCreated.worker.succeeded ∧ createdAgain.worker.succeeded ∧
    createdAgain.interface.succeeded ∧
    (rapidPlugin.stopThenRun 0 runningPlugin runningDirectory createdAgain).map
        (fun second => (second.returned, second.manager._taskNames 0,
          second.manager._taskHandles 0, second.manager.getNumTasks)) =
      Except.ok (1, "a", 31, 1) ∧
    ∃ i second, emptyDirectory._taskNames i = "" ∧
      (∀ j, j < i → emptyDirectory._taskNames j ≠ "") ∧
      runningDirectory._taskNames i = (rapidPlugin.new "a" "")._pID ∧
      rapidPlugin.stopThenRun 0 runningPlugin runningDirectory createdAgain =
        Except.ok second ∧
      second.returned = 1 ∧
      second.manager._taskNames i = (rapidPlugin.new "a" "")._pID ∧
      createdAgain.worker.stored = some (second.manager._taskHandles i) ∧
      second.manager._taskNames = runningDirectory._taskNames ∧
      second.manager.getNumTasks = runningDirectory.getNumTasks :=
  ⟨by decide, by decide, by decide, by decide, by decide, by decide, by decide,
    stop_run_reuses_slot 0 (rapidPlugin.new "a" "") emptyDirectory allCreated createdAgain
      { returned := 1, plugin := runningPlugin, manager := runningDirectory,
        effects := [Effect.xQueueCreate 11, Effect.xQueueCreate 12,
          Effect.xTaskCreate "a" (some 21), Effect.xTaskCreate "i_a" (some 22)] }
      (by decide) (by decide) (by decide) rfl rfl (by decide) (by decide) (by decide)⟩

/-- C15, the code at a failing input. The plugin `k` is in its initial state and not
registered, the queues 11 and 12 are created, and the worker spawn fails as FreeRTOS
reports it (result `errCOULD_NOT_ALLOCATE_REQUIRED_MEMORY`, nothing stored) while the
interface spawn succeeds: `run` returns 1, deletes no task and no queue, keeps the
interface handle and both queue handles, and registers the name `k` with the `NULL` the
worker handle still is. When the worker spawn succeeds and the interface spawn fails
in that way, `run` returns 1 as well, deletes nothing and registers the worker 21. -/
theorem run_failed_spawn_returns_one :
    spawnFailed.failed ∧
    (rapidPlugin.run 0 (rapidPlugin.new "k" "") emptyDirectory
        ⟨11, 12, spawnFailed, ⟨pdPASS, some 22⟩⟩).map
        (fun result => (result.returned, result.plugin, result.effects)) =
      Except.ok
        (1,
         { _pID := "k", _iID := "i_k", _taskHandle := 0, _interfaceHandle := 22,
           _taskQueue := 11, _taskResponse := 12 },
         [Effect.xQueueCreate 11, Effect.xQueueCreate 12, Effect.xTaskCreate "k" none,
          Effect.xTaskCreate "i_k" (some 22)]) ∧
    (rapidPlugin.run 0 (rapidPlugin.new "k" "") emptyDirectory
        ⟨11, 12, spawnFailed, ⟨pdPASS, some 22⟩⟩).map
        (fun result => (result.manager._taskNames 0, result.manager._taskHandles 0)) =
      Except.ok ("k", 0) ∧
    (rapidPlugin.run 0 (rapidPlugin.new "k" "") emptyDirectory
        ⟨11, 12, ⟨pdPASS, some 21⟩, spawnFailed⟩).map
        (fun result => (result.returned, result.plugin, result.effects)) =
      Except.ok
        (1,
         { _pID := "k", _iID := "i_k", _taskHandle := 21, _interfaceHandle := 0,
           _taskQueue := 11, _taskResponse := 12 },
         [Effect.xQueueCreate 11, Effect.xQueueCreate 12, Effect.xTaskCreate "k" (some 21),
          Effect.xTaskCreate "i_k" none]) ∧
    (rapidPlugin.run 0 (rapidPlugin.new "k" "") emptyDirectory
        ⟨11, 12, ⟨pdPASS, some 21⟩, spawnFailed⟩).map
        (fun result => (result.manager._taskNames 0, result.manager._taskHandles 0)) =
      Except.ok ("k", 21) := by
  decide

/-! ## The parser and the interface loop -/

/-- C1. For every non-empty name of at most 15 characters and every parameter text of
at most 47 characters, neither holding `(`, `)` or the terminator, `parse` of
`name ++ "(" ++ parameters ++ ")"` returns (whatever the local held before) a command
whose function field is the name and whose parameters field is the parameter text. -/
theorem parse_name_parameters (uninit : rapidFunction) (name parameters : List Char)
    (hsized : uninit.sized) (hne : name ≠ [])
    (hname : ∀ x ∈ name, x ≠ '(' ∧ x ≠ ')' ∧ x ≠ NUL) (hn15 : name.length ≤ 15)
    (hparameters : ∀ x ∈ parameters, x ≠ '(' ∧ x ≠ ')' ∧ x ≠ NUL)
    (hp47 : parameters.length ≤ 47) :
    ∃ r, rapidRTOS_manager.parse uninit (name ++ '(' :: parameters ++ [')']) = Except.ok r ∧
      cstr r.function = name ∧ cstr r.parameters = parameters := by
  match name, hne, hname, hn15 with
  | c :: cs, _, hname, hn15 =>
    have hst : storedParameters ('(' :: parameters) = parameters := by
      cases parameters with
      | nil => simp [storedParameters]
      | cons d t =>
        have := storedParameters_plain t.length t (le_refl _)
          (fun x hx => (hparameters x (by simp [hx])).1)
        simp [storedParameters, this]
    have h := parse_call uninit c cs parameters [] hsized hname hn15
      (fun x hx => ⟨(hparameters x hx).2.1, (hparameters x hx).2.2⟩) (by rw [hst]; exact hp47)
    rw [hst] at h
    exact h

/-- Two instances of C1: the texts `led(on)` and `identity()`. -/
theorem parse_name_parameters_witness :
    (∃ r, rapidRTOS_manager.parse staleFunction
        (['l', 'e', 'd'] ++ '(' :: ['o', 'n'] ++ [')']) = Except.ok r ∧
      cstr r.function = ['l', 'e', 'd'] ∧ cstr r.parameters = ['o', 'n']) ∧
    (∃ r, rapidRTOS_manager.parse staleFunction
        (['i', 'd', 'e', 'n', 't', 'i', 't', 'y'] ++ '(' :: [] ++ [')']) = Except.ok r ∧
      cstr r.function = ['i', 'd', 'e', 'n', 't', 'i', 't', 'y'] ∧ cstr r.parameters = []) :=
  ⟨parse_name_parameters staleFunction ['l', 'e', 'd'] ['o', 'n'] (by decide) (by decide)
      (by decide) (by decide) (by decide) (by decide),
    parse_name_parameters staleFunction ['i', 'd', 'e', 'n', 't', 'i', 't', 'y'] []
      (by decide) (by decide) (by decide) (by decide) (by decide) (by decide)⟩


/-- Text that ends in `)` splits at its first `)`. -/
theorem split_first_close : ∀ (p : List Char),
    ∃ pre rest, p ++ [')'] = pre ++ ')' :: rest ∧ (∀ x ∈ pre, x ≠ ')') ∧
      (∀ x ∈ pre, x ∈ p) ∧ pre.length ≤ p.length
  | [] => ⟨[], [], by simp, by simp, by simp, by simp⟩
  | c :: t => by
    by_cases hc : c = ')'
    · exact ⟨[], t ++ [')'], by simp [hc], by simp, by simp, by simp⟩
    · obtain ⟨pre, rest, h1, h2, h3, h4⟩ := split_first_close t
      refine ⟨c :: pre, rest, by simp [h1], ?_, ?_, by simp; omega⟩
      · intro x hx
        simp at hx
        rcases hx with rfl | hx
        · exact hc
        · exact h2 x hx
      · intro x hx
        simp at hx ⊢
        rcases hx with rfl | hx
        · exact Or.inl rfl
        · exact Or.inr (h3 x hx)

theorem storedParameters_open_length (pre : List Char) :
    (storedParameters ('(' :: pre)).length ≤ pre.length := by
  cases pre with
  | nil => simp [storedParameters]
  | cons d t =>
    have := storedParameters_length_le t.length t (le_refl _)
    simp [storedParameters]
    exact this

/-- C10, as stated, fails: with a parameter text of 48 characters `parse` writes the
terminator at `parameters[48]`, outside the array, and with a plugin name of 64
characters the `sprintf` of the name writes outside `messageBuffer`; in neither case
is a response determined. -/
theorem identity_pass_overflow :
    rapidPlugin.interface_loop rapidPlugin.interface staleFunction 0 runningPlugin
        runningDirectory ("identity(".toList ++ List.replicate 48 'p' ++ ")".toList) =
      Except.error (LoopError.parse ParseError.parametersOverflow) ∧
    rapidPlugin.interface_loop rapidPlugin.interface staleFunction 0
        { runningPlugin with _pID := String.mk (List.replicate 64 'n') }
        runningDirectory ("identity(".toList ++ [] ++ ")".toList) =
      Except.error LoopError.messageBufferOverflow := by
  constructor <;> rfl

/-- C10, amended. For every plugin name of at most 63 characters, every parameter text
`p` of at most 47 characters and every plugin-specific `interface`, one pass of the
interface loop on the received text `"identity(" ++ p ++ ")"` sends the plugin's name
as the response, and `interface` is not consulted: the pass consists of the receive and
of that send, and leaves the plugin and the directory as they were. -/
theorem identity_pass (interface : rapidFunction → List Char → Nat × List Char)
    (uninit : rapidFunction) (millis : Nat) (plugin : rapidPlugin) (m : rapidRTOS_manager)
    (p : List Char) (hsized : uninit.sized) (hp : ∀ x ∈ p, x ≠ NUL) (hp47 : p.length ≤ 47)
    (hn63 : plugin._pID.length ≤ 63) :
    rapidPlugin.interface_loop interface uninit millis plugin m
        ("identity(".toList ++ p ++ ")".toList) =
      Except.ok
        { plugin := plugin, manager := m,
          effects := [Effect.xQueueReceive plugin._taskQueue,
                      Effect.xQueueSend plugin._taskResponse plugin._pID.toList] } := by
  obtain ⟨pre, rest, hsplit, hpre1, hpre2, hprelen⟩ := split_first_close p
  have hst := storedParameters_open_length pre
  obtain ⟨r, hparse, hfun, _⟩ :=
    parse_call uninit 'i' ['d', 'e', 'n', 't', 'i', 't', 'y'] pre rest hsized (by decide)
      (by decide) (fun x hx => ⟨hpre1 x hx, hp x (hpre2 x hx)⟩) (by omega)
  have htext : "identity(".toList ++ p ++ ")".toList =
      'i' :: ['d', 'e', 'n', 't', 'i', 't', 'y'] ++ '(' :: pre ++ ')' :: rest := by
    have : "identity(".toList ++ p ++ ")".toList = "identity(".toList ++ (p ++ [')']) := by
      simp
    rw [this, hsplit]
    simp
  have hlen : plugin._pID.length < rapidRTOS_DEFAULT_INTERFACE_BUFFER := by
    show plugin._pID.length < 64
    omega
  rw [htext]
  simp only [rapidPlugin.interface_loop, hparse, hfun]
  simp [sprintfMessageBuffer, hlen, Except.bind]

/-- An instance of C10 as amended: the parameter text holds parentheses and the
`interface` override would have handled the command. -/
theorem identity_pass_witness :
    rapidPlugin.interface_loop (fun _ _ => (1, ['n', 'o'])) staleFunction 0 runningPlugin
        runningDirectory ("identity(".toList ++ ['o', 'n', '(', ')', 'x'] ++ ")".toList) =
      Except.ok
        { plugin := runningPlugin, manager := runningDirectory,
          effects := [Effect.xQueueReceive runningPlugin._taskQueue,
                      Effect.xQueueSend runningPlugin._taskResponse runningPlugin._pID.toList] } :=
  identity_pass (fun _ _ => (1, ['n', 'o'])) staleFunction 0 runningPlugin runningDirectory
    ['o', 'n', '(', ')', 'x'] (by decide) (by decide) (by decide) (by decide)

/-! ## The parser: sizes, the unknown command -/

theorem writeFunction_sized (r r1 : rapidFunction) (i : Nat) (c : Char)
    (h : writeFunction r i c = Except.ok r1) (hs : r.sized) : r1.sized := by
  unfold writeFunction at h
  split at h
  · cases h
    exact ⟨by simpa using hs.1, hs.2⟩
  · cases h

theorem writeParameters_sized (r r1 : rapidFunction) (i : Nat) (c : Char)
    (h : writeParameters r i c = Except.ok r1) (hs : r.sized) : r1.sized := by
  unfold writeParameters at h
  split at h
  · cases h
    exact ⟨hs.1, by simpa using hs.2⟩
  · cases h

theorem bind_eq_ok {ε α β : Type} (x : Except ε α) (f : α → Except ε β) (b : β)
    (h : x.bind f = Except.ok b) : ∃ a, x = Except.ok a ∧ f a = Except.ok b := by
  cases x with
  | error e => simp [Except.bind] at h
  | ok a => exact ⟨a, rfl, by simpa [Except.bind] using h⟩

theorem parseBody_sized (s s1 : ParseState) (h : parseBody s = Except.ok s1)
    (hs : s.returnMessage.sized) : s1.returnMessage.sized := by
  unfold parseBody at h
  by_cases hfc : (!s.functionComplete) = true
  · rw [if_pos hfc] at h
    obtain ⟨r1, hw1, h⟩ := bind_eq_ok _ _ _ h
    obtain ⟨m1, _, h⟩ := bind_eq_ok _ _ _ h
    have hr1 := writeFunction_sized _ _ _ _ hw1 hs
    dsimp only at h
    by_cases hp : peek m1 = '('
    · rw [if_pos hp] at h
      obtain ⟨r2, hw2, h⟩ := bind_eq_ok _ _ _ h
      cases h
      exact writeFunction_sized _ _ _ _ hw2 hr1
    · rw [if_neg hp] at h
      cases h
      exact hr1
  · rw [if_neg hfc] at h
    obtain ⟨m1, _, h⟩ := bind_eq_ok _ _ _ h
    obtain ⟨⟨r1, pi1, m2⟩, hmid, h⟩ := bind_eq_ok _ _ _ h
    have hr1 : r1.sized := by
      by_cases hp : peek m1 ≠ ')'
      · rw [if_pos hp] at hmid
        obtain ⟨r0, hw, hmid⟩ := bind_eq_ok _ _ _ hmid
        obtain ⟨m3, _, hmid⟩ := bind_eq_ok _ _ _ hmid
        cases hmid
        exact writeParameters_sized _ _ _ _ hw hs
      · rw [if_neg hp] at hmid
        cases hmid
        exact hs
    dsimp only at h
    by_cases hp : peek m2 = ')'
    · rw [if_pos hp] at h
      obtain ⟨r2, hw2, h⟩ := bind_eq_ok _ _ _ h
      obtain ⟨m3, _, h⟩ := bind_eq_ok _ _ _ h
      cases h
      exact writeParameters_sized _ _ _ _ hw2 hr1
    · rw [if_neg hp] at h
      cases h
      exact hr1

theorem parseLoop_sized : ∀ (fuel : Nat) (s s1 : ParseState),
    parseLoop fuel s = Except.ok s1 → s.returnMessage.sized → s1.returnMessage.sized
  | 0, _, _, h, _ => by simp [parseLoop] at h
  | fuel + 1, s, s1, h, hs => by
    unfold parseLoop at h
    split at h
    · obtain ⟨s2, hb, h⟩ := bind_eq_ok _ _ _ h
      exact parseLoop_sized fuel s2 s1 h (parseBody_sized s s2 hb hs)
    · cases h
      exact hs

/-- The struct `parse` returns has the array sizes of the struct it started from. -/
theorem parse_sized (uninit r : rapidFunction) (message : List Char)
    (h : rapidRTOS_manager.parse uninit message = Except.ok r) (hs : uninit.sized) :
    r.sized := by
  unfold rapidRTOS_manager.parse at h
  obtain ⟨s, hl, h⟩ := bind_eq_ok _ _ _ h
  obtain ⟨r1, hw1, h⟩ := bind_eq_ok _ _ _ h
  have h1 := parseLoop_sized _ _ _ hl hs
  exact writeParameters_sized _ _ _ _ h (writeFunction_sized _ _ _ _ hw1 h1)

theorem cstr_length_le (buffer : List Char) : (cstr buffer).length ≤ buffer.length := by
  unfold cstr
  exact (List.takeWhile_sublist _).length_le

/-- C11, as stated, fails: it speaks of every received command, and there are commands
with an unknown name for which `parse` leaves its bounds, so that no response is
determined. On `bogus(` the read pointer moves beyond the terminator; on `bogus(`
followed by 48 characters and `)` the terminator is written at `parameters[48]`; on
a name of 16 characters the terminator is written at `function[16]`. -/
theorem unknown_function_undetermined :
    rapidPlugin.interface_loop rapidPlugin.interface staleFunction 7 pluginB
        { runningDirectory with _debugLevel := 1 } "bogus(".toList =
      Except.error (LoopError.parse ParseError.readPastTerminator) ∧
    rapidPlugin.interface_loop rapidPlugin.interface staleFunction 7 pluginB
        { runningDirectory with _debugLevel := 1 }
        ("bogus(".toList ++ List.replicate 48 'p' ++ ")".toList) =
      Except.error (LoopError.parse ParseError.parametersOverflow) ∧
    rapidPlugin.interface_loop rapidPlugin.interface staleFunction 7 pluginB
        { runningDirectory with _debugLevel := 1 } "abcdefghijklmnop()".toList =
      Except.error (LoopError.parse ParseError.functionOverflow) := by
  refine ⟨?_, ?_, ?_⟩ <;> rfl

/-- C11, amended. Take a received command for which `parse` returns a command (its writes
stay inside `function[16]` and `parameters[48]`, its reads stop at the terminator), whose
function name `f` is neither `identity` nor `stop`, and a plugin-specific `interface`
that returns 0 for it. One pass of the interface loop consults `interface`, sends the
response `"unknown_function(" ++ f ++ ")"` and, when the debug level is at least 1,
prints one line: the tag `[ERROR]`, the time stamp and the text that names the plugin
and `f`; when the debug level is 0 it prints nothing. The plugin and the directory stay
as they were. `parse` returns such a command, with the function name `name`, for every
text `name ++ "(" ++ p ++ ")"` in which the name has 1 to 15 characters, none of them a
parenthesis, and `p` has at most 47 characters. -/
theorem unknown_function_pass (interface : rapidFunction → List Char → Nat × List Char)
    (uninit : rapidFunction) (millis : Nat) (plugin : rapidPlugin)
    (m : rapidRTOS_manager) (hsized : uninit.sized) :
    (∀ incomingMessage incoming,
      rapidRTOS_manager.parse uninit incomingMessage = Except.ok incoming →
      cstr incoming.function ≠ "identity".toList → cstr incoming.function ≠ "stop".toList →
      (interface incoming []).1 = 0 →
      rapidPlugin.interface_loop interface uninit millis plugin m incomingMessage =
        Except.ok
          { plugin := plugin, manager := m,
            effects :=
              [Effect.xQueueReceive plugin._taskQueue, Effect.interface incoming] ++
              (if m._debugLevel ≥ 1 then
                [Effect.print "[ERROR]", Effect.print (" (" ++ printfSigned millis ++ ") "),
                 Effect.print (plugin._pID ++ ": unknown_function(" ++
                   String.mk (cstr incoming.function) ++ ")\n")]
               else []) ++
              [Effect.xQueueSend plugin._taskResponse
                ("unknown_function(".toList ++ cstr incoming.function ++ ")".toList)] }) ∧
    (∀ name p : List Char, name ≠ [] → name.length ≤ 15 → p.length ≤ 47 →
      (∀ x ∈ name, x ≠ '(' ∧ x ≠ ')' ∧ x ≠ NUL) → (∀ x ∈ p, x ≠ NUL) →
      ∃ incoming, rapidRTOS_manager.parse uninit (name ++ "(".toList ++ p ++ ")".toList) =
          Except.ok incoming ∧ cstr incoming.function = name) := by
  constructor
  · intro incomingMessage incoming hparse hidentity hstop hunhandled
    have hlen : (cstr incoming.function).length ≤ 16 := by
      have := (parse_sized uninit incoming incomingMessage hparse hsized).1
      have h2 := cstr_length_le incoming.function
      omega
    have hfits : ("unknown_function(".toList ++ cstr incoming.function ++ ")".toList).length <
        rapidRTOS_DEFAULT_INTERFACE_BUFFER := by
      simp only [List.length_append]
      show 17 + (cstr incoming.function).length + 1 < 64
      omega
    simp only [rapidPlugin.interface_loop, hparse, hidentity, hstop, hunhandled, if_false,
      ne_eq, not_true_eq_false, sprintfMessageBuffer, hfits, if_true, Except.bind,
      rapidRTOS_manager.printDebug]
    by_cases hd : m._debugLevel ≥ 1 <;> simp [hd]
  · intro name p hne hn15 hp47 hname hp
    cases name with
    | nil => exact absurd rfl hne
    | cons c cs =>
      obtain ⟨pre, rest, hsplit, hpre1, hpre2, hprelen⟩ := split_first_close p
      have hst := storedParameters_open_length pre
      obtain ⟨r, hparse, hfun, _⟩ :=
        parse_call uninit c cs pre rest hsized hname hn15
          (fun x hx => ⟨hpre1 x hx, hp x (hpre2 x hx)⟩) (by omega)
      have htext : (c :: cs) ++ "(".toList ++ p ++ ")".toList =
          c :: cs ++ '(' :: pre ++ ')' :: rest := by
        have : (c :: cs) ++ "(".toList ++ p ++ ")".toList = (c :: cs) ++ '(' :: (p ++ [')']) := by
          simp
        rw [this, hsplit]
        simp
      rw [htext]
      exact ⟨r, hparse, hfun⟩

/-- An instance of C11 as amended, the scenario of the plugin `B` and the command
`bogus()`: at the debug level 1, at the debug level 0, and at the debug level 1 with a
clock reading of `2 ^ 32 - 1`, which is printed as `-1`. -/
theorem unknown_function_pass_witness :
    staleFunction.sized ∧
    rapidPlugin.interface_loop rapidPlugin.interface staleFunction 7 pluginB
        { runningDirectory with _debugLevel := 1 } "bogus()".toList =
      Except.ok
        { plugin := pluginB, manager := { runningDirectory with _debugLevel := 1 },
          effects :=
            [Effect.xQueueReceive 11,
             Effect.interface
               { function := "bogus".toList ++ [NUL] ++ List.replicate 10 'x',
                 parameters := [NUL] ++ List.replicate 47 'y' },
             Effect.print "[ERROR]", Effect.print " (7) ",
             Effect.print "B: unknown_function(bogus)\n",
             Effect.xQueueSend 12 "unknown_function(bogus)".toList] } ∧
    rapidPlugin.interface_loop rapidPlugin.interface staleFunction 7 pluginB
        runningDirectory "bogus()".toList =
      Except.ok
        { plugin := pluginB, manager := runningDirectory,
          effects :=
            [Effect.xQueueReceive 11,
             Effect.interface
               { function := "bogus".toList ++ [NUL] ++ List.replicate 10 'x',
                 parameters := [NUL] ++ List.replicate 47 'y' },
             Effect.xQueueSend 12 "unknown_function(bogus)".toList] } ∧
    rapidPlugin.interface_loop rapidPlugin.interface staleFunction 4294967295 pluginB
        { runningDirectory with _debugLevel := 1 } "bogus()".toList =
      Except.ok
        { plugin := pluginB, manager := { runningDirectory with _debugLevel := 1 },
          effects :=
            [Effect.xQueueReceive 11,
             Effect.interface
               { function := "bogus".toList ++ [NUL] ++ List.replicate 10 'x',
                 parameters := [NUL] ++ List.replicate 47 'y' },
             Effect.print "[ERROR]", Effect.print " (-1) ",
             Effect.print "B: unknown_function(bogus)\n",
             Effect.xQueueSend 12 "unknown_function(bogus)".toList] } ∧
    ∃ incoming, rapidRTOS_manager.parse staleFunction
        ("bogus".toList ++ "(".toList ++ [] ++ ")".toList) = Except.ok incoming ∧
      cstr incoming.function = "bogus".toList :=
  ⟨by decide,
   (unknown_function_pass rapidPlugin.interface staleFunction 7 pluginB
      { runningDirectory with _debugLevel := 1 } (by decide)).1 "bogus()".toList
      { function := "bogus".toList ++ [NUL] ++ List.replicate 10 'x',
        parameters := [NUL] ++ List.replicate 47 'y' }
      (by decide) (by decide) (by decide) rfl,
   (unknown_function_pass rapidPlugin.interface staleFunction 7 pluginB
      runningDirectory (by decide)).1 "bogus()".toList
      { function := "bogus".toList ++ [NUL] ++ List.replicate 10 'x',
        parameters := [NUL] ++ List.replicate 47 'y' }
      (by decide) (by decide) (by decide) rfl,
   (unknown_function_pass rapidPlugin.interface staleFunction 4294967295 pluginB
      { runningDirectory with _debugLevel := 1 } (by decide)).1 "bogus()".toList
      { function := "bogus".toList ++ [NUL] ++ List.replicate 10 'x',
        parameters := [NUL] ++ List.replicate 47 'y' }
      (by decide) (by decide) (by decide) rfl,
   (unknown_function_pass rapidPlugin.interface staleFunction 7 pluginB
      runningDirectory (by decide)).2 "bogus".toList [] (by decide) (by decide) (by decide)
      (by decide) (by decide)⟩

/-! ## Dispatch, deregistration and registration -/

/-- C12, as stated, fails for the empty name: it equals the name of every free slot.
After the entry `a` has been deregistered, slot 0 is free with `NULL` references, and
`cmd` of the empty name dereferences the `NULL` command reference of slot 0; when a
free slot holds references (here after a `reg` of the empty name), `cmd` of the empty
name dereferences both, sends on the one queue and receives from the other. -/
theorem cmd_empty_name_dereferences :
    (¬ (runningDirectory.dereg "a").2.active "") ∧
    rapidRTOS_manager.cmd (runningDirectory.dereg "a").2 (fun _ => runningPlugin) (fun _ => 0)
        "" ['x'] none = Except.error CmdError.nullDereference ∧
    (¬ (emptyDirectory.reg 21 "" (QueueRef.taskQueue 0) (QueueRef.taskResponse 0)).2.active "") ∧
    rapidRTOS_manager.cmd
        (emptyDirectory.reg 21 "" (QueueRef.taskQueue 0) (QueueRef.taskResponse 0)).2
        (fun _ => runningPlugin) (fun _ => 0) "" ['x'] none =
      Except.ok
        { response := []
          dereferenced := [QueueRef.taskQueue 0, QueueRef.taskResponse 0]
          effects := [Effect.xQueueSend 11 ['x'], Effect.xQueueReceive 12] } := by
  decide

/-- C12, amended. For every directory state, every command text and every name that
no slot holds (a non-empty name that no active entry carries, or the empty name when
no slot is free), `cmd` returns the empty response at once: it sends on no queue,
receives from none and dereferences no queue reference. -/
theorem cmd_unknown_name (m : rapidRTOS_manager) (plugins : Nat → rapidPlugin)
    (memory : Nat → QueueHandle_t) (taskName : String) (command : List Char)
    (received : Option (List Char)) (hnone : ∀ i, m._taskNames i ≠ taskName) :
    m.cmd plugins memory taskName command received =
      Except.ok { response := [], dereferenced := [], effects := [] } := by
  have hfs : firstSlot (fun i => decide (m._taskNames i = taskName)) = none :=
    (firstSlot_eq_none _).2 (fun k => by simpa using hnone k)
  simp [rapidRTOS_manager.cmd, hfs]

/-- An instance of C12 as amended: the scenario of the name `C`, never registered, and
the empty name on the full directory. -/
theorem cmd_unknown_name_witness :
    rapidRTOS_manager.cmd runningDirectory (fun _ => runningPlugin) (fun _ => 0) "C"
        "identity()".toList (some ['C']) =
      Except.ok { response := [], dereferenced := [], effects := [] } ∧
    rapidRTOS_manager.cmd fullDirectory (fun _ => runningPlugin) (fun _ => 0) ""
        "identity()".toList (some ['C']) =
      Except.ok { response := [], dereferenced := [], effects := [] } :=
  ⟨cmd_unknown_name runningDirectory _ _ "C" _ _ (by decide),
   cmd_unknown_name fullDirectory _ _ "" _ _ (by decide)⟩

/-- C13. For every directory and every non-empty name: when some slot holds the name,
`dereg` returns 1, resets the lowest such slot (name `""`, handle `NULL`, both queue
references `NULL`) and leaves every other slot and the debug level as they were; when
no slot holds the name, `dereg` returns 0 and leaves the directory as it was. -/
theorem dereg_frame (m : rapidRTOS_manager) (taskName : String) (_hname : taskName ≠ "") :
    ((∃ i, m._taskNames i = taskName) →
      ∃ i, m._taskNames i = taskName ∧ (∀ k, k < i → m._taskNames k ≠ taskName) ∧
        (m.dereg taskName).1 = 1 ∧
        (m.dereg taskName).2._taskNames i = "" ∧ (m.dereg taskName).2._taskHandles i = 0 ∧
        (m.dereg taskName).2._taskQueues i = QueueRef.null ∧
        (m.dereg taskName).2._responseQueues i = QueueRef.null ∧
        (m.dereg taskName).2._debugLevel = m._debugLevel ∧
        ∀ j, j ≠ i →
          (m.dereg taskName).2._taskNames j = m._taskNames j ∧
          (m.dereg taskName).2._taskHandles j = m._taskHandles j ∧
          (m.dereg taskName).2._taskQueues j = m._taskQueues j ∧
          (m.dereg taskName).2._responseQueues j = m._responseQueues j) ∧
    ((∀ i, m._taskNames i ≠ taskName) → m.dereg taskName = (0, m)) := by
  rcases dereg_cases m taskName with ⟨hnone, h⟩ | ⟨i, hi, hlow, h⟩
  · exact ⟨fun ⟨i, hi⟩ => absurd hi (hnone i), fun _ => h⟩
  · refine ⟨fun _ => ⟨i, hi, hlow, ?_⟩, fun hnone => absurd hi (hnone i)⟩
    rw [h]
    refine ⟨rfl, by simp, by simp, by simp, by simp, rfl, fun j hj => ?_⟩
    simp [Function.update_apply, hj]

/-- An instance of C13: the name `t3` in the full directory, and a name no slot holds. -/
theorem dereg_frame_witness :
    ((∃ i, fullDirectory._taskNames i = "t3") →
      ∃ i, fullDirectory._taskNames i = "t3" ∧
        (∀ k, k < i → fullDirectory._taskNames k ≠ "t3") ∧
        (fullDirectory.dereg "t3").1 = 1 ∧
        (fullDirectory.dereg "t3").2._taskNames i = "" ∧
        (fullDirectory.dereg "t3").2._taskHandles i = 0 ∧
        (fullDirectory.dereg "t3").2._taskQueues i = QueueRef.null ∧
        (fullDirectory.dereg "t3").2._responseQueues i = QueueRef.null ∧
        (fullDirectory.dereg "t3").2._debugLevel = fullDirectory._debugLevel ∧
        ∀ j, j ≠ i →
          (fullDirectory.dereg "t3").2._taskNames j = fullDirectory._taskNames j ∧
          (fullDirectory.dereg "t3").2._taskHandles j = fullDirectory._taskHandles j ∧
          (fullDirectory.dereg "t3").2._taskQueues j = fullDirectory._taskQueues j ∧
          (fullDirectory.dereg "t3").2._responseQueues j = fullDirectory._responseQueues j) ∧
    ((∀ i, fullDirectory._taskNames i ≠ "t3") →
      fullDirectory.dereg "t3" = (0, fullDirectory)) :=
  dereg_frame fullDirectory "t3" (by decide)

/-- The lookup of a name sees only the slots that hold it: two directories that hold
the name in the same slots, with the same handles there, give the same result. -/
theorem getTaskHandle_congr (m1 m2 : rapidRTOS_manager) (taskName : String)
    (hnames : ∀ j, m1._taskNames j = taskName ↔ m2._taskNames j = taskName)
    (hhandles : ∀ j, m1._taskNames j = taskName → m1._taskHandles j = m2._taskHandles j) :
    m1.getTaskHandle taskName = m2.getTaskHandle taskName := by
  have hcond : (fun i => decide (m1._taskNames i = taskName)) =
      (fun i => decide (m2._taskNames i = taskName)) := by
    funext j
    simp [hnames j]
  rcases getTaskHandle_cases m1 taskName with ⟨hnone, h⟩ | ⟨i, hi, _, h⟩
  · have hfs : firstSlot (fun i => decide (m2._taskNames i = taskName)) = none :=
      (firstSlot_eq_none _).2 (fun k => by simpa [← hnames k] using hnone k)
    rw [h]
    simp [rapidRTOS_manager.getTaskHandle, hfs]
  · unfold rapidRTOS_manager.getTaskHandle
    rw [hcond]
    cases hfs : firstSlot (fun i => decide (m2._taskNames i = taskName)) with
    | none =>
      have := (firstSlot_eq_none _).1 hfs i
      simp [← hnames i, hi] at this
    | some j =>
      have hj := ((firstSlot_eq_some _ j).1 hfs).1
      simp only [decide_eq_true_eq] at hj
      exact hhandles j ((hnames j).2 hj)

/-- C14. For every directory with a free slot, every non-empty name that is not
active and every handle, `reg` stores the entry in the lowest free slot and returns
1; afterwards the lookup of the name yields the handle, and the lookup of every other
non-empty name yields what it yielded before. -/
theorem reg_lowest_free_lookup (m : rapidRTOS_manager) (taskHandle : TaskHandle_t)
    (taskName : String) (command response : QueueRef) (hfree : ∃ i, m._taskNames i = "")
    (_hname : taskName ≠ "") (hna : ¬ m.active taskName) :
    (∃ i, m._taskNames i = "" ∧ (∀ k, k < i → m._taskNames k ≠ "") ∧
      (m.reg taskHandle taskName command response).1 = 1 ∧
      (m.reg taskHandle taskName command response).2._taskNames i = taskName ∧
      (m.reg taskHandle taskName command response).2._taskHandles i = taskHandle ∧
      (m.reg taskHandle taskName command response).2._taskQueues i = command ∧
      (m.reg taskHandle taskName command response).2._responseQueues i = response) ∧
    (m.reg taskHandle taskName command response).2.getTaskHandle taskName = taskHandle ∧
    ∀ other, other ≠ "" → other ≠ taskName →
      (m.reg taskHandle taskName command response).2.getTaskHandle other =
        m.getTaskHandle other := by
  refine ⟨?_, getTaskHandle_reg m taskHandle taskName command response hna hfree, ?_⟩
  · rcases reg_cases m taskHandle taskName command response with ⟨hfull, _⟩ | ⟨i, hi0, hlow, h⟩
    · obtain ⟨i, hi⟩ := hfree
      exact absurd hi (hfull i)
    · refine ⟨i, hi0, hlow, ?_⟩
      rw [h]
      simp
  · intro other ho hne
    rcases reg_cases m taskHandle taskName command response with ⟨hfull, _⟩ | ⟨i, hi0, _, h⟩
    · obtain ⟨i, hi⟩ := hfree
      exact absurd hi (hfull i)
    · rw [h]
      apply getTaskHandle_congr
      · intro j
        by_cases hj : j = i
        · subst hj
          simp only [Function.update_same]
          constructor
          · intro h1; exact absurd h1.symm hne
          · intro h1; rw [hi0] at h1; exact absurd h1.symm ho
        · simp [Function.update_apply, hj]
      · intro j hj
        by_cases hji : j = i
        · subst hji
          simp only [Function.update_same] at hj
          exact absurd hj.symm hne
        · simp [Function.update_apply, hji]

/-- An instance of C14: the name `b` registered next to the running plugin `a`. -/
theorem reg_lowest_free_lookup_witness :
    (∃ i, runningDirectory._taskNames i = "" ∧
      (∀ k, k < i → runningDirectory._taskNames k ≠ "") ∧
      (runningDirectory.reg 31 "b" (QueueRef.taskQueue 1) (QueueRef.taskResponse 1)).1 = 1 ∧
      (runningDirectory.reg 31 "b" (QueueRef.taskQueue 1)
        (QueueRef.taskResponse 1)).2._taskNames i = "b" ∧
      (runningDirectory.reg 31 "b" (QueueRef.taskQueue 1)
        (QueueRef.taskResponse 1)).2._taskHandles i = 31 ∧
      (runningDirectory.reg 31 "b" (QueueRef.taskQueue 1)
        (QueueRef.taskResponse 1)).2._taskQueues i = QueueRef.taskQueue 1 ∧
      (runningDirectory.reg 31 "b" (QueueRef.taskQueue 1)
        (QueueRef.taskResponse 1)).2._responseQueues i = QueueRef.taskResponse 1) ∧
    (runningDirectory.reg 31 "b" (QueueRef.taskQueue 1)
      (QueueRef.taskResponse 1)).2.getTaskHandle "b" = 31 ∧
    ∀ other, other ≠ "" → other ≠ "b" →
      (runningDirectory.reg 31 "b" (QueueRef.taskQueue 1)
        (QueueRef.taskResponse 1)).2.getTaskHandle other =
        runningDirectory.getTaskHandle other :=
  reg_lowest_free_lookup runningDirectory 31 "b" (QueueRef.taskQueue 1)
    (QueueRef.taskResponse 1) (by decide) (by decide) (by decide)

/-- C16, the code against its doc comment. Whatever the directory and the entry, `reg`
returns 1 when it stores the entry in a free slot and 0 when no slot is free: the
values are the other way round from `1 = no space | 0 = pass`. -/
theorem reg_returned_value (m : rapidRTOS_manager) (taskHandle : TaskHandle_t)
    (taskName : String) (command response : QueueRef) :
    (m.reg taskHandle taskName command response).1 =
      if ∃ i, m._taskNames i = "" then 1 else 0 := by
  rcases reg_cases m taskHandle taskName command response with ⟨hfull, h⟩ | ⟨i, hi0, _, h⟩
  · rw [h]
    have : ¬ ∃ i, m._taskNames i = "" := fun ⟨i, hi⟩ => hfull i hi
    simp [this]
  · rw [h]
    have : ∃ i, m._taskNames i = "" := ⟨i, hi0⟩
    simp [this]

/-! ## The parser: the text behind the first `)` -/

theorem parse_eq_terminate (uninit : rapidFunction) (message : List Char) :
    rapidRTOS_manager.parse uninit message =
      ((parseLoop (message.length + 1)
        ⟨uninit, 0, 0, false, false, message⟩).map ParseState.written).bind terminate := by
  unfold rapidRTOS_manager.parse
  cases parseLoop (message.length + 1) ⟨uninit, 0, 0, false, false, message⟩ with
  | error e => rfl
  | ok s => rfl

/-- One pass of the loop on text that holds a `)`, the read pointer not at that `)` while
the function branch is active: the pass fails, or completes the message, or goes on
with less text before the `)`; which it does, and with what values, does not depend on
the text `t` behind the `)`. -/
theorem parseBody_before_close (r : rapidFunction) (fi pi : Nat) (fc : Bool)
    (pre : List Char) (hpre : ∀ x ∈ pre, x ≠ ')') (hfc : fc = false → pre ≠ []) :
    (∃ e, ∀ t, parseBody ⟨r, fi, pi, fc, false, pre ++ ')' :: t⟩ = Except.error e) ∨
    (∃ r1 fi1 pi1 fc1, ∀ t, ∃ rest,
      parseBody ⟨r, fi, pi, fc, false, pre ++ ')' :: t⟩ =
        Except.ok ⟨r1, fi1, pi1, fc1, true, rest⟩) ∨
    (∃ r1 fi1 pi1 fc1 pre1, pre1.length < pre.length ∧ (∀ x ∈ pre1, x ≠ ')') ∧
      (fc1 = false → pre1 ≠ []) ∧
      ∀ t, parseBody ⟨r, fi, pi, fc, false, pre ++ ')' :: t⟩ =
        Except.ok ⟨r1, fi1, pi1, fc1, false, pre1 ++ ')' :: t⟩) := by
  have hN : ¬ (')' = NUL) := by decide
  have hO : ¬ ('(' = NUL) := by decide
  have hN2 : ¬ (NUL = ')') := by decide
  cases fc with
  | false =>
    match pre, hpre, hfc with
    | [], _, hfc => exact absurd rfl (hfc rfl)
    | c :: pre1, hpre, _ =>
      by_cases hfi : fi < 16
      · by_cases hc : c = NUL
        · left
          exact ⟨ParseError.readPastTerminator, fun t => by
            simp [parseBody, writeFunction, advance, Except.bind, hfi, hc]⟩
        · match pre1, hpre with
          | [], _ =>
            right; left
            exact ⟨{ r with function := r.function.set fi c }, fi + 1, pi, false, fun t =>
              ⟨')' :: t, by
                simp [parseBody, writeFunction, advance, peek, Except.bind, hfi, hc]⟩⟩
          | d :: pre2, hpre =>
            have hd : d ≠ ')' := hpre d (by simp)
            by_cases hdo : d = '('
            · by_cases hfi1 : fi + 1 < 16
              · right; right
                exact ⟨{ r with function := (r.function.set fi c).set (fi + 1) NUL }, fi + 1,
                  pi, true, d :: pre2, by simp, fun x hx => hpre x (by simp at hx ⊢; tauto),
                  by simp, fun t => by
                    simp [parseBody, writeFunction, advance, peek, Except.bind, hfi, hfi1, hc,
                      hdo]⟩
              · left
                exact ⟨ParseError.functionOverflow, fun t => by
                  simp [parseBody, writeFunction, advance, peek, Except.bind, hfi, hfi1, hc,
                    hdo]⟩
            · right; right
              exact ⟨{ r with function := r.function.set fi c }, fi + 1, pi, false, d :: pre2,
                by simp, fun x hx => hpre x (by simp at hx ⊢; tauto), by simp, fun t => by
                  simp [parseBody, writeFunction, advance, peek, Except.bind, hfi, hc, hd,
                    hdo]⟩
      · left
        exact ⟨ParseError.functionOverflow, fun t => by
          simp [parseBody, writeFunction, Except.bind, hfi]⟩
  | true =>
    -- the pass after a possible step over `(`: text `q` before the `)`
    have key : ∀ (q : List Char), (∀ x ∈ q, x ≠ ')') → q.length ≤ pre.length →
        (∀ t, parseBody ⟨r, fi, pi, true, false, pre ++ ')' :: t⟩ =
          (if peek (q ++ ')' :: t) ≠ ')' then
              (writeParameters r pi (peek (q ++ ')' :: t))).bind fun r1 =>
              (advance (q ++ ')' :: t)).bind fun message2 =>
              Except.ok (r1, pi + 1, message2)
            else Except.ok (r, pi, q ++ ')' :: t)).bind
            fun (r1, parameterIndex1, message2) =>
          if peek message2 = ')' then
            (writeParameters r1 parameterIndex1 NUL).bind fun r2 =>
            (advance message2).bind fun message3 =>
            Except.ok ⟨r2, fi, parameterIndex1, true, true, message3⟩
          else Except.ok ⟨r1, fi, parameterIndex1, true, false, message2⟩) →
        (∃ e, ∀ t, parseBody ⟨r, fi, pi, true, false, pre ++ ')' :: t⟩ = Except.error e) ∨
        (∃ r1 fi1 pi1 fc1, ∀ t, ∃ rest,
          parseBody ⟨r, fi, pi, true, false, pre ++ ')' :: t⟩ =
            Except.ok ⟨r1, fi1, pi1, fc1, true, rest⟩) ∨
        (∃ r1 fi1 pi1 fc1 pre1, pre1.length < pre.length ∧ (∀ x ∈ pre1, x ≠ ')') ∧
          (fc1 = false → pre1 ≠ []) ∧
          ∀ t, parseBody ⟨r, fi, pi, true, false, pre ++ ')' :: t⟩ =
            Except.ok ⟨r1, fi1, pi1, fc1, false, pre1 ++ ')' :: t⟩) := by
      intro q hq hqlen hbody
      match q, hq, hqlen, hbody with
      | [], _, _, hbody =>
        by_cases hpi : pi < 48
        · right; left
          exact ⟨{ r with parameters := r.parameters.set pi NUL }, fi, pi, true, fun t =>
            ⟨t, by rw [hbody t]; simp [peek, writeParameters, advance, Except.bind, hpi, hN]⟩⟩
        · left
          exact ⟨ParseError.parametersOverflow, fun t => by
            rw [hbody t]; simp [peek, writeParameters, Except.bind, hpi]⟩
      | d :: q1, hq, hqlen, hbody =>
        have hd : d ≠ ')' := hq d (by simp)
        by_cases hpi : pi < 48
        · by_cases hdN : d = NUL
          · left
            exact ⟨ParseError.readPastTerminator, fun t => by
              rw [hbody t]
              simp [peek, writeParameters, advance, Except.bind, hpi, hdN, hN2]⟩
          · match q1, hq, hqlen, hbody with
            | [], _, _, hbody =>
              by_cases hpi1 : pi + 1 < 48
              · right; left
                exact ⟨{ r with parameters := (r.parameters.set pi d).set (pi + 1) NUL }, fi,
                  pi + 1, true, fun t => ⟨t, by
                    rw [hbody t]
                    simp [peek, writeParameters, advance, Except.bind, hpi, hpi1, hd, hdN, hN]⟩⟩
              · left
                exact ⟨ParseError.parametersOverflow, fun t => by
                  rw [hbody t]
                  simp [peek, writeParameters, advance, Except.bind, hpi, hpi1, hd, hdN]⟩
            | e :: q2, hq, hqlen, hbody =>
              have he : e ≠ ')' := hq e (by simp)
              right; right
              exact ⟨{ r with parameters := r.parameters.set pi d }, fi, pi + 1, true, e :: q2,
                by simp at hqlen ⊢; omega, fun x hx => hq x (by simp at hx ⊢; tauto),
                by simp, fun t => by
                  rw [hbody t]
                  simp [peek, writeParameters, advance, Except.bind, hpi, hd, hdN, he]⟩
        · left
          exact ⟨ParseError.parametersOverflow, fun t => by
            rw [hbody t]
            simp [peek, writeParameters, Except.bind, hpi, hd]⟩
    match pre, hpre, key with
    | [], hpre, key =>
      exact key [] hpre (le_refl _) (fun t => by simp [parseBody, peek, Except.bind])
    | c :: pre1, hpre, key =>
      by_cases hco : c = '('
      · subst hco
        exact key pre1 (fun x hx => hpre x (by simp [hx])) (by simp) (fun t => by
          simp [parseBody, peek, advance, Except.bind, hO])
      · exact key (c :: pre1) hpre (le_refl _) (fun t => by
          simp [parseBody, peek, Except.bind, hco])

/-- The loop on text that holds a `)`: what it leaves in the struct and in the two
indices, or the error it ends in, does not depend on the text `t` behind the `)`. -/
theorem parseLoop_before_close : ∀ (n : Nat) (pre : List Char) (r : rapidFunction)
    (fi pi : Nat) (fc : Bool), pre.length = n → (∀ x ∈ pre, x ≠ ')') →
    (fc = false → pre ≠ []) →
    ∃ res : Except ParseError (rapidFunction × Nat × Nat), ∀ (t : List Char) (fuel : Nat),
      pre.length + 1 < fuel →
      (parseLoop fuel ⟨r, fi, pi, fc, false, pre ++ ')' :: t⟩).map ParseState.written = res := by
  intro n
  induction n using Nat.strong_induction_on with
  | _ n ih =>
    intro pre r fi pi fc hn hpre hfc
    have hN : ¬ (')' = NUL) := by decide
    by_cases hstop : peek (pre ++ [')']) = NUL
    · -- the read pointer is at a terminator inside the text: the loop is over
      refine ⟨Except.ok (r, fi, pi), fun t fuel hfuel => ?_⟩
      obtain ⟨f, rfl⟩ : ∃ f, fuel = f + 1 := ⟨fuel - 1, by omega⟩
      have hpeek : peek (pre ++ ')' :: t) = NUL := by
        cases pre with
        | nil => simp [peek, hN] at hstop
        | cons c p => simpa [peek] using hstop
      simp [parseLoop, hpeek, Except.map, ParseState.written]
    · have hpeek : ∀ t, peek (pre ++ ')' :: t) ≠ NUL := by
        intro t
        cases pre with
        | nil => simpa [peek] using hN
        | cons c p => simpa [peek] using hstop
      rcases parseBody_before_close r fi pi fc pre hpre hfc with
        ⟨e, he⟩ | ⟨r1, fi1, pi1, fc1, hdone⟩ | ⟨r1, fi1, pi1, fc1, pre1, hlt, hpre1, hfc1, hgo⟩
      · refine ⟨Except.error e, fun t fuel hfuel => ?_⟩
        obtain ⟨f, rfl⟩ : ∃ f, fuel = f + 1 := ⟨fuel - 1, by omega⟩
        simp [parseLoop, hpeek t, he t, Except.bind, Except.map]
      · refine ⟨Except.ok (r1, fi1, pi1), fun t fuel hfuel => ?_⟩
        obtain ⟨f, rfl⟩ : ∃ f, fuel = f + 1 + 1 := ⟨fuel - 2, by omega⟩
        obtain ⟨rest, hb⟩ := hdone t
        simp [parseLoop, hpeek t, hb, Except.bind, Except.map, ParseState.written]
      · obtain ⟨res, hres⟩ := ih pre1.length (by omega) pre1 r1 fi1 pi1 fc1 rfl hpre1 hfc1
        refine ⟨res, fun t fuel hfuel => ?_⟩
        obtain ⟨f, rfl⟩ : ∃ f, fuel = f + 1 := ⟨fuel - 1, by omega⟩
        rw [← hres t f (by omega)]
        simp [parseLoop, hpeek t, hgo t, Except.bind]

/-- C17, as stated, fails for the empty `s`: the first character of the text is stored
without being examined, so `parse(")abc")` has the function field `)abc` while
`parse(")")` has the function field `)`. -/
theorem parse_leading_close_reads_on :
    (rapidRTOS_manager.parse staleFunction ([] ++ ")".toList ++ "abc".toList)).map
        (fun r => (cstr r.function, cstr r.parameters)) =
      Except.ok ([')', 'a', 'b', 'c'], []) ∧
    (rapidRTOS_manager.parse staleFunction ([] ++ ")".toList)).map
        (fun r => (cstr r.function, cstr r.parameters)) =
      Except.ok ([')'], []) ∧
    rapidRTOS_manager.parse staleFunction ([] ++ ")".toList ++ "abc".toList) ≠
      rapidRTOS_manager.parse staleFunction ([] ++ ")".toList) := by
  decide

/-- C17, amended. For every non-empty text `s` that holds no `)` and every suffix `t`,
`parse(s ++ ")" ++ t)` equals `parse(s ++ ")")`, be it a command or the failure of a
write outside an array: behind the first character, nothing after the first `)`
influences the result. -/
theorem parse_stops_at_close (uninit : rapidFunction) (s t : List Char) (hne : s ≠ [])
    (hs : ∀ x ∈ s, x ≠ ')') :
    rapidRTOS_manager.parse uninit (s ++ [')'] ++ t) =
      rapidRTOS_manager.parse uninit (s ++ [')']) := by
  obtain ⟨res, hres⟩ := parseLoop_before_close s.length s uninit 0 0 false rfl hs (fun _ => hne)
  rw [parse_eq_terminate, parse_eq_terminate]
  have h1 := hres t ((s ++ [')'] ++ t).length + 1) (by simp)
  have h2 := hres [] ((s ++ [')']).length + 1) (by simp)
  have e1 : s ++ [')'] ++ t = s ++ ')' :: t := by simp
  rw [e1] at h1 ⊢
  rw [h1, h2]

/-- An instance of C17 as amended: the text `led(on)` followed by `;x(`. -/
theorem parse_stops_at_close_witness :
    rapidRTOS_manager.parse staleFunction
        (['l', 'e', 'd', '(', 'o', 'n'] ++ [')'] ++ [';', 'x', '(']) =
      rapidRTOS_manager.parse staleFunction (['l', 'e', 'd', '(', 'o', 'n'] ++ [')']) :=
  parse_stops_at_close staleFunction ['l', 'e', 'd', '(', 'o', 'n'] [';', 'x', '(']
    (by decide) (by decide)

/-! ## The parser: text without parentheses, parentheses in the body -/

/-- The function branch, run on text without parentheses up to its terminator: the
text is stored from `functionIndex` on and the loop ends in the function branch. -/
theorem parseLoop_plain : ∀ (cs : List Char) (r : rapidFunction) (fi pi fuel : Nat),
    (∀ x ∈ cs, x ≠ '(' ∧ x ≠ ')' ∧ x ≠ NUL) → fi + cs.length ≤ 16 → r.function.length = 16 →
    ∃ r1, parseLoop (fuel + cs.length + 1) ⟨r, fi, pi, false, false, cs⟩ =
        Except.ok ⟨r1, fi + cs.length, pi, false, false, []⟩ ∧
      r1.parameters = r.parameters ∧ r1.function.length = 16 ∧
      r1.function.take (fi + cs.length) = r.function.take fi ++ cs := by
  intro cs
  induction cs with
  | nil =>
    intro r fi pi fuel _ _ hlen
    exact ⟨r, by simp [parseLoop, peek], rfl, hlen, by simp⟩
  | cons c cs ih =>
    intro r fi pi fuel hplain hfi hlen
    have hc := hplain c (by simp)
    simp only [List.length_cons] at hfi
    obtain ⟨r1, hloop, hp, hl, htake⟩ :=
      ih { r with function := r.function.set fi c } (fi + 1) pi fuel
        (fun x hx => hplain x (by simp [hx])) (by omega) (by simp [hlen])
    have e : fi + 1 + cs.length = fi + (cs.length + 1) := by omega
    rw [e] at hloop htake
    refine ⟨r1, ?_, hp, hl, ?_⟩
    · have hfi2 : fi < 16 := by omega
      have e2 : fuel + (c :: cs).length + 1 = (fuel + cs.length + 1) + 1 := by
        simp only [List.length_cons]; omega
      rw [e2, List.length_cons, ← hloop]
      have hN1 : ¬ (NUL = ')') := by decide
      have hN2 : ¬ (NUL = '(') := by decide
      cases cs with
      | nil =>
        simp [parseLoop, parseBody, writeFunction, advance, peek, Except.bind, hc.2.2, hfi2,
          hN1, hN2]
      | cons d t =>
        have hd := hplain d (by simp)
        simp [parseLoop, parseBody, writeFunction, advance, peek, Except.bind, hc.2.2, hfi2,
          hd.1, hd.2.1]
    · rw [List.length_cons, htake]
      simp [take_set_succ c r.function fi (by omega)]

/-- C19. For every text of at most 15 characters that holds neither `(` nor `)` (nor the
terminator), the empty text included, `parse` returns a command whose function field
is the whole text and whose parameters field is empty. -/
theorem parse_no_parentheses (uninit : rapidFunction) (text : List Char)
    (hsized : uninit.sized) (hplain : ∀ x ∈ text, x ≠ '(' ∧ x ≠ ')' ∧ x ≠ NUL)
    (hlen : text.length ≤ 15) :
    ∃ r, rapidRTOS_manager.parse uninit text = Except.ok r ∧
      cstr r.function = text ∧ cstr r.parameters = [] := by
  obtain ⟨hf16, hp48⟩ := hsized
  obtain ⟨r1, hloop, hp1, hl1, htake1⟩ :=
    parseLoop_plain text uninit 0 0 0 hplain (by omega) hf16
  have hw1 : text.length < 16 := by omega
  refine ⟨⟨r1.function.set (0 + text.length) NUL, r1.parameters.set 0 NUL⟩, ?_, ?_, ?_⟩
  · unfold rapidRTOS_manager.parse
    have e : text.length + 1 = 0 + text.length + 1 := by omega
    rw [e, hloop]
    simp [Except.bind, writeFunction, writeParameters, hw1]
  · apply cstr_of_take _ _ (0 + text.length)
    · rw [take_set_succ NUL r1.function _ (by rw [hl1]; omega), htake1]
      simp
    · intro x hx
      exact (hplain x hx).2.2
  · apply cstr_of_take _ _ 0
    · rw [take_set_succ NUL r1.parameters 0 (by rw [hp1, hp48]; omega)]
      simp
    · simp

/-- Two instances of C19, the text `stop` and the empty text; the fields `parse` gives
for `stop` are those it gives for `stop()`. -/
theorem parse_no_parentheses_witness :
    (∃ r, rapidRTOS_manager.parse staleFunction ['s', 't', 'o', 'p'] = Except.ok r ∧
      cstr r.function = ['s', 't', 'o', 'p'] ∧ cstr r.parameters = []) ∧
    (∃ r, rapidRTOS_manager.parse staleFunction [] = Except.ok r ∧
      cstr r.function = [] ∧ cstr r.parameters = []) ∧
    rapidRTOS_manager.parse staleFunction "stop".toList =
      rapidRTOS_manager.parse staleFunction "stop()".toList :=
  ⟨parse_no_parentheses staleFunction ['s', 't', 'o', 'p'] (by decide) (by decide) (by decide),
   parse_no_parentheses staleFunction [] (by decide) (by decide) (by decide), by decide⟩

/-- C18, as stated, fails: a `(` in the body is stepped over. The body `a(b` gives the
parameters `ab`, and the body `a((b` gives `a(b`: the character behind a `(` that has
been stepped over is stored as it is. -/
theorem parse_body_open_dropped :
    (rapidRTOS_manager.parse staleFunction "f(a(b)".toList).map
        (fun r => (cstr r.function, cstr r.parameters)) =
      Except.ok (['f'], ['a', 'b']) ∧
    (rapidRTOS_manager.parse staleFunction "f(a((b)".toList).map
        (fun r => (cstr r.function, cstr r.parameters)) =
      Except.ok (['f'], ['a', '(', 'b']) := by
  decide

/-- C18, amended. For every non-empty name of at most 15 characters without
parentheses and every body of at most 47 characters without `)`, `parse` of
`name ++ "(" ++ body ++ ")"` has the function field equal to the name, and its
parameters field is what `storedParameters` keeps of `"(" ++ body`: at the start of a
pass a `(` is stepped over and the character behind it is stored as it is. When the
body holds no `(`, the parameters field is the body. -/
theorem parse_body_stored (uninit : rapidFunction) (name body : List Char)
    (hsized : uninit.sized) (hne : name ≠ [])
    (hname : ∀ x ∈ name, x ≠ '(' ∧ x ≠ ')' ∧ x ≠ NUL) (hn15 : name.length ≤ 15)
    (hbody : ∀ x ∈ body, x ≠ ')' ∧ x ≠ NUL) (hb47 : body.length ≤ 47) :
    (∃ r, rapidRTOS_manager.parse uninit (name ++ '(' :: body ++ [')']) = Except.ok r ∧
      cstr r.function = name ∧ cstr r.parameters = storedParameters ('(' :: body)) ∧
    ((∀ x ∈ body, x ≠ '(') → storedParameters ('(' :: body) = body) := by
  constructor
  · match name, hne, hname, hn15 with
    | c :: cs, _, hname, hn15 =>
      have hst := storedParameters_open_length body
      exact parse_call uninit c cs body [] hsized hname hn15 hbody (by omega)
  · intro hplain
    cases body with
    | nil => simp [storedParameters]
    | cons d t =>
      have := storedParameters_plain t.length t (le_refl _)
        (fun x hx => hplain x (by simp [hx]))
      simp [storedParameters, this]

/-- An instance of C18 as amended: the body `a(b`. -/
theorem parse_body_stored_witness :
    (∃ r, rapidRTOS_manager.parse staleFunction (['f'] ++ '(' :: ['a', '(', 'b'] ++ [')']) =
        Except.ok r ∧
      cstr r.function = ['f'] ∧ cstr r.parameters = storedParameters ('(' :: ['a', '(', 'b'])) ∧
    ((∀ x ∈ ['a', '(', 'b'], x ≠ '(') → storedParameters ('(' :: ['a', '(', 'b']) =
      ['a', '(', 'b']) :=
  parse_body_stored staleFunction ['f'] ['a', '(', 'b'] (by decide) (by decide) (by decide)
    (by decide) (by decide) (by decide)

/-! ## The parser: the bounds of the two arrays -/

/-- The function branch on a name too long for `function[16]`: the write of the
sixteenth character's successor, or of the terminator, lands at index 16. -/
theorem parseLoop_name_overflow : ∀ (cs : List Char) (c : Char) (rest : List Char)
    (r : rapidFunction) (fi pi fuel : Nat), (∀ x ∈ c :: cs, x ≠ '(' ∧ x ≠ ')' ∧ x ≠ NUL) →
    16 ≤ fi + cs.length + 1 →
    parseLoop (fuel + cs.length + 1) ⟨r, fi, pi, false, false, c :: cs ++ '(' :: rest⟩ =
      Except.error ParseError.functionOverflow := by
  intro cs
  induction cs with
  | nil =>
    intro c rest r fi pi fuel hname hfi
    have hc := hname c (by simp)
    by_cases h16 : fi < 16
    · have h17 : ¬ (fi + 1 < 16) := by simp at hfi; omega
      simp [parseLoop, parseBody, writeFunction, advance, peek, Except.bind, hc.2.2, h16, h17]
    · simp [parseLoop, parseBody, writeFunction, peek, Except.bind, hc.2.2, h16]
  | cons d cs ih =>
    intro c rest r fi pi fuel hname hfi
    have hc := hname c (by simp)
    have hd := hname d (by simp)
    simp only [List.length_cons] at hfi
    have e2 : fuel + (d :: cs).length + 1 = (fuel + cs.length + 1) + 1 := by
      simp only [List.length_cons]; omega
    rw [e2]
    by_cases h16 : fi < 16
    · have := ih d rest { r with function := r.function.set fi c } (fi + 1) pi fuel
        (fun x hx => hname x (by simp at hx ⊢; tauto)) (by omega)
      rw [← this]
      simp [parseLoop, parseBody, writeFunction, advance, peek, Except.bind, hc.2.2, hd.1,
        hd.2.1, h16]
    · simp [parseLoop, parseBody, writeFunction, peek, Except.bind, hc.2.2, h16]

/-- The parameter branch on plain text too long for `parameters[48]`. -/
theorem parseLoop_parameters_overflow : ∀ (xs : List Char) (x : Char) (rest : List Char)
    (r : rapidFunction) (fi pi fuel : Nat), (∀ y ∈ x :: xs, y ≠ '(' ∧ y ≠ ')' ∧ y ≠ NUL) →
    48 ≤ pi + xs.length + 1 →
    parseLoop (fuel + xs.length + 1) ⟨r, fi, pi, true, false, x :: xs ++ ')' :: rest⟩ =
      Except.error ParseError.parametersOverflow := by
  intro xs
  induction xs with
  | nil =>
    intro x rest r fi pi fuel hplain hpi
    have hx := hplain x (by simp)
    by_cases h48 : pi < 48
    · have h49 : ¬ (pi + 1 < 48) := by simp at hpi; omega
      simp [parseLoop, parseBody, writeParameters, advance, peek, Except.bind, hx.1, hx.2.1,
        hx.2.2, h48, h49]
    · simp [parseLoop, parseBody, writeParameters, peek, Except.bind, hx.1, hx.2.1, hx.2.2,
        h48]
  | cons y xs ih =>
    intro x rest r fi pi fuel hplain hpi
    have hx := hplain x (by simp)
    have hy := hplain y (by simp)
    simp only [List.length_cons] at hpi
    have e2 : fuel + (y :: xs).length + 1 = (fuel + xs.length + 1) + 1 := by
      simp only [List.length_cons]; omega
    rw [e2]
    by_cases h48 : pi < 48
    · have := ih y rest { r with parameters := r.parameters.set pi x } fi (pi + 1) fuel
        (fun z hz => hplain z (by simp at hz ⊢; tauto)) (by omega)
      rw [← this]
      simp [parseLoop, parseBody, writeParameters, advance, peek, Except.bind, hx.1, hx.2.1,
        hx.2.2, hy.2.1, h48]
    · simp [parseLoop, parseBody, writeParameters, peek, Except.bind, hx.1, hx.2.1, hx.2.2,
        h48]

/-- The pass that starts at the `(` behind the name is the pass that starts at the
character behind that `(`, when this one is no `(` itself. -/
theorem parseLoop_skip_open (fuel : Nat) (r : rapidFunction) (fi pi : Nat) (x : Char)
    (rest : List Char) (hx : x ≠ '(' ∧ x ≠ ')' ∧ x ≠ NUL) :
    parseLoop (fuel + 1) ⟨r, fi, pi, true, false, '(' :: x :: rest⟩ =
      parseLoop (fuel + 1) ⟨r, fi, pi, true, false, x :: rest⟩ := by
  have hO : ¬ ('(' = NUL) := by decide
  simp [parseLoop, parseBody, advance, peek, Except.bind, hx.1, hx.2.1, hx.2.2, hO]

theorem cstr_terminator : ∀ (buffer : List Char), (cstr buffer).length < buffer.length →
    buffer.take ((cstr buffer).length + 1) = cstr buffer ++ [NUL]
  | [], h => by simp at h
  | a :: t, h => by
    by_cases ha : a = NUL
    · simp [cstr, ha]
    · have hc : cstr (a :: t) = a :: cstr t := by simp [cstr, ha]
      rw [hc] at h ⊢
      have := cstr_terminator t (by simpa using h)
      simp [this]

/-- C20. For every text `name ++ "(" ++ body ++ ")"` with a non-empty name, name and
body free of parentheses (and of the terminator): all writes of `parse`, the
terminators included, stay inside `function[16]` and `parameters[48]` if and only if
the name has at most 15 and the body at most 47 characters; a longer name makes a write
land at `function[16]`, a longer body at `parameters[48]`. Within the bound `parse`
returns, and each field holds its text followed by a terminator at the index equal to
the length of the text. -/
theorem parse_writes_in_bounds (uninit : rapidFunction) (name body : List Char)
    (hsized : uninit.sized) (hne : name ≠ [])
    (hname : ∀ x ∈ name, x ≠ '(' ∧ x ≠ ')' ∧ x ≠ NUL)
    (hbody : ∀ x ∈ body, x ≠ '(' ∧ x ≠ ')' ∧ x ≠ NUL) :
    (writesInBounds (rapidRTOS_manager.parse uninit (name ++ '(' :: body ++ [')'])) ↔
      name.length ≤ 15 ∧ body.length ≤ 47) ∧
    (15 < name.length →
      rapidRTOS_manager.parse uninit (name ++ '(' :: body ++ [')']) =
        Except.error ParseError.functionOverflow) ∧
    (name.length ≤ 15 → 47 < body.length →
      rapidRTOS_manager.parse uninit (name ++ '(' :: body ++ [')']) =
        Except.error ParseError.parametersOverflow) ∧
    (name.length ≤ 15 → body.length ≤ 47 →
      ∃ r, rapidRTOS_manager.parse uninit (name ++ '(' :: body ++ [')']) = Except.ok r ∧
        r.function.take (name.length + 1) = name ++ [NUL] ∧
        r.parameters.take (body.length + 1) = body ++ [NUL]) := by
  match name, hne, hname with
  | c :: cs, _, hname =>
    have hlong : 15 < (c :: cs).length →
        rapidRTOS_manager.parse uninit (c :: cs ++ '(' :: body ++ [')']) =
          Except.error ParseError.functionOverflow := by
      intro h15
      simp only [List.length_cons] at h15
      have hfuel : (c :: cs ++ '(' :: body ++ [')']).length + 1 =
          (body.length + 3) + cs.length + 1 := by
        simp; omega
      have e : c :: cs ++ '(' :: body ++ [')'] = c :: cs ++ '(' :: (body ++ [')']) := by simp
      unfold rapidRTOS_manager.parse
      rw [hfuel, e, parseLoop_name_overflow cs c _ uninit 0 0 _ hname (by omega)]
      rfl
    have hbodylong : (c :: cs).length ≤ 15 → 47 < body.length →
        rapidRTOS_manager.parse uninit (c :: cs ++ '(' :: body ++ [')']) =
          Except.error ParseError.parametersOverflow := by
      intro h15 h47
      simp only [List.length_cons] at h15
      match body, hbody, h47 with
      | b :: bs, hbody, h47 =>
        simp only [List.length_cons] at h47
        obtain ⟨r1, hloop1, _, _, _⟩ :=
          parseLoop_name cs c (b :: (bs ++ [')'])) uninit 0 0 (3 + bs.length + 1) hname
            (by omega) hsized.1
        have hfuel : (c :: cs ++ '(' :: (b :: bs) ++ [')']).length + 1 =
            (3 + bs.length + 1) + cs.length + 1 := by
          simp; omega
        have e : c :: cs ++ '(' :: (b :: bs) ++ [')'] =
            c :: cs ++ '(' :: (b :: (bs ++ [')'])) := by simp
        have e5 : b :: (bs ++ [')']) = b :: bs ++ ')' :: [] := by simp
        unfold rapidRTOS_manager.parse
        rw [hfuel, e, hloop1, parseLoop_skip_open _ _ _ _ _ _ (hbody b (by simp)), e5,
          parseLoop_parameters_overflow bs b [] r1 _ 0 3 hbody (by omega)]
        rfl
    have hok : (c :: cs).length ≤ 15 → body.length ≤ 47 →
        ∃ r, rapidRTOS_manager.parse uninit (c :: cs ++ '(' :: body ++ [')']) = Except.ok r ∧
          r.function.take ((c :: cs).length + 1) = c :: cs ++ [NUL] ∧
          r.parameters.take (body.length + 1) = body ++ [NUL] := by
      intro h15 h47
      have hst : storedParameters ('(' :: body) = body := by
        cases body with
        | nil => simp [storedParameters]
        | cons d t =>
          have := storedParameters_plain t.length t (le_refl _)
            (fun x hx => (hbody x (by simp [hx])).1)
          simp [storedParameters, this]
      obtain ⟨r, hparse, hf, hp⟩ := parse_call uninit c cs body [] hsized hname h15
        (fun x hx => ⟨(hbody x hx).2.1, (hbody x hx).2.2⟩) (by rw [hst]; exact h47)
      rw [hst] at hp
      have hrs := parse_sized uninit r _ hparse hsized
      refine ⟨r, hparse, ?_, ?_⟩
      · have := cstr_terminator r.function (by rw [hf, hrs.1]; omega)
        rw [hf] at this
        exact this
      · have := cstr_terminator r.parameters (by rw [hp, hrs.2]; omega)
        rw [hp] at this
        exact this
    refine ⟨?_, hlong, hbodylong, hok⟩
    constructor
    · intro hw
      by_contra hnot
      by_cases h15 : (c :: cs).length ≤ 15
      · have h47 : 47 < body.length := by
          by_contra h
          exact hnot ⟨h15, by omega⟩
        exact hw.2 (hbodylong h15 h47)
      · exact hw.1 (hlong (by omega))
    · rintro ⟨h15, h47⟩
      obtain ⟨r, hparse, _, _⟩ := hok h15 h47
      rw [hparse]
      exact ⟨by simp, by simp⟩

/-- An instance of C20: the text `led(on)`, within the bounds. -/
theorem parse_writes_in_bounds_witness :
    (writesInBounds (rapidRTOS_manager.parse staleFunction
        (['l', 'e', 'd'] ++ '(' :: ['o', 'n'] ++ [')'])) ↔
      ['l', 'e', 'd'].length ≤ 15 ∧ ['o', 'n'].length ≤ 47) ∧
    (15 < ['l', 'e', 'd'].length →
      rapidRTOS_manager.parse staleFunction (['l', 'e', 'd'] ++ '(' :: ['o', 'n'] ++ [')']) =
        Except.error ParseError.functionOverflow) ∧
    (['l', 'e', 'd'].length ≤ 15 → 47 < ['o', 'n'].length →
      rapidRTOS_manager.parse staleFunction (['l', 'e', 'd'] ++ '(' :: ['o', 'n'] ++ [')']) =
        Except.error ParseError.parametersOverflow) ∧
    (['l', 'e', 'd'].length ≤ 15 → ['o', 'n'].length ≤ 47 →
      ∃ r, rapidRTOS_manager.parse staleFunction
          (['l', 'e', 'd'] ++ '(' :: ['o', 'n'] ++ [')']) = Except.ok r ∧
        r.function.take (['l', 'e', 'd'].length + 1) = ['l', 'e', 'd'] ++ [NUL] ∧
        r.parameters.take (['o', 'n'].length + 1) = ['o', 'n'] ++ [NUL]) :=
  parse_writes_in_bounds staleFunction ['l', 'e', 'd'] ['o', 'n'] (by decide) (by decide)
    (by decide) (by decide)

/-! ## The count of registered tasks -/

/-- The counting loop from index `i` on, with room left in the `uint8_t`: the counter
grows by the number of slots from `i` on that satisfy the condition. -/
theorem countFrom_eq_card (cond : Fin rapidRTOS_MAX_MODULES → Bool) :
    ∀ (fuel i numTasks : Nat), rapidRTOS_MAX_MODULES ≤ i + fuel → numTasks + (10 - i) < 256 →
    countFrom cond fuel i numTasks =
      numTasks + (Finset.univ.filter
        (fun k : Fin rapidRTOS_MAX_MODULES => i ≤ k.val ∧ cond k = true)).card := by
  intro fuel
  induction fuel with
  | zero =>
    intro i numTasks hi _
    have hempty : Finset.univ.filter
        (fun k : Fin rapidRTOS_MAX_MODULES => i ≤ k.val ∧ cond k = true) = ∅ := by
      apply Finset.filter_eq_empty_iff.2
      intro k _ hk
      have := k.isLt
      omega
    simp [countFrom, hempty]
  | succ fuel ih =>
    intro i numTasks hi hroom
    by_cases hlt : i < rapidRTOS_MAX_MODULES
    · have hsplit : Finset.univ.filter
          (fun k : Fin rapidRTOS_MAX_MODULES => i ≤ k.val ∧ cond k = true) =
          (if cond ⟨i, hlt⟩ = true then {⟨i, hlt⟩} else ∅) ∪
            Finset.univ.filter
              (fun k : Fin rapidRTOS_MAX_MODULES => i + 1 ≤ k.val ∧ cond k = true) := by
        ext k
        simp only [Finset.mem_filter, Finset.mem_univ, true_and, Finset.mem_union]
        constructor
        · rintro ⟨h1, h2⟩
          rcases Nat.eq_or_lt_of_le h1 with h3 | h3
          · left
            have : k = ⟨i, hlt⟩ := Fin.ext h3.symm
            subst this
            simp [h2]
          · right
            exact ⟨h3, h2⟩
        · rintro (h | ⟨h1, h2⟩)
          · by_cases hc : cond ⟨i, hlt⟩ = true
            · simp only [hc, if_true, Finset.mem_singleton] at h
              subst h
              exact ⟨le_refl _, hc⟩
            · simp [hc] at h
          · exact ⟨by omega, h2⟩
      have hdisj : Disjoint (if cond ⟨i, hlt⟩ = true then ({⟨i, hlt⟩} : Finset _) else ∅)
          (Finset.univ.filter
            (fun k : Fin rapidRTOS_MAX_MODULES => i + 1 ≤ k.val ∧ cond k = true)) := by
        rw [Finset.disjoint_left]
        intro k hk1 hk2
        by_cases hc : cond ⟨i, hlt⟩ = true
        · simp only [hc, if_true, Finset.mem_singleton] at hk1
          subst hk1
          simp at hk2
        · simp [hc] at hk1
      rw [hsplit, Finset.card_union_of_disjoint hdisj]
      simp only [countFrom, hlt, dite_true]
      have h10 : (10 : Nat) = rapidRTOS_MAX_MODULES := rfl
      by_cases hc : cond ⟨i, hlt⟩ = true
      · have hmod : (numTasks + 1) % 256 = numTasks + 1 := Nat.mod_eq_of_lt (by omega)
        rw [ih (i + 1) _ (by omega) (by simp only [hc, if_true, hmod]; omega)]
        simp only [hc, if_true, hmod, Finset.card_singleton]
        omega
      · rw [ih (i + 1) _ (by omega) (by simp only [hc]; simp; omega)]
        simp [hc]
    · have hempty : Finset.univ.filter
          (fun k : Fin rapidRTOS_MAX_MODULES => i ≤ k.val ∧ cond k = true) = ∅ := by
        apply Finset.filter_eq_empty_iff.2
        intro k _ hk
        have := k.isLt
        omega
      simp [countFrom, hlt, hempty]

theorem getNumTasks_eq_activeSlots (m : rapidRTOS_manager) :
    m.getNumTasks = m.activeSlots := by
  unfold rapidRTOS_manager.getNumTasks rapidRTOS_manager.activeSlots
  rw [countFrom_eq_card _ _ 0 0 (by simp) (by simp)]
  simp

theorem activeSlots_fill (m1 m2 : rapidRTOS_manager) (i : Fin rapidRTOS_MAX_MODULES)
    (taskName : String) (hi : m1._taskNames i = "") (hname : taskName ≠ "")
    (h : m2._taskNames = Function.update m1._taskNames i taskName) :
    m2.activeSlots = m1.activeSlots + 1 := by
  unfold rapidRTOS_manager.activeSlots
  have hset : Finset.univ.filter (fun k : Fin rapidRTOS_MAX_MODULES => m2._taskNames k ≠ "") =
      insert i (Finset.univ.filter
        (fun k : Fin rapidRTOS_MAX_MODULES => m1._taskNames k ≠ "")) := by
    ext k
    simp only [Finset.mem_filter, Finset.mem_univ, true_and, Finset.mem_insert, h,
      Function.update_apply]
    by_cases hk : k = i
    · simp [hk, hname]
    · simp [hk]
  rw [hset, Finset.card_insert_of_not_mem (by simp [hi])]

theorem activeSlots_clear (m1 m2 : rapidRTOS_manager) (i : Fin rapidRTOS_MAX_MODULES)
    (hi : m1._taskNames i ≠ "") (h : m2._taskNames = Function.update m1._taskNames i "") :
    m2.activeSlots + 1 = m1.activeSlots := by
  unfold rapidRTOS_manager.activeSlots
  have hset : Finset.univ.filter (fun k : Fin rapidRTOS_MAX_MODULES => m2._taskNames k ≠ "") =
      (Finset.univ.filter
        (fun k : Fin rapidRTOS_MAX_MODULES => m1._taskNames k ≠ "")).erase i := by
    ext k
    simp only [Finset.mem_filter, Finset.mem_univ, true_and, Finset.mem_erase, h,
      Function.update_apply]
    by_cases hk : k = i
    · simp [hk]
    · simp [hk]
  have hmem : i ∈ Finset.univ.filter
      (fun k : Fin rapidRTOS_MAX_MODULES => m1._taskNames k ≠ "") := by simp [hi]
  rw [hset, Finset.card_erase_of_mem hmem]
  have hpos := Finset.card_pos.2 ⟨i, hmem⟩
  omega

theorem activeSlots_le (m : rapidRTOS_manager) : m.activeSlots ≤ 10 := by
  unfold rapidRTOS_manager.activeSlots
  have h := Finset.card_filter_le (Finset.univ : Finset (Fin rapidRTOS_MAX_MODULES))
    (fun k => m._taskNames k ≠ "")
  simpa using h

/-- A `reg` or `dereg` of the empty name writes `""` over a name that is `""`: the names
stay as they were. -/
theorem empty_name_keeps_names (m : rapidRTOS_manager) (taskHandle : TaskHandle_t)
    (command response : QueueRef) :
    (m.reg taskHandle "" command response).2._taskNames = m._taskNames ∧
    (m.dereg "").2._taskNames = m._taskNames := by
  constructor
  · rcases reg_cases m taskHandle "" command response with ⟨_, h⟩ | ⟨i, hi, _, h⟩
    · rw [h]
    · rw [h]
      show Function.update m._taskNames i "" = m._taskNames
      rw [← hi, Function.update_eq_self]
  · rcases dereg_cases m "" with ⟨_, h⟩ | ⟨i, hi, _, h⟩
    · rw [h]
    · rw [h]
      show Function.update m._taskNames i "" = m._taskNames
      rw [← hi, Function.update_eq_self]

/-- C21. For every directory state: `getNumTasks` returns the number of slots with a
non-empty name, which never exceeds 10; a `reg` of a non-empty name that returns 1
raises it by exactly one and a `dereg` of a non-empty name that returns 1 lowers it by
exactly one; a `reg` or `dereg` that returns 0 leaves it as it was; a `reg` or `dereg`
of the empty name leaves it as it was too, and returns 1 whenever a slot is free. -/
theorem getNumTasks_tracks_registration (m : rapidRTOS_manager) (taskHandle : TaskHandle_t)
    (taskName : String) (command response : QueueRef) :
    m.getNumTasks = m.activeSlots ∧ m.getNumTasks ≤ 10 ∧
    (taskName ≠ "" → (m.reg taskHandle taskName command response).1 = 1 →
      (m.reg taskHandle taskName command response).2.getNumTasks = m.getNumTasks + 1) ∧
    (taskName ≠ "" → (m.dereg taskName).1 = 1 →
      (m.dereg taskName).2.getNumTasks + 1 = m.getNumTasks) ∧
    ((m.reg taskHandle taskName command response).1 = 0 →
      (m.reg taskHandle taskName command response).2.getNumTasks = m.getNumTasks) ∧
    ((m.dereg taskName).1 = 0 → (m.dereg taskName).2.getNumTasks = m.getNumTasks) ∧
    ((m.reg taskHandle "" command response).2.getNumTasks = m.getNumTasks ∧
      ((∃ i, m._taskNames i = "") → (m.reg taskHandle "" command response).1 = 1)) ∧
    ((m.dereg "").2.getNumTasks = m.getNumTasks ∧
      ((∃ i, m._taskNames i = "") → (m.dereg "").1 = 1)) := by
  refine ⟨getNumTasks_eq_activeSlots m, ?_, ?_, ?_, ?_, ?_, ?_, ?_⟩
  · rw [getNumTasks_eq_activeSlots]
    exact activeSlots_le m
  · intro hname h1
    rcases reg_cases m taskHandle taskName command response with ⟨_, h⟩ | ⟨i, hi, _, h⟩
    · rw [h] at h1
      cases h1
    · rw [getNumTasks_eq_activeSlots, getNumTasks_eq_activeSlots]
      exact activeSlots_fill m _ i taskName hi hname (by rw [h])
  · intro hname h1
    rcases dereg_cases m taskName with ⟨_, h⟩ | ⟨i, hi, _, h⟩
    · rw [h] at h1
      cases h1
    · rw [getNumTasks_eq_activeSlots, getNumTasks_eq_activeSlots]
      exact activeSlots_clear m _ i (by rw [hi]; exact hname) (by rw [h])
  · intro h0
    rcases reg_cases m taskHandle taskName command response with ⟨_, h⟩ | ⟨i, _, _, h⟩
    · rw [h]
    · rw [h] at h0
      cases h0
  · intro h0
    rcases dereg_cases m taskName with ⟨_, h⟩ | ⟨i, _, _, h⟩
    · rw [h]
    · rw [h] at h0
      cases h0
  · refine ⟨getNumTasks_congr _ _ (empty_name_keeps_names m taskHandle command response).1,
      fun ⟨i, hi⟩ => ?_⟩
    rcases reg_cases m taskHandle "" command response with ⟨hfull, _⟩ | ⟨j, _, _, h⟩
    · exact absurd hi (hfull i)
    · rw [h]
  · refine ⟨getNumTasks_congr _ _ (empty_name_keeps_names m taskHandle command response).2,
      fun ⟨i, hi⟩ => ?_⟩
    rcases dereg_cases m "" with ⟨hnone, _⟩ | ⟨j, _, _, h⟩
    · exact absurd hi (hnone i)
    · rw [h]

/-- An instance of C21: the directory of the running plugin `a`, with a `reg` of `b` and
a `dereg` of `a`, and the empty name registered and deregistered with result 1. -/
theorem getNumTasks_tracks_registration_witness :
    (runningDirectory.getNumTasks = 1 ∧
      (runningDirectory.reg 31 "b" QueueRef.null QueueRef.null).2.getNumTasks = 2 ∧
      (runningDirectory.dereg "a").2.getNumTasks = 0 ∧
      (runningDirectory.reg 31 "" QueueRef.null QueueRef.null).1 = 1 ∧
      (runningDirectory.reg 31 "" QueueRef.null QueueRef.null).2.getNumTasks = 1 ∧
      (runningDirectory.dereg "").1 = 1 ∧ (runningDirectory.dereg "").2.getNumTasks = 1) ∧
    (runningDirectory.reg 31 "b" QueueRef.null QueueRef.null).2.getNumTasks =
      runningDirectory.getNumTasks + 1 ∧
    (runningDirectory.dereg "a").2.getNumTasks + 1 = runningDirectory.getNumTasks :=
  ⟨by decide,
   (getNumTasks_tracks_registration runningDirectory 31 "b" QueueRef.null
      QueueRef.null).2.2.1 (by decide) (by decide),
   (getNumTasks_tracks_registration runningDirectory 31 "a" QueueRef.null
      QueueRef.null).2.2.2.1 (by decide) (by decide)⟩

/-! ## The parser: reading behind the terminator -/

/-- C22, the code at failing inputs. On the text `f(` the parameter branch steps over the
`(`, finds the terminator, stores it as a parameter character and moves the read
pointer behind it: what `parse` examines next lies behind the terminator of the text.
The same happens on `f(a(`. On `f(a` and on `stop` the read pointer stops at the
terminator. -/
theorem parse_unclosed_reads_past_terminator :
    rapidRTOS_manager.parse staleFunction "f(".toList =
      Except.error ParseError.readPastTerminator ∧
    rapidRTOS_manager.parse staleFunction "f(a(".toList =
      Except.error ParseError.readPastTerminator ∧
    (rapidRTOS_manager.parse staleFunction "f(a".toList).map
        (fun r => (cstr r.function, cstr r.parameters)) = Except.ok (['f'], ['a']) ∧
    (rapidRTOS_manager.parse staleFunction "stop".toList).map
        (fun r => (cstr r.function, cstr r.parameters)) =
      Except.ok (['s', 't', 'o', 'p'], []) := by
  decide

end RapidRTOS
